import Mathlib

/-!
# ProtonVPN callout driver: shallow embedding of `Callout.cpp`

Memory is modelled as lists of bytes (`List Nat`, every element below 256 in a
well-formed value).  Multi-byte loads and stores are little-endian, as on every
Windows target.  Kernel and filtering-engine calls whose outcome the driver
cannot decide are supplied by an explicit environment record, and the calls
the driver makes are recorded in a trace.
-/

namespace Callout

/-! ## Byte-level memory -/

/-- One byte of a buffer; reading past the end yields 0. -/
def readByte (buf : List Nat) (off : Nat) : Nat := buf.getD off 0

/-- A native (little-endian) `UINT16` load. -/
def readU16 (buf : List Nat) (off : Nat) : Nat :=
  readByte buf off + 256 * readByte buf (off + 1)

/-- A native (little-endian) `UINT32` load. -/
def readU32 (buf : List Nat) (off : Nat) : Nat :=
  readByte buf off + 256 * readByte buf (off + 1) + 65536 * readByte buf (off + 2)
    + 16777216 * readByte buf (off + 3)

/-- The `n` bytes starting at `off`. -/
def readBytes (buf : List Nat) (off n : Nat) : List Nat := (buf.drop off).take n

/-- Store the bytes `src` at `off`; a store never grows the buffer. -/
def writeBytes : List Nat → Nat → List Nat → List Nat
  | buf, _, [] => buf
  | buf, off, b :: bs => writeBytes (buf.set off b) (off + 1) bs

/-- The two bytes of a native `UINT16`. -/
def le16 (v : Nat) : List Nat := [v % 256, v / 256 % 256]

/-- The four bytes of a native `UINT32`. -/
def le32 (v : Nat) : List Nat := [v % 256, v / 256 % 256, v / 65536 % 256, v / 16777216 % 256]

/-- A native `UINT16` store. -/
def writeU16 (buf : List Nat) (off v : Nat) : List Nat := writeBytes buf off (le16 v)

/-- A native `UINT32` store. -/
def writeU32 (buf : List Nat) (off v : Nat) : List Nat := writeBytes buf off (le32 v)

/-- `RtlUshortByteSwap` on a 16-bit value (`htons` and `ntohs` of the driver). -/
def RtlUshortByteSwap (v : Nat) : Nat := (v % 256) * 256 + v / 256 % 256

/-- `htons`: host to network order of a `UINT16`. -/
def htons (v : Nat) : Nat := RtlUshortByteSwap (v % 65536)

/-- `ntohs`: network to host order of a `UINT16`. -/
def ntohs (v : Nat) : Nat := RtlUshortByteSwap (v % 65536)

/-- `RtlUlongByteSwap` on a 32-bit value. -/
def RtlUlongByteSwap (v : Nat) : Nat :=
  (v % 256) * 16777216 + (v / 256 % 256) * 65536 + (v / 65536 % 256) * 256 + v / 16777216 % 256

/-! ## Address families and the address classifier (`Callout.cpp` lines 77-112)

`IN_ADDR` is four bytes and `IN6_ADDR` sixteen bytes, both in network order in
memory.  The `IN4_IS_ADDR_*` and `IN6_IS_ADDR_*` predicates are the inline
functions of the Windows headers `mstcpip.h` and `in6addr.h`; the ranges they
test are the ones the comments of `IsLocalIPv4Address` and
`IsLocalIPv6Address` name.
-/

def AF_UNSPEC : Nat := 0
def AF_INET : Nat := 2
def AF_INET6 : Nat := 23

/-- The `S_un.S_addr` view of an `IN_ADDR`: its four bytes as a native `ULONG`. -/
def S_addr (a : List Nat) : Nat := readU32 a 0

/-- `IN4_IS_ADDR_LOOPBACK`: `*((PUCHAR) a) == 0x7f`. -/
def IN4_IS_ADDR_LOOPBACK (a : List Nat) : Bool := readByte a 0 == 0x7f

/-- `IN4_IS_ADDR_LINKLOCAL`: `(a->s_addr & 0xffff) == 0xfea9`. -/
def IN4_IS_ADDR_LINKLOCAL (a : List Nat) : Bool := S_addr a &&& 0xffff == 0xfea9

/-- `IN4_IS_ADDR_RFC1918`: 10/8, 172.16/12 and 192.168/16. -/
def IN4_IS_ADDR_RFC1918 (a : List Nat) : Bool :=
  (S_addr a &&& 0x00ff == 0x000a) ||
  (S_addr a &&& 0xf0ff == 0x10ac) ||
  (S_addr a &&& 0xffff == 0xa8c0)

/-- `IN4_IS_ADDR_MC_LINKLOCAL`: `(a->s_addr & 0xffffff) == 0xe0`. -/
def IN4_IS_ADDR_MC_LINKLOCAL (a : List Nat) : Bool := S_addr a &&& 0xffffff == 0xe0

/-- `IN4_IS_ADDR_BROADCAST`: `a->s_addr == INADDR_BROADCAST`. -/
def IN4_IS_ADDR_BROADCAST (a : List Nat) : Bool := S_addr a == 0xffffffff

/-- `IN4_IS_ADDR_MC_ADMINLOCAL`: `(a->s_addr & 0xffff) == 0xffef`. -/
def IN4_IS_ADDR_MC_ADMINLOCAL (a : List Nat) : Bool := S_addr a &&& 0xffff == 0xffef

/-- `IsLocalIPv4Address`, lines 77-89. -/
def IsLocalIPv4Address (address : List Nat) : Bool :=
  IN4_IS_ADDR_LOOPBACK address ||
  IN4_IS_ADDR_LINKLOCAL address ||
  IN4_IS_ADDR_RFC1918 address ||
  IN4_IS_ADDR_MC_LINKLOCAL address ||
  IN4_IS_ADDR_BROADCAST address ||
  IN4_IS_ADDR_MC_ADMINLOCAL address

/-- The `s6_words[i]` view of an `IN6_ADDR`: a native `USHORT` load. -/
def s6_words (a : List Nat) (i : Nat) : Nat := readU16 a (2 * i)

/-- `IN6_IS_ADDR_UNSPECIFIED`: all eight words are zero. -/
def IN6_IS_ADDR_UNSPECIFIED (a : List Nat) : Bool :=
  s6_words a 0 == 0 && s6_words a 1 == 0 && s6_words a 2 == 0 && s6_words a 3 == 0 &&
  s6_words a 4 == 0 && s6_words a 5 == 0 && s6_words a 6 == 0 && s6_words a 7 == 0

/-- `IN6_IS_ADDR_LOOPBACK`: seven zero words, then the word `0x0100`. -/
def IN6_IS_ADDR_LOOPBACK (a : List Nat) : Bool :=
  s6_words a 0 == 0 && s6_words a 1 == 0 && s6_words a 2 == 0 && s6_words a 3 == 0 &&
  s6_words a 4 == 0 && s6_words a 5 == 0 && s6_words a 6 == 0 && s6_words a 7 == 0x0100

/-- `IN6_IS_ADDR_LINKLOCAL`: `s6_bytes[0] == 0xfe && (s6_bytes[1] & 0xc0) == 0x80`. -/
def IN6_IS_ADDR_LINKLOCAL (a : List Nat) : Bool :=
  readByte a 0 == 0xfe && (readByte a 1 &&& 0xc0 == 0x80)

/-- `IN6_IS_ADDR_SITELOCAL`: `s6_bytes[0] == 0xfe && (s6_bytes[1] & 0xc0) == 0xc0`. -/
def IN6_IS_ADDR_SITELOCAL (a : List Nat) : Bool :=
  readByte a 0 == 0xfe && (readByte a 1 &&& 0xc0 == 0xc0)

/-- `IN6_IS_ADDR_MULTICAST`: `s6_bytes[0] == 0xff`. -/
def IN6_IS_ADDR_MULTICAST (a : List Nat) : Bool := readByte a 0 == 0xff

/-- `IsAddressTeredo`, lines 91-97. -/
def IsAddressTeredo (address : List Nat) : Bool :=
  (readByte address 0 == 0x20) && (readByte address 1 == 0x01) &&
  (readByte address 2 == 0x00) && (readByte address 3 == 0x00)

/-- `IsLocalIPv6Address`, lines 99-112. -/
def IsLocalIPv6Address (address : List Nat) : Bool :=
  IN6_IS_ADDR_UNSPECIFIED address ||
  IN6_IS_ADDR_LOOPBACK address ||
  IN6_IS_ADDR_LINKLOCAL address ||
  IN6_IS_ADDR_SITELOCAL address ||
  IN6_IS_ADDR_MULTICAST address ||
  IsAddressTeredo address ||
  (readByte address 0 &&& 0xFE == 0xFC)

/-! ### Address ranges as the specification words them -/

/-- The number an address denotes: its bytes read in network (big-endian) order. -/
def addrValue (bs : List Nat) : Nat := bs.foldl (fun acc b => acc * 256 + b) 0

/-- Membership of `addr` in the range `net/bits`: the leading `bits` bits of the
two addresses agree. -/
def inCidr (addr net : List Nat) (bits : Nat) : Prop :=
  addr.length = net.length ∧
  addrValue addr / 2 ^ (8 * addr.length - bits) = addrValue net / 2 ^ (8 * net.length - bits)

instance (addr net : List Nat) (bits : Nat) : Decidable (inCidr addr net bits) := by
  unfold inCidr; infer_instance

/-- The IPv4 addresses the specification calls local: 127.0.0.0/8,
169.254.0.0/16, 10.0.0.0/8, 172.16.0.0/12, 192.168.0.0/16, 224.0.0.0/24,
239.255.0.0/16 and 255.255.255.255. -/
def specLocalIPv4 (a : List Nat) : Prop :=
  inCidr a [127, 0, 0, 0] 8 ∨
  inCidr a [169, 254, 0, 0] 16 ∨
  inCidr a [10, 0, 0, 0] 8 ∨
  inCidr a [172, 16, 0, 0] 12 ∨
  inCidr a [192, 168, 0, 0] 16 ∨
  inCidr a [224, 0, 0, 0] 24 ∨
  inCidr a [239, 255, 0, 0] 16 ∨
  a = [255, 255, 255, 255]

/-- The IPv6 addresses the specification calls local: `::`, `::1`, `fe80::/10`,
`fec0::/10`, `ff00::/8`, `2001:0000::/32` and `fc00::/7`. -/
def specLocalIPv6 (a : List Nat) : Prop :=
  a = [0, 0, 0, 0, 0, 0, 0, 0, 0, 0, 0, 0, 0, 0, 0, 0] ∨
  a = [0, 0, 0, 0, 0, 0, 0, 0, 0, 0, 0, 0, 0, 0, 0, 1] ∨
  inCidr a [0xfe, 0x80, 0, 0, 0, 0, 0, 0, 0, 0, 0, 0, 0, 0, 0, 0] 10 ∨
  inCidr a [0xfe, 0xc0, 0, 0, 0, 0, 0, 0, 0, 0, 0, 0, 0, 0, 0, 0] 10 ∨
  inCidr a [0xff, 0, 0, 0, 0, 0, 0, 0, 0, 0, 0, 0, 0, 0, 0, 0] 8 ∨
  inCidr a [0x20, 0x01, 0, 0, 0, 0, 0, 0, 0, 0, 0, 0, 0, 0, 0, 0] 32 ∨
  inCidr a [0xfc, 0, 0, 0, 0, 0, 0, 0, 0, 0, 0, 0, 0, 0, 0, 0] 7

/-! ## Filtering-engine data (`fwpsk.h`, `fwptypes.h`) -/

def FWP_ACTION_BLOCK : Nat := 0x1001
def FWP_ACTION_PERMIT : Nat := 0x1002
def FWPS_RIGHT_ACTION_WRITE : Nat := 0x1
def FWPS_CLASSIFY_OUT_FLAG_ABSORB : Nat := 0x1
def FWP_CONDITION_FLAG_IS_REAUTHORIZE : Nat := 0x4
def FWPM_GENERAL_CONTEXT : Nat := 8
def IPPROTO_UDP : Nat := 17

/-- `TCP_PROTOCOL_ID`, line 11. -/
def TCP_PROTOCOL_ID : Nat := 6

/-- The layers the callouts compare `layerId` with; every other layer is `OTHER`. -/
inductive FWPS_BUILTIN_LAYERS where
  | FWPS_LAYER_OUTBOUND_IPPACKET_V4
  | FWPS_LAYER_ALE_CONNECT_REDIRECT_V4
  | FWPS_LAYER_ALE_CONNECT_REDIRECT_V6
  | FWPS_LAYER_ALE_BIND_REDIRECT_V4
  | FWPS_LAYER_ALE_BIND_REDIRECT_V6
  | OTHER (id : Nat)
  deriving DecidableEq

open FWPS_BUILTIN_LAYERS

/-- The entries of `incomingValue` the callouts index. -/
inductive FWPS_FIELD where
  | FWPS_FIELD_ALE_CONNECT_REDIRECT_V4_FLAGS
  | FWPS_FIELD_ALE_CONNECT_REDIRECT_V6_FLAGS
  | FWPS_FIELD_ALE_CONNECT_REDIRECT_V4_IP_REMOTE_ADDRESS
  | FWPS_FIELD_ALE_CONNECT_REDIRECT_V6_IP_REMOTE_ADDRESS
  | FWPS_FIELD_ALE_BIND_REDIRECT_V4_FLAGS
  | FWPS_FIELD_ALE_BIND_REDIRECT_V6_FLAGS
  | FWPS_FIELD_ALE_BIND_REDIRECT_V4_IP_PROTOCOL
  | FWPS_FIELD_ALE_BIND_REDIRECT_V6_IP_PROTOCOL
  | FWPS_FIELD_OUTBOUND_IPPACKET_V4_INTERFACE_INDEX
  | FWPS_FIELD_OUTBOUND_IPPACKET_V4_SUB_INTERFACE_INDEX
  deriving DecidableEq

open FWPS_FIELD

/-- The views of the `FWP_VALUE` union the callouts read; `byteArray16` is a
pointer and may be null. -/
structure FWP_VALUE where
  uint8 : Nat := 0
  uint32 : Nat := 0
  byteArray16 : Option (List Nat) := none

structure FWPS_INCOMING_VALUES where
  layerId : FWPS_BUILTIN_LAYERS
  incomingValue : FWPS_FIELD → FWP_VALUE

/-- `CONNECT_REDIRECT_DATA` of `Public.h`: the family tag and the sixteen bytes
of the `address` union, whose member `v4` is its first four bytes. -/
structure CONNECT_REDIRECT_DATA where
  addressFamily : Nat
  address : List Nat
  deriving DecidableEq

/-- The `v4` member of the policy's address union. -/
def CONNECT_REDIRECT_DATA.v4 (d : CONNECT_REDIRECT_DATA) : List Nat := readBytes d.address 0 4

/-- The `v6` member of the policy's address union. -/
def CONNECT_REDIRECT_DATA.v6 (d : CONNECT_REDIRECT_DATA) : List Nat := readBytes d.address 0 16

/-- `FWP_BYTE_BLOB`; `data` is the pointer the driver reinterprets as
`CONNECT_REDIRECT_DATA`. -/
structure FWP_BYTE_BLOB where
  size : Nat
  data : Option CONNECT_REDIRECT_DATA

structure FWPM_PROVIDER_CONTEXT where
  type : Nat
  dataBuffer : Option FWP_BYTE_BLOB

structure FWPS_FILTER where
  filterId : Nat
  providerContext : Option FWPM_PROVIDER_CONTEXT

structure FWPS_CLASSIFY_OUT where
  actionType : Nat
  rights : Nat
  flags : Nat
  deriving DecidableEq

/-- `FWPS_CONNECT_REQUEST`: two `SOCKADDR_STORAGE` values of 128 bytes each and
the scalar fields that follow them. -/
structure FWPS_CONNECT_REQUEST where
  localAddressAndPort : List Nat
  remoteAddressAndPort : List Nat
  portReservationToken : Nat
  localRedirectTargetPID : Nat
  deriving DecidableEq

/-- `FWPS_BIND_REQUEST`. -/
structure FWPS_BIND_REQUEST where
  localAddressAndPort : List Nat
  portReservationToken : Nat
  deriving DecidableEq

/-- Size of a `SOCKADDR_STORAGE`. -/
def sizeof_SOCKADDR_STORAGE : Nat := 128

/-- `sin_family` / `sin6_family` / `ss_family`: offset 0. -/
def ss_family (s : List Nat) : Nat := readU16 s 0

/-- `sin_port` / `sin6_port`: the two bytes at offset 2. -/
def sin_port (s : List Nat) : List Nat := readBytes s 2 2

/-- `sin_addr` of the `SOCKADDR_IN` view: the four bytes at offset 4. -/
def sin_addr (s : List Nat) : List Nat := readBytes s 4 4

/-- `sin6_flowinfo` of the `SOCKADDR_IN6` view: the four bytes at offset 4. -/
def sin6_flowinfo (s : List Nat) : List Nat := readBytes s 4 4

/-- `sin6_addr` of the `SOCKADDR_IN6` view: the sixteen bytes at offset 8. -/
def sin6_addr (s : List Nat) : List Nat := readBytes s 8 16

/-- `sin6_scope_id` of the `SOCKADDR_IN6` view: the four bytes at offset 24. -/
def sin6_scope_id (s : List Nat) : List Nat := readBytes s 24 4

/-! ## Redirect policy (`Callout.cpp` lines 13-75) -/

/-- `REDIRECT_ADDRESS`, lines 13-21: the family tag and the sixteen bytes of the
`address` union, whose member `ipv4` is its first four bytes. -/
structure REDIRECT_ADDRESS where
  family : Nat := AF_UNSPEC
  address : List Nat := List.replicate 16 0
  deriving DecidableEq

/-- `TryGetRedirectAddressFromContext`, lines 23-54.  Returns the result and the
value left in the output parameter. -/
def TryGetRedirectAddressFromContext (context : Option FWPM_PROVIDER_CONTEXT)
    (redirectAddress : REDIRECT_ADDRESS) : Bool × REDIRECT_ADDRESS :=
  let redirectAddress := { redirectAddress with family := AF_UNSPEC }
  match context with
  | none => (false, redirectAddress)
  | some context =>
    if context.type ≠ FWPM_GENERAL_CONTEXT then (false, redirectAddress)
    else
      match context.dataBuffer with
      | none => (false, redirectAddress)
      | some dataBuffer =>
        match dataBuffer.data with
        | none => (false, redirectAddress)
        | some data =>
          if data.addressFamily = AF_INET then
            (true, { family := AF_INET,
                     address := writeBytes redirectAddress.address 0 data.v4 })
          else if data.addressFamily = AF_INET6 then
            (true, { family := AF_INET6,
                     address := writeBytes redirectAddress.address 0 data.v6 })
          else (false, redirectAddress)

/-- `ApplyRedirectAddress`, lines 56-75.  Returns the result and the socket
address after the call. -/
def ApplyRedirectAddress (sockAddrStorage : List Nat) (redirectAddress : REDIRECT_ADDRESS) :
    Bool × List Nat :=
  if redirectAddress.family = AF_INET then
    let s := writeU16 sockAddrStorage 0 AF_INET
    let s := writeBytes s 4 (readBytes redirectAddress.address 0 4)
    (true, s)
  else if redirectAddress.family = AF_INET6 then
    let s := writeU16 sockAddrStorage 0 AF_INET6
    let s := writeBytes s 8 (readBytes redirectAddress.address 0 16)
    (true, s)
  else (false, sockAddrStorage)

/-! ## Connection and bind redirection (`Callout.cpp` lines 114-351) -/

/-- `GetConnectRedirectFlags`, lines 114-119. -/
def GetConnectRedirectFlags (inFixedValues : FWPS_INCOMING_VALUES) (isIpv4Layer : Bool) : Nat :=
  if isIpv4Layer then
    (inFixedValues.incomingValue FWPS_FIELD_ALE_CONNECT_REDIRECT_V4_FLAGS).uint32
  else
    (inFixedValues.incomingValue FWPS_FIELD_ALE_CONNECT_REDIRECT_V6_FLAGS).uint32

/-- `IsRemoteEndpointLocal`, lines 121-152. -/
def IsRemoteEndpointLocal (inFixedValues : FWPS_INCOMING_VALUES) (isIpv4Layer : Bool) : Bool :=
  if isIpv4Layer then
    let remoteAddress := writeU32 (List.replicate 4 0) 0 (RtlUlongByteSwap
      (inFixedValues.incomingValue FWPS_FIELD_ALE_CONNECT_REDIRECT_V4_IP_REMOTE_ADDRESS).uint32)
    if IsLocalIPv4Address remoteAddress then true else false
  else
    match (inFixedValues.incomingValue
        FWPS_FIELD_ALE_CONNECT_REDIRECT_V6_IP_REMOTE_ADDRESS).byteArray16 with
    | none => true
    | some remoteByteArray =>
      let remoteAddress := writeBytes (List.replicate 16 0) 0 (readBytes remoteByteArray 0 16)
      if IsLocalIPv6Address remoteAddress then true else false

/-- A call the redirect callouts make into the filtering engine. -/
inductive EngineCall where
  | FwpsAcquireClassifyHandle
  | FwpsAcquireWritableLayerDataPointer (classifyHandle : Nat)
  | FwpsApplyModifiedLayerData (classifyHandle : Nat)
  | FwpsReleaseClassifyHandle (classifyHandle : Nat)
  deriving DecidableEq

/-- What the engine answers during one classification: the status of the two
acquisitions, the handle a successful `FwpsAcquireClassifyHandle` stores, and
the request structure a successful `FwpsAcquireWritableLayerDataPointer` makes
writable.  A failed acquisition leaves its output parameter untouched, and no
engine call changes `classifyOut`. -/
structure EngineEnv (Req : Type) where
  acquireHandleSucceeds : Bool
  classifyHandle : Nat
  acquireWritableSucceeds : Bool
  layerData : Req

/-- Outcome of a redirect callout: the classify output, the engine's request
structure after the call, and the engine calls made, in order. -/
structure RedirectOutcome (Req : Type) where
  classifyOut : FWPS_CLASSIFY_OUT
  layerData : Req
  calls : List EngineCall

/-- The `__finally` block shared by both redirect callouts (lines 232-243 and
339-350), run with the values the two locals hold when the guarded block is left. -/
def redirectFinally (classifyHandle : Nat) (reqAcquired : Bool) : List EngineCall :=
  (if reqAcquired then [EngineCall.FwpsApplyModifiedLayerData classifyHandle] else []) ++
  (if classifyHandle ≠ 0 then [EngineCall.FwpsReleaseClassifyHandle classifyHandle] else [])

/-- `RedirectConnection`, lines 154-244. -/
def RedirectConnection (inFixedValues : Option FWPS_INCOMING_VALUES)
    (filter : Option FWPS_FILTER) (classifyOut : FWPS_CLASSIFY_OUT)
    (env : EngineEnv FWPS_CONNECT_REQUEST) : RedirectOutcome FWPS_CONNECT_REQUEST :=
  let classifyOut := { classifyOut with actionType := FWP_ACTION_PERMIT }
  let unchanged : RedirectOutcome FWPS_CONNECT_REQUEST := ⟨classifyOut, env.layerData, []⟩
  match inFixedValues, filter with
  | some inFixedValues, some filter =>
    if classifyOut.rights &&& FWPS_RIGHT_ACTION_WRITE = 0 then unchanged
    else
      let layerId := inFixedValues.layerId
      let isIpv4Layer : Bool := layerId = FWPS_LAYER_ALE_CONNECT_REDIRECT_V4
      let isIpv6Layer : Bool := layerId = FWPS_LAYER_ALE_CONNECT_REDIRECT_V6
      if !isIpv4Layer && !isIpv6Layer then unchanged
      else
        let flags := GetConnectRedirectFlags inFixedValues isIpv4Layer
        if flags &&& FWP_CONDITION_FLAG_IS_REAUTHORIZE ≠ 0 then unchanged
        else if IsRemoteEndpointLocal inFixedValues isIpv4Layer then unchanged
        else
          let (found, redirectAddress) :=
            TryGetRedirectAddressFromContext filter.providerContext {}
          if !found then unchanged
          else if (isIpv4Layer && redirectAddress.family ≠ AF_INET) ||
              (isIpv6Layer && redirectAddress.family ≠ AF_INET6) then unchanged
          else if !env.acquireHandleSucceeds then
            ⟨classifyOut, env.layerData,
              EngineCall.FwpsAcquireClassifyHandle :: redirectFinally 0 false⟩
          else
            let classifyHandle := env.classifyHandle
            if !env.acquireWritableSucceeds then
              ⟨classifyOut, env.layerData,
                [EngineCall.FwpsAcquireClassifyHandle,
                 EngineCall.FwpsAcquireWritableLayerDataPointer classifyHandle] ++
                redirectFinally classifyHandle false⟩
            else
              let connectReq := env.layerData
              let connectReq := { connectReq with
                localAddressAndPort :=
                  (ApplyRedirectAddress connectReq.localAddressAndPort redirectAddress).2 }
              ⟨classifyOut, connectReq,
                [EngineCall.FwpsAcquireClassifyHandle,
                 EngineCall.FwpsAcquireWritableLayerDataPointer classifyHandle] ++
                redirectFinally classifyHandle true⟩
  | _, _ => unchanged

/-- `GetBindRedirectFlags`, lines 246-251. -/
def GetBindRedirectFlags (inFixedValues : FWPS_INCOMING_VALUES) (isIpv4Layer : Bool) : Nat :=
  if isIpv4Layer then
    (inFixedValues.incomingValue FWPS_FIELD_ALE_BIND_REDIRECT_V4_FLAGS).uint32
  else
    (inFixedValues.incomingValue FWPS_FIELD_ALE_BIND_REDIRECT_V6_FLAGS).uint32

/-- `GetBindRedirectProtocol`, lines 253-258. -/
def GetBindRedirectProtocol (inFixedValues : FWPS_INCOMING_VALUES) (isIpv4Layer : Bool) : Nat :=
  if isIpv4Layer then
    (inFixedValues.incomingValue FWPS_FIELD_ALE_BIND_REDIRECT_V4_IP_PROTOCOL).uint8
  else
    (inFixedValues.incomingValue FWPS_FIELD_ALE_BIND_REDIRECT_V6_IP_PROTOCOL).uint8

/-- `RedirectUDPFlow`, lines 260-351. -/
def RedirectUDPFlow (inFixedValues : Option FWPS_INCOMING_VALUES)
    (filter : Option FWPS_FILTER) (classifyOut : FWPS_CLASSIFY_OUT)
    (env : EngineEnv FWPS_BIND_REQUEST) : RedirectOutcome FWPS_BIND_REQUEST :=
  let classifyOut := { classifyOut with actionType := FWP_ACTION_PERMIT }
  let unchanged : RedirectOutcome FWPS_BIND_REQUEST := ⟨classifyOut, env.layerData, []⟩
  match inFixedValues, filter with
  | some inFixedValues, some filter =>
    if classifyOut.rights &&& FWPS_RIGHT_ACTION_WRITE = 0 then unchanged
    else
      let layerId := inFixedValues.layerId
      let isIpv4Layer : Bool := layerId = FWPS_LAYER_ALE_BIND_REDIRECT_V4
      let isIpv6Layer : Bool := layerId = FWPS_LAYER_ALE_BIND_REDIRECT_V6
      if !isIpv4Layer && !isIpv6Layer then unchanged
      else
        let flags := GetBindRedirectFlags inFixedValues isIpv4Layer
        if flags &&& FWP_CONDITION_FLAG_IS_REAUTHORIZE ≠ 0 then unchanged
        else
          let protocol := GetBindRedirectProtocol inFixedValues isIpv4Layer
          if protocol = TCP_PROTOCOL_ID then unchanged
          else
            let (found, redirectAddress) :=
              TryGetRedirectAddressFromContext filter.providerContext {}
            if !found then unchanged
            else if (isIpv4Layer && redirectAddress.family ≠ AF_INET) ||
                (isIpv6Layer && redirectAddress.family ≠ AF_INET6) then unchanged
            else if !env.acquireHandleSucceeds then
              ⟨classifyOut, env.layerData,
                EngineCall.FwpsAcquireClassifyHandle :: redirectFinally 0 false⟩
            else
              let classifyHandle := env.classifyHandle
              if !env.acquireWritableSucceeds then
                ⟨classifyOut, env.layerData,
                  [EngineCall.FwpsAcquireClassifyHandle,
                   EngineCall.FwpsAcquireWritableLayerDataPointer classifyHandle] ++
                  redirectFinally classifyHandle false⟩
              else
                let bindReq := env.layerData
                let bindReq := { bindReq with
                  localAddressAndPort :=
                    (ApplyRedirectAddress bindReq.localAddressAndPort redirectAddress).2 }
                ⟨classifyOut, bindReq,
                  [EngineCall.FwpsAcquireClassifyHandle,
                   EngineCall.FwpsAcquireWritableLayerDataPointer classifyHandle] ++
                  redirectFinally classifyHandle true⟩
  | _, _ => unchanged


/-! ## DNS blocking (`Callout.cpp` lines 353-586) -/

/-- Modelled from the spec: the declarations of `Callout.h`, which is not among
the sources.  `MAX_PACKET_SIZE` is the "fixed upper packet-size limit" and
`sizeof_DNSHEADER` the size of the "minimal DNS header"; neither value is given,
so both are parameters of the model. -/
structure CalloutH where
  MAX_PACKET_SIZE : Nat
  sizeof_DNSHEADER : Nat
  deriving DecidableEq

/-- Modelled from the spec: `sizeof(IPHDR)`, the "standard IPv4 header (20 bytes,
no options)"; the comment on line 477 gives the same number. -/
def sizeof_IPHDR : Nat := 20

/-- Modelled from the spec: `sizeof(UDPHDR)`, the "standard UDP header (8 bytes)". -/
def sizeof_UDPHDR : Nat := 8

/-- `sizeof(UINT32)`. -/
def sizeof_UINT32 : Nat := 4

/-- `sizeof(DNSPACKETV4)`: an `IPHDR`, a `UDPHDR` and a `DNSHEADER`. -/
def CalloutH.sizeof_DNSPACKETV4 (h : CalloutH) : Nat :=
  sizeof_IPHDR + sizeof_UDPHDR + h.sizeof_DNSHEADER

/-- Modelled from the spec: the fields of `IPHDR`, `UDPHDR` and `DNSHEADER` of
`Callout.h` sit at their standard wire offsets.  `IPHDR`: `HdrLength` is the low
and `Version` the high nibble of byte 0, `Length` at 2, `Id` at 4, `TTL` at 8,
`Protocol` at 9, `Checksum` at 10, `SrcAddr` at 12, `DstAddr` at 16.  `UDPHDR`:
`SrcPort` at 0, `DstPort` at 2, `Length` at 4.  `DNSHEADER`: `transaction_id`
at 0, `flags` at 2.  The definitions below read these fields. -/
def IPHDR_HdrLength (p : List Nat) : Nat := readByte p 0 % 16

def IPHDR_Version (p : List Nat) : Nat := readByte p 0 / 16 % 16
def IPHDR_Length (p : List Nat) : Nat := readU16 p 2
def IPHDR_Id (p : List Nat) : Nat := readU16 p 4
def IPHDR_TTL (p : List Nat) : Nat := readByte p 8
def IPHDR_Protocol (p : List Nat) : Nat := readByte p 9
def IPHDR_Checksum (p : List Nat) : Nat := readU16 p 10
def IPHDR_SrcAddr (p : List Nat) : Nat := readU32 p 12
def IPHDR_DstAddr (p : List Nat) : Nat := readU32 p 16
def UDPHDR_SrcPort (p : List Nat) (udp : Nat) : Nat := readU16 p udp
def UDPHDR_DstPort (p : List Nat) (udp : Nat) : Nat := readU16 p (udp + 2)
def UDPHDR_Length (p : List Nat) (udp : Nat) : Nat := readU16 p (udp + 4)
def DNSHEADER_transaction_id (p : List Nat) (dns : Nat) : Nat := readU16 p dns
def DNSHEADER_flags (p : List Nat) (dns : Nat) : Nat := readU16 p (dns + 2)

/-- Store to the bit-field `Version` (high nibble of byte 0). -/
def IPHDR_setVersion (p : List Nat) (v : Nat) : List Nat :=
  writeBytes p 0 [readByte p 0 % 16 + 16 * (v % 16)]

/-- Store to the bit-field `HdrLength` (low nibble of byte 0). -/
def IPHDR_setHdrLength (p : List Nat) (v : Nat) : List Nat :=
  writeBytes p 0 [readByte p 0 / 16 % 16 * 16 + v % 16]

/-- `PacketDnsReplyInitv4`, lines 377-387. -/
def PacketDnsReplyInitv4 (h : CalloutH) (packet : List Nat) : List Nat :=
  let packet := writeBytes packet 0 (List.replicate h.sizeof_DNSPACKETV4 0)
  let packet := IPHDR_setVersion packet 4
  let packet := IPHDR_setHdrLength packet (sizeof_IPHDR / sizeof_UINT32)
  let packet := writeU16 packet 2 (htons h.sizeof_DNSPACKETV4)
  let packet := writeBytes packet 9 [IPPROTO_UDP]
  let packet := writeU16 packet 4 0
  let packet := writeBytes packet 8 [64]
  writeU16 packet (sizeof_IPHDR + 4) (ntohs (sizeof_UDPHDR + h.sizeof_DNSHEADER))

/-- Lines 406-410 of `CalcChecksum`: the two carry folds, the complement and the
truncation to `UINT16`, on the `UINT32` accumulator. -/
def foldChecksum (sum : Nat) : Nat :=
  let sum := ((sum &&& 0xFFFF) + (sum >>> 16)) % 2 ^ 32
  let sum := (sum + (sum >>> 16)) % 2 ^ 32
  let sum := 2 ^ 32 - 1 - sum
  sum % 2 ^ 16

/-- `CalcChecksum`, lines 389-411, with the `UINT32` accumulator reduced modulo
`2^32` after every step. -/
def CalcChecksum (data : List Nat) (len : Nat) : Nat :=
  let len16 := len >>> 1
  let sum := (List.range len16).foldl (fun sum i => (sum + readU16 data (2 * i)) % 2 ^ 32) 0
  let sum := if len &&& 0x1 ≠ 0 then (sum + readByte data (len - 1)) % 2 ^ 32 else sum
  foldChecksum sum

/-- The sum of a list of 16-bit words with its carries folded in twice. -/
def foldCarries (s : Nat) : Nat :=
  ((s % 65536 + s / 65536) + (s % 65536 + s / 65536) / 65536) % 65536

/-- One's-complement addition of two 16-bit words: the carry out of bit 15 is
added back in. -/
def onesAdd (a b : Nat) : Nat := (a + b) % 65536 + (a + b) / 65536

/-- The one's-complement sum of the first `n` 16-bit words of `data`, each word
read in network order. -/
def onesComplementSum (data : List Nat) (n : Nat) : Nat :=
  (List.range n).foldl
    (fun acc i => onesAdd acc (256 * readByte data (2 * i) + readByte data (2 * i + 1))) 0

/-- `NET_BUFFER`: the bytes of one packet; `NET_BUFFER_DATA_LENGTH` is their number. -/
structure NET_BUFFER where
  data : List Nat
  deriving DecidableEq

/-- The driver-owned objects of one `BlockDnsPacket` attempt. -/
inductive Resource where
  | scratchBuffer
  | replyBuffer
  | mdl
  | netBufferList
  deriving DecidableEq

/-- What a `BlockDnsPacket` attempt does with its resources. -/
inductive Event where
  | acquire (r : Resource)
  | release (r : Resource)
  | inject (packet : List Nat) (interface_index subinterface_index : Nat)
  deriving DecidableEq

/-- Outcome of `NdisGetDataBuffer(buffer, total_len, buffer_data, 1, 0)`: it
fails, or it copies the packet into the storage passed to it, or (when the
bytes are contiguous in the `NET_BUFFER`) it returns a pointer into the packet
and leaves the storage as it was. -/
inductive NdisGetDataBufferResult where
  | null
  | copied
  | inPlace
  deriving DecidableEq

/-- What the kernel answers during one `BlockDnsPacket` attempt. -/
structure PacketEnv where
  scratchAllocated : Bool
  ndisGetDataBuffer : NdisGetDataBufferResult
  replyAllocated : Bool
  mdlAllocated : Bool
  netBufferListAllocated : Bool
  injected : Bool
  deriving DecidableEq

/-- The contents of the scratch storage `buffer_data` after `NdisGetDataBuffer`;
`AllocateMemory` (`ExAllocatePool2`) hands out zeroed memory.  `none` when the
call returns null. -/
def NdisGetDataBuffer (buffer : NET_BUFFER) (total_len : Nat) :
    NdisGetDataBufferResult → Option (List Nat)
  | .null => none
  | .copied => some (readBytes buffer.data 0 total_len)
  | .inPlace => some (List.replicate total_len 0)

/-- Lines 473-486 of `BlockDnsPacket`: the reply buffer, `MAX_PACKET_SIZE` zeroed
bytes from `AllocateMemory`, after the initialisation, the copy of the payload
and the stores to the flags, address, length and port fields. -/
def dnsReplyFields (h : CalloutH) (buffer_data : List Nat)
    (ip_header_len udp_payload_size reply_size : Nat) : List Nat :=
  let udp_header := ip_header_len
  let dns_header := ip_header_len + sizeof_UDPHDR
  let reply := List.replicate h.MAX_PACKET_SIZE 0
  let reply := PacketDnsReplyInitv4 h reply
  let reply := writeBytes reply (sizeof_IPHDR + sizeof_UDPHDR)
    (readBytes buffer_data dns_header udp_payload_size)
  let reply := writeU16 reply (sizeof_IPHDR + sizeof_UDPHDR + 2) (htons 0x8002)
  let reply := writeU32 reply 12 (IPHDR_DstAddr buffer_data)
  let reply := writeU32 reply 16 (IPHDR_SrcAddr buffer_data)
  let reply := writeU16 reply 2 (htons (reply_size % 2 ^ 16))
  let reply := writeU16 reply sizeof_IPHDR (UDPHDR_DstPort buffer_data udp_header)
  let reply := writeU16 reply (sizeof_IPHDR + 2) (UDPHDR_SrcPort buffer_data udp_header)
  writeU16 reply (sizeof_IPHDR + 4) (htons (udp_payload_size + sizeof_UDPHDR))

/-- Lines 473-488 of `BlockDnsPacket`: the reply buffer once the checksum of the
IP header and the transaction id have been stored as well. -/
def buildDnsReply (h : CalloutH) (buffer_data : List Nat)
    (ip_header_len udp_payload_size reply_size : Nat) : List Nat :=
  let dns_header := ip_header_len + sizeof_UDPHDR
  let reply := dnsReplyFields h buffer_data ip_header_len udp_payload_size reply_size
  let reply := writeU16 reply 10 (CalcChecksum reply (IPHDR_HdrLength reply * sizeof_UINT32))
  writeU16 reply (sizeof_IPHDR + sizeof_UDPHDR)
    (DNSHEADER_transaction_id buffer_data dns_header)

/-- `BlockDnsPacket`, lines 413-544: the return value and the resource events of
the attempt.  The injected packet is the first `reply_size` bytes of the reply
buffer, the range the MDL and the net-buffer-list describe.  The test of
`ip_header` against null (line 436) cannot fire once `buffer_ptr` is non-null and
has no counterpart here; a rejected injection does not run the completion
callback. -/
def BlockDnsPacket (h : CalloutH) (buffer : NET_BUFFER)
    (interface_index subinterface_index : Nat) (env : PacketEnv) : Bool × List Event :=
  let total_len := buffer.data.length
  if total_len < sizeof_IPHDR ∨ total_len > h.MAX_PACKET_SIZE then (false, [])
  else if !env.scratchAllocated then (false, [])
  else
    match NdisGetDataBuffer buffer total_len env.ndisGetDataBuffer with
    | none => (false, [.acquire .scratchBuffer, .release .scratchBuffer])
    | some buffer_data =>
      let ip_header_len := IPHDR_HdrLength buffer_data * sizeof_UINT32
      if IPHDR_Version buffer_data ≠ 4 ∨
          ntohs (IPHDR_Length buffer_data) ≠ total_len ∨
          ip_header_len < sizeof_IPHDR ∨
          IPHDR_Protocol buffer_data ≠ IPPROTO_UDP ∨
          total_len < ip_header_len + sizeof_UDPHDR + h.sizeof_DNSHEADER then
        (false, [.acquire .scratchBuffer, .release .scratchBuffer])
      else if ntohs (UDPHDR_DstPort buffer_data ip_header_len) ≠ 53 then
        (false, [.acquire .scratchBuffer, .release .scratchBuffer])
      else
        let udp_header_len := sizeof_UDPHDR
        let udp_payload_size := (total_len + 2 ^ 32 - ip_header_len - udp_header_len) % 2 ^ 32
        let reply_size := (sizeof_IPHDR + sizeof_UDPHDR + udp_payload_size) % 2 ^ 32
        if !env.replyAllocated then (false, [.acquire .scratchBuffer, .release .scratchBuffer])
        else
          let reply := buildDnsReply h buffer_data ip_header_len udp_payload_size reply_size
          if !env.mdlAllocated then
            (false, [.acquire .scratchBuffer, .acquire .replyBuffer,
                     .release .scratchBuffer, .release .replyBuffer])
          else if !env.netBufferListAllocated then
            (false, [.acquire .scratchBuffer, .acquire .replyBuffer, .acquire .mdl,
                     .release .mdl, .release .scratchBuffer, .release .replyBuffer])
          else if !env.injected then
            (false, [.acquire .scratchBuffer, .acquire .replyBuffer, .acquire .mdl,
                     .acquire .netBufferList,
                     .release .mdl, .release .scratchBuffer, .release .replyBuffer])
          else
            (true, [.acquire .scratchBuffer, .acquire .replyBuffer, .acquire .mdl,
                    .acquire .netBufferList,
                    Event.inject (readBytes reply 0 reply_size) interface_index subinterface_index,
                    .release .scratchBuffer])

/-- `CompleteBasicPacketInjection`, lines 366-375: the engine calls it once for
every injection it accepted. -/
def CompleteBasicPacketInjection : List Event :=
  [.release .replyBuffer, .release .mdl, .release .netBufferList]

/-- The `while` loop of lines 574-578 over the `NET_BUFFER` chain: the value of
`blocked` and the events after the remaining buffers; buffer `i` of the chain
meets the kernel answers `env i`. -/
def blockDnsLoop (h : CalloutH) (interfaceIndex subInterfaceIndex : Nat)
    (env : Nat → PacketEnv) : List NET_BUFFER → Nat → Bool → List Event → Bool × List Event
  | [], _, blocked, events => (blocked, events)
  | buffer :: rest, i, _, events =>
    let r := BlockDnsPacket h buffer interfaceIndex subInterfaceIndex (env i)
    blockDnsLoop h interfaceIndex subInterfaceIndex env rest (i + 1) r.1 (events ++ r.2)

/-- `BlockDnsBySendingServerFailPacket`, lines 546-586.  `packet` is the list of
`NET_BUFFER_LIST`s the pointer heads (empty for a null pointer), each one its
chain of `NET_BUFFER`s.  The guard of line 555 returns for a null `packet` and
for a missing write right alike, before `actionType` is assigned.  Returns the
classify output and the resource events. -/
def BlockDnsBySendingServerFailPacket (h : CalloutH) (inFixedValues : FWPS_INCOMING_VALUES)
    (packet : List (List NET_BUFFER)) (result : FWPS_CLASSIFY_OUT) (env : Nat → PacketEnv) :
    FWPS_CLASSIFY_OUT × List Event :=
  match packet with
  | [] => (result, [])
  | buffers :: next =>
    if result.rights &&& FWPS_RIGHT_ACTION_WRITE = 0 then (result, [])
    else
      let result := { result with actionType := FWP_ACTION_PERMIT }
      if next ≠ [] then (result, [])
      else
        let interfaceIndex := (inFixedValues.incomingValue
          FWPS_FIELD_OUTBOUND_IPPACKET_V4_INTERFACE_INDEX).uint32
        let subInterfaceIndex := (inFixedValues.incomingValue
          FWPS_FIELD_OUTBOUND_IPPACKET_V4_SUB_INTERFACE_INDEX).uint32
        let r := blockDnsLoop h interfaceIndex subInterfaceIndex env buffers 0 false []
        if r.1 then
          ({ actionType := FWP_ACTION_BLOCK,
             flags := result.flags ||| FWPS_CLASSIFY_OUT_FLAG_ABSORB,
             rights := result.rights &&& (2 ^ 32 - 1 - FWPS_RIGHT_ACTION_WRITE) }, r.2)
        else (result, r.2)


/-- A host-order 32-bit address value read as the dotted quad `a.b.c.d`. -/
def dottedQuad (v : Nat) : List Nat :=
  [v / 16777216 % 256, v / 65536 % 256, v / 256 % 256, v % 256]

/-- The ways a buffer is malformed for `BlockDnsPacket`, as the specification
lists them: shorter than an IP header or longer than the limit, version not 4,
IP total length different from the buffer length, header length below 20 bytes,
protocol not UDP, fewer bytes after the IP header than a UDP header and a DNS
header, destination port not 53. -/
def malformedPacket (h : CalloutH) (data : List Nat) : Prop :=
  data.length < 20 ∨
  data.length > h.MAX_PACKET_SIZE ∨
  IPHDR_Version data ≠ 4 ∨
  ntohs (IPHDR_Length data) ≠ data.length ∨
  IPHDR_HdrLength data * 4 < 20 ∨
  IPHDR_Protocol data ≠ 17 ∨
  data.length < IPHDR_HdrLength data * 4 + 8 + h.sizeof_DNSHEADER ∨
  ntohs (UDPHDR_DstPort data (IPHDR_HdrLength data * 4)) ≠ 53

/-- The UDP payload of an IPv4 packet: what follows the IP header and the
eight bytes of the UDP header. -/
def udpPayload (data : List Nat) : List Nat := data.drop (IPHDR_HdrLength data * 4 + 8)

/-- The events of `trace` that acquire `r`. -/
def acquired (r : Resource) (trace : List Event) : Nat := trace.count (.acquire r)

/-- The events of `trace` that release `r`. -/
def released (r : Resource) (trace : List Event) : Nat := trace.count (.release r)

/-! ## Sample inputs -/

/-- A `SOCKADDR_IN` stored in a `SOCKADDR_STORAGE`: family `AF_INET`, the port
and the address in network order, the rest zero. -/
def sockaddrIn (port : Nat) (addr : List Nat) : List Nat :=
  [2, 0, port / 256 % 256, port % 256] ++ addr ++ List.replicate 120 0

/-- Fixed values of a classification at the IPv4 connect-redirect layer with the
given flags and host-order remote address. -/
def connectValuesV4 (flags remote : Nat) : FWPS_INCOMING_VALUES where
  layerId := FWPS_LAYER_ALE_CONNECT_REDIRECT_V4
  incomingValue := fun f =>
    match f with
    | FWPS_FIELD_ALE_CONNECT_REDIRECT_V4_FLAGS => { uint32 := flags }
    | FWPS_FIELD_ALE_CONNECT_REDIRECT_V4_IP_REMOTE_ADDRESS => { uint32 := remote }
    | _ => {}

/-- A redirect policy sending IPv4 traffic to 10.2.0.1. -/
def samplePolicyV4 : CONNECT_REDIRECT_DATA :=
  ⟨AF_INET, [10, 2, 0, 1, 0, 0, 0, 0, 0, 0, 0, 0, 0, 0, 0, 0]⟩

/-- A filter carrying `samplePolicyV4` in a general provider context. -/
def sampleFilterV4 : FWPS_FILTER :=
  ⟨7, some ⟨FWPM_GENERAL_CONTEXT, some ⟨20, some samplePolicyV4⟩⟩⟩

/-- A connect request from 192.168.1.10:50000 to 8.8.8.8:443. -/
def sampleConnectRequest : FWPS_CONNECT_REQUEST :=
  ⟨sockaddrIn 50000 [192, 168, 1, 10], sockaddrIn 443 [8, 8, 8, 8], 0, 0⟩

/-- An engine in which both acquisitions succeed, with classify handle 5. -/
def sampleEngine : EngineEnv FWPS_CONNECT_REQUEST := ⟨true, 5, true, sampleConnectRequest⟩

/-- Values for the declarations of `Callout.h` used where a concrete input is
evaluated: a limit of 1500 bytes and the 12-byte DNS header. -/
def sampleCalloutH : CalloutH := ⟨1500, 12⟩

/-- A DNS query from 192.168.1.10:49153 to 8.8.8.8:53, 45 bytes, with
transaction id 0xabcd and a 17-byte DNS message. -/
def sampleQuery : NET_BUFFER :=
  ⟨[0x45, 0, 0, 45, 0x12, 0x34, 0, 0, 128, 17, 0xaa, 0xbb, 192, 168, 1, 10, 8, 8, 8, 8,
    0xc0, 0x01, 0, 53, 0, 25, 0, 0,
    0xab, 0xcd, 0x01, 0x00, 0, 1, 0, 0, 0, 0, 0, 0, 1, 97, 0, 0, 1]⟩

/-- The reply `BlockDnsPacket` synthesises for `sampleQuery`. -/
def sampleReply : List Nat :=
  [0x45, 0, 0, 45, 0, 0, 0, 0, 64, 17, 168, 254, 8, 8, 8, 8, 192, 168, 1, 10,
   0, 53, 0xc0, 0x01, 0, 25, 0, 0,
   0xab, 0xcd, 0x80, 0x02, 0, 1, 0, 0, 0, 0, 0, 0, 1, 97, 0, 0, 1]

/-- A ten-byte buffer, shorter than an IP header. -/
def shortPacket : NET_BUFFER := ⟨[0x45, 0, 0, 10, 0, 0, 0, 0, 64, 1]⟩

/-- A kernel in which every allocation, the copy-out and the injection succeed. -/
def kernelOk : PacketEnv := ⟨true, .copied, true, true, true, true⟩

/-- A kernel in which everything succeeds except the injection. -/
def kernelInjectFails : PacketEnv := ⟨true, .copied, true, true, true, false⟩

/-- Fixed values of a classification at the outbound IPv4 packet layer. -/
def outboundValues (interfaceIndex subInterfaceIndex : Nat) : FWPS_INCOMING_VALUES where
  layerId := FWPS_LAYER_OUTBOUND_IPPACKET_V4
  incomingValue := fun f =>
    match f with
    | FWPS_FIELD_OUTBOUND_IPPACKET_V4_INTERFACE_INDEX => { uint32 := interfaceIndex }
    | FWPS_FIELD_OUTBOUND_IPPACKET_V4_SUB_INTERFACE_INDEX => { uint32 := subInterfaceIndex }
    | _ => {}

/-- The 28 bytes of IP and UDP header the reply to the query `data` is to carry,
for a query header of `ihl` bytes, a UDP payload of `n` bytes and the header
checksum `c`: version 4, IHL 5, total length `28 + n`, id 0, TTL 64, protocol
UDP, the addresses and the ports of the query exchanged, UDP length `8 + n`. -/
def replyHeader (data : List Nat) (ihl n c : Nat) : List Nat :=
  [0x45, 0, (28 + n) / 256, (28 + n) % 256, 0, 0, 0, 0, 64, 17, c % 256, c / 256 % 256,
   readByte data 16, readByte data 17, readByte data 18, readByte data 19,
   readByte data 12, readByte data 13, readByte data 14, readByte data 15,
   readByte data (ihl + 2), readByte data (ihl + 3),
   readByte data ihl, readByte data (ihl + 1),
   (n + 8) / 256, (n + 8) % 256, 0, 0]

/-- Fixed values of a classification at the IPv4 bind-redirect layer with the
given flags and IP protocol. -/
def bindValuesV4 (flags protocol : Nat) : FWPS_INCOMING_VALUES where
  layerId := FWPS_LAYER_ALE_BIND_REDIRECT_V4
  incomingValue := fun f =>
    match f with
    | FWPS_FIELD_ALE_BIND_REDIRECT_V4_FLAGS => { uint32 := flags }
    | FWPS_FIELD_ALE_BIND_REDIRECT_V4_IP_PROTOCOL => { uint8 := protocol }
    | _ => {}

/-- A bind request for 192.168.1.10:50000. -/
def sampleBindRequest : FWPS_BIND_REQUEST := ⟨sockaddrIn 50000 [192, 168, 1, 10], 0⟩

/-- An engine in which both acquisitions succeed on a bind request, with
classify handle 5. -/
def sampleBindEngine : EngineEnv FWPS_BIND_REQUEST := ⟨true, 5, true, sampleBindRequest⟩

/-- A redirect callout passed the classification through: no engine call, the
request structure as the engine holds it, action PERMIT. -/
def passedThrough {Req : Type} (out : RedirectOutcome Req) (env : EngineEnv Req) : Prop :=
  out.calls = [] ∧ out.layerData = env.layerData ∧
  out.classifyOut.actionType = FWP_ACTION_PERMIT

/-- The engine calls of a redirect callout release what they acquire exactly
once: none at all; a failed handle acquisition alone; the handle acquired, a
failed layer-data acquisition, the handle released; or both acquired, the layer
data applied back, then the handle released. -/
def releasedOnce {Req : Type} (env : EngineEnv Req) (calls : List EngineCall) : Prop :=
  calls = [] ∨
  (env.acquireHandleSucceeds = false ∧ calls = [EngineCall.FwpsAcquireClassifyHandle]) ∨
  (env.acquireHandleSucceeds = true ∧ env.acquireWritableSucceeds = false ∧
    calls = [EngineCall.FwpsAcquireClassifyHandle,
             EngineCall.FwpsAcquireWritableLayerDataPointer env.classifyHandle,
             EngineCall.FwpsReleaseClassifyHandle env.classifyHandle]) ∨
  (env.acquireHandleSucceeds = true ∧ env.acquireWritableSucceeds = true ∧
    calls = [EngineCall.FwpsAcquireClassifyHandle,
             EngineCall.FwpsAcquireWritableLayerDataPointer env.classifyHandle,
             EngineCall.FwpsApplyModifiedLayerData env.classifyHandle,
             EngineCall.FwpsReleaseClassifyHandle env.classifyHandle])

instance {Req : Type} (env : EngineEnv Req) (calls : List EngineCall) :
    Decidable (releasedOnce env calls) := by
  unfold releasedOnce; infer_instance

/-- A redirect policy sending IPv6 traffic to fd00::1. -/
def samplePolicyV6 : CONNECT_REDIRECT_DATA :=
  ⟨AF_INET6, [0xfd, 0, 0, 0, 0, 0, 0, 0, 0, 0, 0, 0, 0, 0, 0, 1]⟩

/-- A filter carrying `samplePolicyV6` in a general provider context. -/
def sampleFilterV6 : FWPS_FILTER :=
  ⟨8, some ⟨FWPM_GENERAL_CONTEXT, some ⟨20, some samplePolicyV6⟩⟩⟩



/-! ## The DNS flags word and the lengths of `BlockDnsPacket` -/

/-- The response (QR) bit of a host-order DNS flags word under the standard
header layout: bit 15. -/
def specDnsQR (flags : Nat) : Bool := flags.testBit 15

/-- The recursion-available (RA) bit of a host-order DNS flags word under the
standard header layout: bit 7. -/
def specDnsRA (flags : Nat) : Bool := flags.testBit 7

/-- The response code of a host-order DNS flags word under the standard header
layout: bits 3..0. -/
def specDnsRcode (flags : Nat) : Nat := flags % 16

/-- Line 461 of `BlockDnsPacket`: `udp_payload_size`, a `UINT` difference. -/
def udp_payload_size (total_len ip_header_len : Nat) : Nat :=
  (total_len + 2 ^ 32 - ip_header_len - sizeof_UDPHDR) % 2 ^ 32

/-- Line 464 of `BlockDnsPacket`: `reply_size`, a `UINT` sum. -/
def reply_size (udp_payload_size : Nat) : Nat :=
  (sizeof_IPHDR + sizeof_UDPHDR + udp_payload_size) % 2 ^ 32

/-- The sum of the first `n` native 16-bit words of `data`, as a natural number
(no accumulator width). -/
def wordSum (data : List Nat) (n : Nat) : Nat :=
  ((List.range n).map (fun i => readU16 data (2 * i))).sum

/-- The IP header of `sampleReply` with the checksum field (bytes 10 and 11)
zero. -/
def sampleHeader : List Nat :=
  [0x45, 0, 0, 45, 0, 0, 0, 0, 64, 17, 0, 0, 8, 8, 8, 8, 192, 168, 1, 10]

/-! # Theorems -/

set_option maxRecDepth 1000000

/-! ## Bytes and bit masks -/

theorem land_split (a b m n : Nat) (ha : a < 256) (hm : m < 256) :
    (a + 256 * b) &&& (m + 256 * n) = (a &&& m) + 256 * (b &&& n) := by
  have h1 : a + 256 * b = 2 ^ 8 * b + a := by omega
  have h2 : m + 256 * n = 2 ^ 8 * n + m := by omega
  have h3 : (a &&& m) + 256 * (b &&& n) = 2 ^ 8 * (b &&& n) + (a &&& m) := by omega
  have ha8 : a < 2 ^ 8 := by omega
  have hm8 : m < 2 ^ 8 := by omega
  have ham : a &&& m < 2 ^ 8 := Nat.and_lt_two_pow a hm8
  rw [h1, h2, h3]
  apply Nat.eq_of_testBit_eq
  intro j
  rw [Nat.testBit_and, Nat.testBit_mul_pow_two_add _ ha8, Nat.testBit_mul_pow_two_add _ hm8,
    Nat.testBit_mul_pow_two_add _ ham]
  split <;> simp [Nat.testBit_and]

theorem byte_and_ff : ∀ b, b < 256 → b &&& 0xff = b := by decide

theorem byte_and_f0 : ∀ b, b < 256 → (b &&& 0xf0 = 0x10 ↔ 16 ≤ b ∧ b ≤ 31) := by decide

theorem byte_and_c0_80 : ∀ b, b < 256 → (b &&& 0xc0 = 0x80 ↔ b / 64 = 2) := by decide

theorem byte_and_c0_c0 : ∀ b, b < 256 → (b &&& 0xc0 = 0xc0 ↔ b / 64 = 3) := by decide

theorem byte_and_fe : ∀ b, b < 256 → (b &&& 0xFE = 0xFC ↔ b / 2 = 126) := by decide

theorem list_of_length_four (a : List Nat) (h : a.length = 4) :
    ∃ b0 b1 b2 b3, a = [b0, b1, b2, b3] := by
  match a, h with
  | [b0, b1, b2, b3], _ => exact ⟨b0, b1, b2, b3, rfl⟩

theorem list_of_length_sixteen (a : List Nat) (h : a.length = 16) :
    ∃ b0 b1 b2 b3 b4 b5 b6 b7 b8 b9 b10 b11 b12 b13 b14 b15,
      a = [b0, b1, b2, b3, b4, b5, b6, b7, b8, b9, b10, b11, b12, b13, b14, b15] := by
  match a, h with
  | [b0, b1, b2, b3, b4, b5, b6, b7, b8, b9, b10, b11, b12, b13, b14, b15], _ =>
    exact ⟨b0, b1, b2, b3, b4, b5, b6, b7, b8, b9, b10, b11, b12, b13, b14, b15, rfl⟩

/-! ## The address classifier -/

theorem S_addr_quad (a b c d : Nat) :
    S_addr [a, b, c, d] = a + 256 * (b + 256 * (c + 256 * d)) := by
  simp [S_addr, readU32, readByte]; omega

theorem mask_00ff (a r : Nat) (ha : a < 256) : (a + 256 * r) &&& 0x00ff = a := by
  have : (0x00ff : Nat) = 0xff + 256 * 0 := by norm_num
  rw [this, land_split _ _ _ _ ha (by norm_num), byte_and_ff a ha]
  simp

theorem mask_ffff (a b r : Nat) (ha : a < 256) (hb : b < 256) :
    (a + 256 * (b + 256 * r)) &&& 0xffff = a + 256 * b := by
  have : (0xffff : Nat) = 0xff + 256 * (0xff + 256 * 0) := by norm_num
  rw [this, land_split _ _ _ _ ha (by norm_num), land_split _ _ _ _ hb (by norm_num),
    byte_and_ff a ha, byte_and_ff b hb]
  simp

theorem mask_f0ff (a b r : Nat) (ha : a < 256) (hb : b < 256) :
    (a + 256 * (b + 256 * r)) &&& 0xf0ff = a + 256 * (b &&& 0xf0) := by
  have : (0xf0ff : Nat) = 0xff + 256 * (0xf0 + 256 * 0) := by norm_num
  rw [this, land_split _ _ _ _ ha (by norm_num), land_split _ _ _ _ hb (by norm_num),
    byte_and_ff a ha]
  simp

theorem mask_ffffff (a b c r : Nat) (ha : a < 256) (hb : b < 256) (hc : c < 256) :
    (a + 256 * (b + 256 * (c + 256 * r))) &&& 0xffffff = a + 256 * (b + 256 * c) := by
  have : (0xffffff : Nat) = 0xff + 256 * (0xff + 256 * (0xff + 256 * 0)) := by norm_num
  rw [this, land_split _ _ _ _ ha (by norm_num), land_split _ _ _ _ hb (by norm_num),
    land_split _ _ _ _ hc (by norm_num), byte_and_ff a ha, byte_and_ff b hb, byte_and_ff c hc]
  simp

theorem addrValue_quad (a b c d : Nat) :
    addrValue [a, b, c, d] = 16777216 * a + 65536 * b + 256 * c + d := by
  simp [addrValue]; omega

theorem quad_div_24 (a b c d : Nat) (hb : b < 256) (hc : c < 256) (hd : d < 256) :
    (16777216 * a + 65536 * b + 256 * c + d) / 16777216 = a := by omega

theorem quad_div_20 (a b c d : Nat) (hc : c < 256) (hd : d < 256) :
    (16777216 * a + 65536 * b + 256 * c + d) / 1048576 = 16 * a + b / 16 := by omega

theorem quad_div_16 (a b c d : Nat) (hc : c < 256) (hd : d < 256) :
    (16777216 * a + 65536 * b + 256 * c + d) / 65536 = 256 * a + b := by omega

theorem quad_div_8 (a b c d : Nat) (hd : d < 256) :
    (16777216 * a + 65536 * b + 256 * c + d) / 256 = 65536 * a + 256 * b + c := by omega

theorem IsLocalIPv4Address_quad (a b c d : Nat)
    (ha : a < 256) (hb : b < 256) (hc : c < 256) (hd : d < 256) :
    IsLocalIPv4Address [a, b, c, d] = true ↔ specLocalIPv4 [a, b, c, d] := by
  have hf0 := byte_and_f0 b hb
  have e24 : (2 : Nat) ^ (8 * 4 - 8) = 16777216 := by norm_num
  have e20 : (2 : Nat) ^ (8 * 4 - 12) = 1048576 := by norm_num
  have e16 : (2 : Nat) ^ (8 * 4 - 16) = 65536 := by norm_num
  have e8 : (2 : Nat) ^ (8 * 4 - 24) = 256 := by norm_num
  simp only [IsLocalIPv4Address, IN4_IS_ADDR_LOOPBACK, IN4_IS_ADDR_LINKLOCAL, IN4_IS_ADDR_RFC1918,
    IN4_IS_ADDR_MC_LINKLOCAL, IN4_IS_ADDR_BROADCAST, IN4_IS_ADDR_MC_ADMINLOCAL, S_addr_quad,
    mask_ffff a b _ ha hb, mask_00ff a _ ha, mask_f0ff a b _ ha hb, mask_ffffff a b c _ ha hb hc,
    specLocalIPv4, inCidr, addrValue_quad, readByte, List.getD_cons_zero, List.length_cons,
    List.length_nil, Bool.or_eq_true, beq_iff_eq, List.cons.injEq, and_true, true_and, e24, e20,
    e16, e8, quad_div_24 a b c d hb hc hd, quad_div_20 a b c d hc hd, quad_div_16 a b c d hc hd,
    quad_div_8 a b c d hd]
  norm_num
  have k1 : a + 256 * b = 65193 ↔ a = 169 ∧ b = 254 := by omega
  have k2 : a + 256 * (b &&& 240) = 4268 ↔ a = 172 ∧ 16 ≤ b ∧ b ≤ 31 := by
    rw [← hf0]; omega
  have k3 : a + 256 * b = 43200 ↔ a = 192 ∧ b = 168 := by omega
  have k4 : a + 256 * (b + 256 * c) = 224 ↔ a = 224 ∧ b = 0 ∧ c = 0 := by omega
  have k5 : a + 256 * (b + 256 * (c + 256 * d)) = 4294967295 ↔
      a = 255 ∧ b = 255 ∧ c = 255 ∧ d = 255 := by omega
  have k6 : a + 256 * b = 65519 ↔ a = 239 ∧ b = 255 := by omega
  have r1 : 256 * a + b = 43518 ↔ a = 169 ∧ b = 254 := by omega
  have r2 : 16 * a + b / 16 = 2753 ↔ a = 172 ∧ 16 ≤ b ∧ b ≤ 31 := by omega
  have r3 : 256 * a + b = 49320 ↔ a = 192 ∧ b = 168 := by omega
  have r4 : 65536 * a + 256 * b + c = 14680064 ↔ a = 224 ∧ b = 0 ∧ c = 0 := by omega
  have r5 : 256 * a + b = 61439 ↔ a = 239 ∧ b = 255 := by omega
  simp only [k1, k2, k3, k4, k5, k6, r1, r2, r3, r4, r5, or_assoc]
  rw [@or_comm (a = 255 ∧ b = 255 ∧ c = 255 ∧ d = 255) (a = 239 ∧ b = 255)]

theorem addrValue_v6 (b0 b1 b2 b3 b4 b5 b6 b7 b8 b9 b10 b11 b12 b13 b14 b15 : Nat) :
    addrValue [b0, b1, b2, b3, b4, b5, b6, b7, b8, b9, b10, b11, b12, b13, b14, b15] =
      2 ^ 120 * b0 + 2 ^ 112 * b1 + 2 ^ 104 * b2 + 2 ^ 96 * b3 +
      (2 ^ 88 * b4 + 2 ^ 80 * b5 + 2 ^ 72 * b6 + 2 ^ 64 * b7 + 2 ^ 56 * b8 + 2 ^ 48 * b9 +
       2 ^ 40 * b10 + 2 ^ 32 * b11 + 2 ^ 24 * b12 + 2 ^ 16 * b13 + 2 ^ 8 * b14 + b15) := by
  simp only [addrValue, List.foldl]
  ring

theorem v6_tail_lt (b4 b5 b6 b7 b8 b9 b10 b11 b12 b13 b14 b15 : Nat)
    (h4 : b4 < 256) (h5 : b5 < 256) (h6 : b6 < 256) (h7 : b7 < 256)
    (h8 : b8 < 256) (h9 : b9 < 256) (h10 : b10 < 256) (h11 : b11 < 256)
    (h12 : b12 < 256) (h13 : b13 < 256) (h14 : b14 < 256) (h15 : b15 < 256) :
    2 ^ 88 * b4 + 2 ^ 80 * b5 + 2 ^ 72 * b6 + 2 ^ 64 * b7 + 2 ^ 56 * b8 + 2 ^ 48 * b9 +
       2 ^ 40 * b10 + 2 ^ 32 * b11 + 2 ^ 24 * b12 + 2 ^ 16 * b13 + 2 ^ 8 * b14 + b15 < 2 ^ 96 := by
  omega

theorem v6_div (b0 b1 b2 b3 t : Nat) (h1 : b1 < 256) (h2 : b2 < 256) (h3 : b3 < 256)
    (ht : t < 2 ^ 96) :
    (2 ^ 120 * b0 + 2 ^ 112 * b1 + 2 ^ 104 * b2 + 2 ^ 96 * b3 + t) / 2 ^ 120 = b0 ∧
    (2 ^ 120 * b0 + 2 ^ 112 * b1 + 2 ^ 104 * b2 + 2 ^ 96 * b3 + t) / 2 ^ 121 = b0 / 2 ∧
    (2 ^ 120 * b0 + 2 ^ 112 * b1 + 2 ^ 104 * b2 + 2 ^ 96 * b3 + t) / 2 ^ 118 = 4 * b0 + b1 / 64 ∧
    (2 ^ 120 * b0 + 2 ^ 112 * b1 + 2 ^ 104 * b2 + 2 ^ 96 * b3 + t) / 2 ^ 96 =
      16777216 * b0 + 65536 * b1 + 256 * b2 + b3 := by
  refine ⟨?_, ?_, ?_, ?_⟩ <;> omega

theorem IsLocalIPv6Address_bytes
    (b0 b1 b2 b3 b4 b5 b6 b7 b8 b9 b10 b11 b12 b13 b14 b15 : Nat)
    (h0 : b0 < 256) (h1 : b1 < 256) (h2 : b2 < 256) (h3 : b3 < 256)
    (h4 : b4 < 256) (h5 : b5 < 256) (h6 : b6 < 256) (h7 : b7 < 256)
    (h8 : b8 < 256) (h9 : b9 < 256) (h10 : b10 < 256) (h11 : b11 < 256)
    (h12 : b12 < 256) (h13 : b13 < 256) (h14 : b14 < 256) (h15 : b15 < 256) :
    IsLocalIPv6Address [b0, b1, b2, b3, b4, b5, b6, b7, b8, b9, b10, b11, b12, b13, b14, b15]
        = true ↔
      specLocalIPv6 [b0, b1, b2, b3, b4, b5, b6, b7, b8, b9, b10, b11, b12, b13, b14, b15] := by
  have ht := v6_tail_lt b4 b5 b6 b7 b8 b9 b10 b11 b12 b13 b14 b15 h4 h5 h6 h7 h8 h9 h10 h11
    h12 h13 h14 h15
  obtain ⟨d8, d7, d10, d32⟩ := v6_div b0 b1 b2 b3 _ h1 h2 h3 ht
  have e8 : (2 : Nat) ^ (8 * 16 - 8) = 2 ^ 120 := by norm_num
  have e7 : (2 : Nat) ^ (8 * 16 - 7) = 2 ^ 121 := by norm_num
  have e10 : (2 : Nat) ^ (8 * 16 - 10) = 2 ^ 118 := by norm_num
  have e32 : (2 : Nat) ^ (8 * 16 - 32) = 2 ^ 96 := by norm_num
  have n1 : addrValue [0xfe, 0x80, 0, 0, 0, 0, 0, 0, 0, 0, 0, 0, 0, 0, 0, 0] / 2 ^ 118 = 1018 := by
    decide
  have n2 : addrValue [0xfe, 0xc0, 0, 0, 0, 0, 0, 0, 0, 0, 0, 0, 0, 0, 0, 0] / 2 ^ 118 = 1019 := by
    decide
  have n3 : addrValue [0xff, 0, 0, 0, 0, 0, 0, 0, 0, 0, 0, 0, 0, 0, 0, 0] / 2 ^ 120 = 255 := by
    decide
  have n4 : addrValue [0x20, 0x01, 0, 0, 0, 0, 0, 0, 0, 0, 0, 0, 0, 0, 0, 0] / 2 ^ 96
      = 536936448 := by decide
  have n5 : addrValue [0xfc, 0, 0, 0, 0, 0, 0, 0, 0, 0, 0, 0, 0, 0, 0, 0] / 2 ^ 121 = 126 := by
    decide
  have c80 := byte_and_c0_80 b1 h1
  have cc0 := byte_and_c0_c0 b1 h1
  have cfe := byte_and_fe b0 h0
  simp only [specLocalIPv6, inCidr, List.length_cons, List.length_nil, e8, e7, e10, e32, n1, n2,
    n3, n4, n5, true_and]
  rw [addrValue_v6, d8, d7, d10, d32]
  simp only [IsLocalIPv6Address, IN6_IS_ADDR_UNSPECIFIED, IN6_IS_ADDR_LOOPBACK,
    IN6_IS_ADDR_LINKLOCAL, IN6_IS_ADDR_SITELOCAL, IN6_IS_ADDR_MULTICAST, IsAddressTeredo,
    s6_words, readU16, readByte, Bool.or_eq_true, Bool.and_eq_true, beq_iff_eq, List.cons.injEq,
    and_true]
  norm_num
  have k1 : b14 + 256 * b15 = 256 ↔ b14 = 0 ∧ b15 = 1 := by omega
  have k2 : 4 * b0 + b1 / 64 = 1018 ↔ b0 = 254 ∧ b1 / 64 = 2 := by omega
  have k3 : 4 * b0 + b1 / 64 = 1019 ↔ b0 = 254 ∧ b1 / 64 = 3 := by omega
  have k4 : 16777216 * b0 + 65536 * b1 + 256 * b2 + b3 = 536936448 ↔
      b0 = 32 ∧ b1 = 1 ∧ b2 = 0 ∧ b3 = 0 := by omega
  simp only [k1, k2, k3, k4, c80, cc0, cfe, and_assoc, or_assoc]

/-- C9: `IsLocalIPv4Address` is a total function that is true exactly on
127.0.0.0/8, 169.254.0.0/16, 10.0.0.0/8, 172.16.0.0/12, 192.168.0.0/16,
224.0.0.0/24, 239.255.0.0/16 and 255.255.255.255; it is true for 127.0.0.1,
169.254.1.1, 10.0.0.1, 224.0.0.5 and 255.255.255.255 and false for 8.8.8.8. -/
theorem C9_IsLocalIPv4Address_ranges (address : List Nat)
    (hlen : address.length = 4) (hbytes : ∀ b ∈ address, b < 256) :
    (IsLocalIPv4Address address = true ↔ specLocalIPv4 address) ∧
    IsLocalIPv4Address [127, 0, 0, 1] = true ∧
    IsLocalIPv4Address [169, 254, 1, 1] = true ∧
    IsLocalIPv4Address [10, 0, 0, 1] = true ∧
    IsLocalIPv4Address [224, 0, 0, 5] = true ∧
    IsLocalIPv4Address [255, 255, 255, 255] = true ∧
    IsLocalIPv4Address [8, 8, 8, 8] = false := by
  refine ⟨?_, by decide, by decide, by decide, by decide, by decide, by decide⟩
  obtain ⟨a, b, c, d, rfl⟩ := list_of_length_four address hlen
  simp only [List.mem_cons, List.mem_nil_iff, or_false, forall_eq_or_imp, forall_eq] at hbytes
  exact IsLocalIPv4Address_quad a b c d hbytes.1 hbytes.2.1 hbytes.2.2.1 hbytes.2.2.2

/-- Witness for C9 at 172.20.1.1, an address inside 172.16.0.0/12. -/
theorem C9_IsLocalIPv4Address_ranges_witness :
    ([172, 20, 1, 1] : List Nat).length = 4 ∧ (∀ b ∈ ([172, 20, 1, 1] : List Nat), b < 256) ∧
    ((IsLocalIPv4Address [172, 20, 1, 1] = true ↔ specLocalIPv4 [172, 20, 1, 1]) ∧
     IsLocalIPv4Address [127, 0, 0, 1] = true ∧
     IsLocalIPv4Address [169, 254, 1, 1] = true ∧
     IsLocalIPv4Address [10, 0, 0, 1] = true ∧
     IsLocalIPv4Address [224, 0, 0, 5] = true ∧
     IsLocalIPv4Address [255, 255, 255, 255] = true ∧
     IsLocalIPv4Address [8, 8, 8, 8] = false) ∧
    IsLocalIPv4Address [172, 20, 1, 1] = true :=
  ⟨by decide, by decide, C9_IsLocalIPv4Address_ranges [172, 20, 1, 1] (by decide) (by decide),
    by decide⟩

/-- C10: `IsLocalIPv6Address` is a total function that is true exactly on `::`,
`::1`, `fe80::/10`, `fec0::/10`, `ff00::/8`, `2001:0000::/32` and `fc00::/7`; it
is true for `::1`, `fe80::1`, `ff02::1`, `fc00::1` and `2001:0000::1` and false
for `2001:4860:4860::8888`. -/
theorem C10_IsLocalIPv6Address_ranges (address : List Nat)
    (hlen : address.length = 16) (hbytes : ∀ b ∈ address, b < 256) :
    (IsLocalIPv6Address address = true ↔ specLocalIPv6 address) ∧
    IsLocalIPv6Address [0, 0, 0, 0, 0, 0, 0, 0, 0, 0, 0, 0, 0, 0, 0, 1] = true ∧
    IsLocalIPv6Address [0xfe, 0x80, 0, 0, 0, 0, 0, 0, 0, 0, 0, 0, 0, 0, 0, 1] = true ∧
    IsLocalIPv6Address [0xff, 0x02, 0, 0, 0, 0, 0, 0, 0, 0, 0, 0, 0, 0, 0, 1] = true ∧
    IsLocalIPv6Address [0xfc, 0x00, 0, 0, 0, 0, 0, 0, 0, 0, 0, 0, 0, 0, 0, 1] = true ∧
    IsLocalIPv6Address [0x20, 0x01, 0, 0, 0, 0, 0, 0, 0, 0, 0, 0, 0, 0, 0, 1] = true ∧
    IsLocalIPv6Address
      [0x20, 0x01, 0x48, 0x60, 0x48, 0x60, 0, 0, 0, 0, 0, 0, 0, 0, 0x88, 0x88] = false := by
  refine ⟨?_, by decide, by decide, by decide, by decide, by decide, by decide⟩
  obtain ⟨b0, b1, b2, b3, b4, b5, b6, b7, b8, b9, b10, b11, b12, b13, b14, b15, rfl⟩ :=
    list_of_length_sixteen address hlen
  simp only [List.mem_cons, List.mem_nil_iff, or_false, forall_eq_or_imp, forall_eq] at hbytes
  obtain ⟨h0, h1, h2, h3, h4, h5, h6, h7, h8, h9, h10, h11, h12, h13, h14, h15⟩ := hbytes
  exact IsLocalIPv6Address_bytes b0 b1 b2 b3 b4 b5 b6 b7 b8 b9 b10 b11 b12 b13 b14 b15
    h0 h1 h2 h3 h4 h5 h6 h7 h8 h9 h10 h11 h12 h13 h14 h15

/-- Witness for C10 at `fe80::1`, a link-local address. -/
theorem C10_IsLocalIPv6Address_ranges_witness :
    ([0xfe, 0x80, 0, 0, 0, 0, 0, 0, 0, 0, 0, 0, 0, 0, 0, 1] : List Nat).length = 16 ∧
    (∀ b ∈ ([0xfe, 0x80, 0, 0, 0, 0, 0, 0, 0, 0, 0, 0, 0, 0, 0, 1] : List Nat), b < 256) ∧
    ((IsLocalIPv6Address [0xfe, 0x80, 0, 0, 0, 0, 0, 0, 0, 0, 0, 0, 0, 0, 0, 1] = true ↔
        specLocalIPv6 [0xfe, 0x80, 0, 0, 0, 0, 0, 0, 0, 0, 0, 0, 0, 0, 0, 1]) ∧
     IsLocalIPv6Address [0, 0, 0, 0, 0, 0, 0, 0, 0, 0, 0, 0, 0, 0, 0, 1] = true ∧
     IsLocalIPv6Address [0xfe, 0x80, 0, 0, 0, 0, 0, 0, 0, 0, 0, 0, 0, 0, 0, 1] = true ∧
     IsLocalIPv6Address [0xff, 0x02, 0, 0, 0, 0, 0, 0, 0, 0, 0, 0, 0, 0, 0, 1] = true ∧
     IsLocalIPv6Address [0xfc, 0x00, 0, 0, 0, 0, 0, 0, 0, 0, 0, 0, 0, 0, 0, 1] = true ∧
     IsLocalIPv6Address [0x20, 0x01, 0, 0, 0, 0, 0, 0, 0, 0, 0, 0, 0, 0, 0, 1] = true ∧
     IsLocalIPv6Address
       [0x20, 0x01, 0x48, 0x60, 0x48, 0x60, 0, 0, 0, 0, 0, 0, 0, 0, 0x88, 0x88] = false) :=
  ⟨by decide, by decide,
    C10_IsLocalIPv6Address_ranges [0xfe, 0x80, 0, 0, 0, 0, 0, 0, 0, 0, 0, 0, 0, 0, 0, 1]
      (by decide) (by decide)⟩


/-! ## Connection redirection -/

theorem length_writeBytes (src : List Nat) :
    ∀ (buf : List Nat) (off : Nat), (writeBytes buf off src).length = buf.length := by
  induction src with
  | nil => intro buf off; rfl
  | cons b bs ih => intro buf off; simp [writeBytes, ih]

theorem readByte_set (buf : List Nat) (off b i : Nat) :
    readByte (buf.set off b) i = if i = off ∧ i < buf.length then b else readByte buf i := by
  unfold readByte
  rw [List.getD_eq_getElem?_getD, List.getD_eq_getElem?_getD, List.getElem?_set]
  by_cases h : off = i
  · subst h
    by_cases h2 : off < buf.length
    · simp [h2]
    · simp [h2]
      have : buf[off]? = none := by simp; omega
      simp [this]
  · have : ¬ i = off := fun e => h e.symm
    simp [h, this]

theorem readByte_cons_succ (b : Nat) (bs : List Nat) (i : Nat) :
    readByte (b :: bs) (i + 1) = readByte bs i := by
  simp [readByte]

theorem readByte_writeBytes (src : List Nat) :
    ∀ (buf : List Nat) (off i : Nat),
      readByte (writeBytes buf off src) i =
        if off ≤ i ∧ i < off + src.length ∧ i < buf.length then readByte src (i - off)
        else readByte buf i := by
  induction src with
  | nil =>
    intro buf off i
    have h : ¬ (off ≤ i ∧ i < off + ([] : List Nat).length ∧ i < buf.length) := by
      simp only [List.length_nil]; omega
    rw [if_neg h]; rfl
  | cons b bs ih =>
    intro buf off i
    simp only [writeBytes, ih, readByte_set, List.length_set, List.length_cons]
    by_cases h1 : i = off
    · subst h1
      by_cases h2 : i < buf.length
      · simp [h2, readByte]
      · simp [h2]
    · by_cases h2 : off + 1 ≤ i ∧ i < off + 1 + bs.length ∧ i < buf.length
      · have h3 : off ≤ i ∧ i < off + (bs.length + 1) ∧ i < buf.length := by omega
        have h4 : i - off = (i - (off + 1)) + 1 := by omega
        rw [if_pos h2, if_pos h3, h4, readByte_cons_succ]
      · have h3 : ¬ (off ≤ i ∧ i < off + (bs.length + 1) ∧ i < buf.length) := by omega
        rw [if_neg h2, if_neg h3]
        simp [h1]

theorem ext_readByte (l1 l2 : List Nat) (hlen : l1.length = l2.length)
    (h : ∀ i, i < l1.length → readByte l1 i = readByte l2 i) : l1 = l2 := by
  apply List.ext_getElem hlen
  intro i h1 h2
  have := h i h1
  simp only [readByte, List.getD_eq_getElem?_getD, List.getElem?_eq_getElem h1,
    List.getElem?_eq_getElem h2, Option.getD_some] at this
  exact this

theorem readByte_readBytes (buf : List Nat) (off n i : Nat) :
    readByte (readBytes buf off n) i = if i < n then readByte buf (off + i) else 0 := by
  unfold readByte readBytes
  simp only [List.getD_eq_getElem?_getD, List.getElem?_take, List.getElem?_drop]
  split <;> simp

theorem length_readBytes (buf : List Nat) (off n : Nat) :
    (readBytes buf off n).length = min n (buf.length - off) := by
  simp [readBytes]

theorem writeBytes_whole (buf src : List Nat) (h : src.length = buf.length) :
    writeBytes buf 0 src = src := by
  apply ext_readByte
  · rw [length_writeBytes, h]
  · intro i hi
    rw [length_writeBytes] at hi
    rw [readByte_writeBytes]
    simp [hi, h]

theorem readBytes_whole (buf : List Nat) (n : Nat) (h : buf.length = n) :
    readBytes buf 0 n = buf := by
  simp [readBytes, ← h]

theorem le32_RtlUlongByteSwap (v : Nat) : le32 (RtlUlongByteSwap v) = dottedQuad v := by
  simp only [le32, RtlUlongByteSwap, dottedQuad, List.cons.injEq, and_true]
  have ha : v % 256 < 256 := Nat.mod_lt _ (by norm_num)
  have hb : v / 256 % 256 < 256 := Nat.mod_lt _ (by norm_num)
  have hc : v / 65536 % 256 < 256 := Nat.mod_lt _ (by norm_num)
  have hd : v / 16777216 % 256 < 256 := Nat.mod_lt _ (by norm_num)
  generalize v % 256 = a at *
  generalize v / 256 % 256 = b at *
  generalize v / 65536 % 256 = c at *
  generalize v / 16777216 % 256 = d at *
  refine ⟨?_, ?_, ?_, ?_⟩ <;> omega


theorem RedirectConnection_action (inFixedValues : Option FWPS_INCOMING_VALUES)
    (filter : Option FWPS_FILTER) (classifyOut : FWPS_CLASSIFY_OUT)
    (env : EngineEnv FWPS_CONNECT_REQUEST) :
    (RedirectConnection inFixedValues filter classifyOut env).classifyOut.actionType
      = FWP_ACTION_PERMIT := by
  unfold RedirectConnection
  split
  · simp only []
    split_ifs <;> rfl
  · rfl

theorem RedirectConnection_of_local (inFixedValues : FWPS_INCOMING_VALUES)
    (filter : Option FWPS_FILTER) (classifyOut : FWPS_CLASSIFY_OUT)
    (env : EngineEnv FWPS_CONNECT_REQUEST)
    (h : IsRemoteEndpointLocal inFixedValues
      (decide (inFixedValues.layerId = FWPS_LAYER_ALE_CONNECT_REDIRECT_V4)) = true) :
    (RedirectConnection (some inFixedValues) filter classifyOut env).calls = [] ∧
    (RedirectConnection (some inFixedValues) filter classifyOut env).layerData = env.layerData := by
  cases filter with
  | none => exact ⟨rfl, rfl⟩
  | some flt =>
    simp only [RedirectConnection, h, if_true]

    split_ifs <;> exact ⟨rfl, rfl⟩

/-- C8: when the remote address of a connect-redirect classification is local
(IPv4: the host-order value read as a.b.c.d satisfies `IsLocalIPv4Address`; IPv6:
the sixteen remote bytes satisfy `IsLocalIPv6Address`), `RedirectConnection` makes
no engine call, leaves the connect request as it was and returns with action
PERMIT, whatever filter (and policy) is attached. -/
theorem C8_local_remote_is_not_redirected (inFixedValues : FWPS_INCOMING_VALUES)
    (filter : Option FWPS_FILTER) (classifyOut : FWPS_CLASSIFY_OUT)
    (env : EngineEnv FWPS_CONNECT_REQUEST)
    (hlocal :
      (inFixedValues.layerId = FWPS_LAYER_ALE_CONNECT_REDIRECT_V4 ∧
        IsLocalIPv4Address (dottedQuad (inFixedValues.incomingValue
          FWPS_FIELD_ALE_CONNECT_REDIRECT_V4_IP_REMOTE_ADDRESS).uint32) = true) ∨
      (inFixedValues.layerId = FWPS_LAYER_ALE_CONNECT_REDIRECT_V6 ∧
        ∃ remote, (inFixedValues.incomingValue
          FWPS_FIELD_ALE_CONNECT_REDIRECT_V6_IP_REMOTE_ADDRESS).byteArray16 = some remote ∧
          remote.length = 16 ∧ IsLocalIPv6Address remote = true)) :
    (RedirectConnection (some inFixedValues) filter classifyOut env).calls = [] ∧
    (RedirectConnection (some inFixedValues) filter classifyOut env).layerData = env.layerData ∧
    (RedirectConnection (some inFixedValues) filter classifyOut env).classifyOut.actionType
      = FWP_ACTION_PERMIT := by
  have hl : IsRemoteEndpointLocal inFixedValues
      (decide (inFixedValues.layerId = FWPS_LAYER_ALE_CONNECT_REDIRECT_V4)) = true := by
    rcases hlocal with ⟨hv4, h4⟩ | ⟨hv6, remote, hr, hlen, h6⟩
    · have e := writeBytes_whole (List.replicate 4 0) (dottedQuad (inFixedValues.incomingValue
        FWPS_FIELD_ALE_CONNECT_REDIRECT_V4_IP_REMOTE_ADDRESS).uint32) (by simp [dottedQuad])
      simp only [IsRemoteEndpointLocal, hv4, decide_True, if_true, writeU32,
        le32_RtlUlongByteSwap, e, h4]
    · have e := writeBytes_whole (List.replicate 16 0) remote (by simp [hlen])
      have e2 : writeBytes [0, 0, 0, 0, 0, 0, 0, 0, 0, 0, 0, 0, 0, 0, 0, 0] 0 remote = remote := e
      simp [IsRemoteEndpointLocal, hv6, hr, readBytes_whole _ _ hlen, e2, h6]
  obtain ⟨h1, h2⟩ := RedirectConnection_of_local inFixedValues filter classifyOut env hl
  exact ⟨h1, h2, RedirectConnection_action _ _ _ _⟩


theorem readBytes_writeBytes_same (buf src : List Nat) (off : Nat)
    (h : off + src.length ≤ buf.length) :
    readBytes (writeBytes buf off src) off src.length = src := by
  apply ext_readByte
  · rw [length_readBytes, length_writeBytes]; omega
  · intro i hi
    rw [length_readBytes, length_writeBytes] at hi
    have hi2 : i < src.length := by omega
    rw [readByte_readBytes, if_pos hi2, readByte_writeBytes,
      if_pos (by omega : off ≤ off + i ∧ off + i < off + src.length ∧ off + i < buf.length)]
    congr 1; omega

theorem readBytes_writeBytes_disjoint (buf src : List Nat) (off o n : Nat)
    (h : o + n ≤ off ∨ off + src.length ≤ o) :
    readBytes (writeBytes buf off src) o n = readBytes buf o n := by
  apply ext_readByte
  · rw [length_readBytes, length_readBytes, length_writeBytes]
  · intro i hi
    rw [length_readBytes, length_writeBytes] at hi
    have hi2 : i < n := by omega
    rw [readByte_readBytes, readByte_readBytes, if_pos hi2, if_pos hi2, readByte_writeBytes,
      if_neg (by omega)]

theorem TryGetRedirectAddressFromContext_policy (blobSize : Nat) (policy : CONNECT_REDIRECT_DATA)
    (hlen : policy.address.length = 16) :
    TryGetRedirectAddressFromContext
        (some ⟨FWPM_GENERAL_CONTEXT, some ⟨blobSize, some policy⟩⟩) {} =
      if policy.addressFamily = AF_INET then
        (true, { family := AF_INET, address := policy.v4 ++ List.replicate 12 0 })
      else if policy.addressFamily = AF_INET6 then
        (true, { family := AF_INET6, address := policy.v6 })
      else (false, { family := AF_UNSPEC, address := List.replicate 16 0 }) := by
  obtain ⟨fam, addr⟩ := policy
  obtain ⟨b0, b1, b2, b3, b4, b5, b6, b7, b8, b9, b10, b11, b12, b13, b14, b15, rfl⟩ :=
    list_of_length_sixteen addr hlen
  simp only [TryGetRedirectAddressFromContext]
  split_ifs <;> first | rfl | contradiction


theorem ApplyRedirectAddress_AF_INET (s addr : List Nat) :
    ApplyRedirectAddress s ⟨AF_INET, addr⟩ =
      (true, writeBytes (writeU16 s 0 AF_INET) 4 (readBytes addr 0 4)) := by
  simp only [ApplyRedirectAddress, if_true]

theorem ApplyRedirectAddress_AF_INET6 (s addr : List Nat) :
    ApplyRedirectAddress s ⟨AF_INET6, addr⟩ =
      (true, writeBytes (writeU16 s 0 AF_INET6) 8 (readBytes addr 0 16)) := by
  have hne : ¬ (AF_INET6 = AF_INET) := by decide
  simp only [ApplyRedirectAddress, hne, if_false, if_true]

theorem ApplyRedirectAddress_v4 (s addr : List Nat) (hs : s.length = sizeof_SOCKADDR_STORAGE)
    (ha : addr.length = 16) :
    ss_family (ApplyRedirectAddress s ⟨AF_INET, addr⟩).2 = AF_INET ∧
    sin_addr (ApplyRedirectAddress s ⟨AF_INET, addr⟩).2 = readBytes addr 0 4 := by
  have hl4 : (readBytes addr 0 4).length = 4 := by rw [length_readBytes]; omega
  simp only [sizeof_SOCKADDR_STORAGE] at hs
  rw [ApplyRedirectAddress_AF_INET]
  constructor
  · simp only [ss_family, readU16, readByte_writeBytes, writeU16,
      le16, length_writeBytes, hl4, hs, AF_INET]
    simp [readByte]
  · simp only [sin_addr]
    have := readBytes_writeBytes_same (writeU16 s 0 AF_INET) (readBytes addr 0 4) 4
      (by rw [hl4, writeU16, length_writeBytes]; omega)
    rw [hl4] at this
    exact this

theorem ApplyRedirectAddress_v6 (s addr : List Nat) (hs : s.length = sizeof_SOCKADDR_STORAGE)
    (ha : addr.length = 16) :
    ss_family (ApplyRedirectAddress s ⟨AF_INET6, addr⟩).2 = AF_INET6 ∧
    sin6_addr (ApplyRedirectAddress s ⟨AF_INET6, addr⟩).2 = readBytes addr 0 16 := by
  have hl : (readBytes addr 0 16).length = 16 := by rw [length_readBytes]; omega
  simp only [sizeof_SOCKADDR_STORAGE] at hs
  rw [ApplyRedirectAddress_AF_INET6]
  constructor
  · simp only [ss_family, readU16,
      readByte_writeBytes, writeU16, le16, length_writeBytes, hl, hs, AF_INET6]
    simp [readByte]
  · simp only [sin6_addr]
    have := readBytes_writeBytes_same (writeU16 s 0 AF_INET6) (readBytes addr 0 16) 8
      (by rw [hl, writeU16, length_writeBytes]; omega)
    rw [hl] at this
    exact this

theorem RedirectConnection_commit
    (inFixedValues : FWPS_INCOMING_VALUES) (filter : FWPS_FILTER)
    (classifyOut : FWPS_CLASSIFY_OUT) (env : EngineEnv FWPS_CONNECT_REQUEST)
    (blobSize : Nat) (policy : CONNECT_REDIRECT_DATA)
    (hrights : classifyOut.rights &&& FWPS_RIGHT_ACTION_WRITE ≠ 0)
    (hlayer :
      (inFixedValues.layerId = FWPS_LAYER_ALE_CONNECT_REDIRECT_V4 ∧
        policy.addressFamily = AF_INET) ∨
      (inFixedValues.layerId = FWPS_LAYER_ALE_CONNECT_REDIRECT_V6 ∧
        policy.addressFamily = AF_INET6))
    (hflags : GetConnectRedirectFlags inFixedValues
      (decide (inFixedValues.layerId = FWPS_LAYER_ALE_CONNECT_REDIRECT_V4)) &&&
        FWP_CONDITION_FLAG_IS_REAUTHORIZE = 0)
    (hremote : IsRemoteEndpointLocal inFixedValues
      (decide (inFixedValues.layerId = FWPS_LAYER_ALE_CONNECT_REDIRECT_V4)) = false)
    (hcontext : filter.providerContext =
      some ⟨FWPM_GENERAL_CONTEXT, some ⟨blobSize, some policy⟩⟩)
    (hpolicy : policy.address.length = 16)
    (hhandle : env.acquireHandleSucceeds = true)
    (hwritable : env.acquireWritableSucceeds = true) :
    (RedirectConnection (some inFixedValues) (some filter) classifyOut env).layerData =
      { env.layerData with
        localAddressAndPort := (ApplyRedirectAddress env.layerData.localAddressAndPort
          (if policy.addressFamily = AF_INET then
            ⟨AF_INET, policy.v4 ++ List.replicate 12 0⟩ else ⟨AF_INET6, policy.v6⟩)).2 } := by
  have h64 : ¬ (AF_INET6 = AF_INET) := by decide
  rcases hlayer with ⟨hl, hf⟩ | ⟨hl, hf⟩
  · rw [hl] at hflags hremote
    simp only [decide_True] at hflags hremote
    simp only [RedirectConnection, hrights, hl, hflags, hremote, hcontext,
      TryGetRedirectAddressFromContext_policy blobSize policy hpolicy, hf, hhandle, hwritable,
      if_true, if_false, decide_True, Bool.not_true, Bool.false_and, Bool.not_false,
      ne_eq, not_true_eq_false, not_false_eq_true, Bool.false_eq_true, decide_False,
      Bool.and_false, Bool.or_false, Bool.and_true, Bool.or_self, reduceCtorEq]
  · rw [hl] at hflags hremote
    simp only [decide_False, reduceCtorEq] at hflags hremote
    simp only [RedirectConnection, hrights, hl, hflags, hremote, hcontext,
      TryGetRedirectAddressFromContext_policy blobSize policy hpolicy, hf, hhandle, hwritable,
      if_true, if_false, decide_True, Bool.not_true, Bool.false_and, Bool.not_false,
      ne_eq, not_true_eq_false, not_false_eq_true, Bool.false_eq_true, decide_False,
      Bool.and_false, Bool.or_false, Bool.and_true, Bool.or_self, Bool.true_and,
      Bool.false_or, h64, reduceCtorEq]

/-- Witness for C8: a connect to 192.168.1.1 (host-order value 0xC0A80101) on the
IPv4 layer, with a policy attached. -/
theorem C8_local_remote_is_not_redirected_witness :
    (RedirectConnection (some (connectValuesV4 0 0xC0A80101)) (some sampleFilterV4) ⟨0, 1, 0⟩
      sampleEngine).calls = [] ∧
    (RedirectConnection (some (connectValuesV4 0 0xC0A80101)) (some sampleFilterV4) ⟨0, 1, 0⟩
      sampleEngine).layerData = sampleEngine.layerData ∧
    (RedirectConnection (some (connectValuesV4 0 0xC0A80101)) (some sampleFilterV4) ⟨0, 1, 0⟩
      sampleEngine).classifyOut.actionType = FWP_ACTION_PERMIT :=
  C8_local_remote_is_not_redirected (connectValuesV4 0 0xC0A80101) (some sampleFilterV4)
    ⟨0, 1, 0⟩ sampleEngine (Or.inl ⟨rfl, by decide⟩)

/-- C1 (amended): with write rights, the reauthorize flag clear, a remote address
that is not local, a provider context that decodes to a policy of the family of
the layer, and both acquisitions successful, `RedirectConnection` rewrites the
local address field (`localAddressAndPort`) of the connect request to exactly the
policy's address, with the policy's family, leaves `remoteAddressAndPort` as it
was, and leaves the action PERMIT. -/
theorem C1_redirect_rewrites_local_address
    (inFixedValues : FWPS_INCOMING_VALUES) (filter : FWPS_FILTER)
    (classifyOut : FWPS_CLASSIFY_OUT) (env : EngineEnv FWPS_CONNECT_REQUEST)
    (blobSize : Nat) (policy : CONNECT_REDIRECT_DATA)
    (hrights : classifyOut.rights &&& FWPS_RIGHT_ACTION_WRITE ≠ 0)
    (hlayer :
      (inFixedValues.layerId = FWPS_LAYER_ALE_CONNECT_REDIRECT_V4 ∧
        policy.addressFamily = AF_INET) ∨
      (inFixedValues.layerId = FWPS_LAYER_ALE_CONNECT_REDIRECT_V6 ∧
        policy.addressFamily = AF_INET6))
    (hflags : GetConnectRedirectFlags inFixedValues
      (decide (inFixedValues.layerId = FWPS_LAYER_ALE_CONNECT_REDIRECT_V4)) &&&
        FWP_CONDITION_FLAG_IS_REAUTHORIZE = 0)
    (hremote : IsRemoteEndpointLocal inFixedValues
      (decide (inFixedValues.layerId = FWPS_LAYER_ALE_CONNECT_REDIRECT_V4)) = false)
    (hcontext : filter.providerContext =
      some ⟨FWPM_GENERAL_CONTEXT, some ⟨blobSize, some policy⟩⟩)
    (hpolicy : policy.address.length = 16)
    (hhandle : env.acquireHandleSucceeds = true)
    (hwritable : env.acquireWritableSucceeds = true)
    (hsock : env.layerData.localAddressAndPort.length = sizeof_SOCKADDR_STORAGE) :
    (RedirectConnection (some inFixedValues) (some filter) classifyOut env).classifyOut.actionType
      = FWP_ACTION_PERMIT ∧
    ss_family (RedirectConnection (some inFixedValues) (some filter) classifyOut
      env).layerData.localAddressAndPort = policy.addressFamily ∧
    (policy.addressFamily = AF_INET →
      sin_addr (RedirectConnection (some inFixedValues) (some filter) classifyOut
        env).layerData.localAddressAndPort = policy.v4) ∧
    (policy.addressFamily = AF_INET6 →
      sin6_addr (RedirectConnection (some inFixedValues) (some filter) classifyOut
        env).layerData.localAddressAndPort = policy.v6) ∧
    (RedirectConnection (some inFixedValues) (some filter) classifyOut
      env).layerData.remoteAddressAndPort = env.layerData.remoteAddressAndPort := by
  refine ⟨RedirectConnection_action _ _ _ _, ?_⟩
  rw [RedirectConnection_commit inFixedValues filter classifyOut env blobSize policy hrights
    hlayer hflags hremote hcontext hpolicy hhandle hwritable]
  have hv4len : (policy.v4 ++ List.replicate 12 0).length = 16 := by
    simp [CONNECT_REDIRECT_DATA.v4, length_readBytes, hpolicy]
  have hv6len : policy.v6.length = 16 := by
    simp [CONNECT_REDIRECT_DATA.v6, length_readBytes, hpolicy]
  have hv4 : readBytes (policy.v4 ++ List.replicate 12 0) 0 4 = policy.v4 := by
    simp [readBytes, CONNECT_REDIRECT_DATA.v4, hpolicy]
  have hv6 : readBytes policy.v6 0 16 = policy.v6 := readBytes_whole _ _ hv6len
  have h64 : ¬ (AF_INET6 = AF_INET) := by decide
  have hf : policy.addressFamily = AF_INET ∨ policy.addressFamily = AF_INET6 := by
    rcases hlayer with ⟨_, hf⟩ | ⟨_, hf⟩
    · exact Or.inl hf
    · exact Or.inr hf
  rcases hf with hf | hf
  · obtain ⟨a1, a2⟩ := ApplyRedirectAddress_v4 env.layerData.localAddressAndPort
      (policy.v4 ++ List.replicate 12 0) hsock hv4len
    simp only [hf, if_true, a1, a2, hv4, true_implies, true_and, and_true]
    intro h; exact absurd h.symm h64
  · obtain ⟨a1, a2⟩ := ApplyRedirectAddress_v6 env.layerData.localAddressAndPort
      policy.v6 hsock hv6len
    simp only [hf, h64, if_false, a1, a2, hv6, true_implies, true_and, and_true]
    intro h; exact h.elim

/-- Witness for C1 (amended): a connect to 8.8.8.8:443 on the IPv4 layer with the
policy 10.2.0.1. -/
theorem C1_redirect_rewrites_local_address_witness :
    (RedirectConnection (some (connectValuesV4 0 0x08080808)) (some sampleFilterV4) ⟨0, 1, 0⟩
      sampleEngine).classifyOut.actionType = FWP_ACTION_PERMIT ∧
    ss_family (RedirectConnection (some (connectValuesV4 0 0x08080808)) (some sampleFilterV4)
      ⟨0, 1, 0⟩ sampleEngine).layerData.localAddressAndPort = samplePolicyV4.addressFamily ∧
    (samplePolicyV4.addressFamily = AF_INET →
      sin_addr (RedirectConnection (some (connectValuesV4 0 0x08080808)) (some sampleFilterV4)
        ⟨0, 1, 0⟩ sampleEngine).layerData.localAddressAndPort = samplePolicyV4.v4) ∧
    (samplePolicyV4.addressFamily = AF_INET6 →
      sin6_addr (RedirectConnection (some (connectValuesV4 0 0x08080808)) (some sampleFilterV4)
        ⟨0, 1, 0⟩ sampleEngine).layerData.localAddressAndPort = samplePolicyV4.v6) ∧
    (RedirectConnection (some (connectValuesV4 0 0x08080808)) (some sampleFilterV4) ⟨0, 1, 0⟩
      sampleEngine).layerData.remoteAddressAndPort = sampleEngine.layerData.remoteAddressAndPort :=
  C1_redirect_rewrites_local_address (connectValuesV4 0 0x08080808) sampleFilterV4 ⟨0, 1, 0⟩
    sampleEngine 20 samplePolicyV4 (by decide) (Or.inl ⟨rfl, rfl⟩) (by decide) (by decide) rfl
    (by decide) rfl rfl (by decide)

/-- Counterexample to C1 as stated: every premise of the claim holds (IPv4
connect-redirect layer, write right present, reauthorize flag clear, remote
8.8.8.8 not local, an `AF_INET` policy 10.2.0.1, both acquisitions successful),
yet after `RedirectConnection` the remote (destination) address of the connect
request is still 8.8.8.8 and not the policy's address; it is the local address
that now holds 10.2.0.1. -/
theorem C1_remote_address_not_rewritten :
    (connectValuesV4 0 0x08080808).layerId = FWPS_LAYER_ALE_CONNECT_REDIRECT_V4 ∧
    (⟨0, 1, 0⟩ : FWPS_CLASSIFY_OUT).rights &&& FWPS_RIGHT_ACTION_WRITE ≠ 0 ∧
    GetConnectRedirectFlags (connectValuesV4 0 0x08080808) true &&&
      FWP_CONDITION_FLAG_IS_REAUTHORIZE = 0 ∧
    IsRemoteEndpointLocal (connectValuesV4 0 0x08080808) true = false ∧
    TryGetRedirectAddressFromContext sampleFilterV4.providerContext {} =
      (true, ⟨AF_INET, samplePolicyV4.address⟩) ∧
    sampleEngine.acquireHandleSucceeds = true ∧ sampleEngine.acquireWritableSucceeds = true ∧
    sin_addr (RedirectConnection (some (connectValuesV4 0 0x08080808)) (some sampleFilterV4)
      ⟨0, 1, 0⟩ sampleEngine).layerData.remoteAddressAndPort = [8, 8, 8, 8] ∧
    sin_addr (RedirectConnection (some (connectValuesV4 0 0x08080808)) (some sampleFilterV4)
      ⟨0, 1, 0⟩ sampleEngine).layerData.remoteAddressAndPort ≠ samplePolicyV4.v4 ∧
    sin_addr (RedirectConnection (some (connectValuesV4 0 0x08080808)) (some sampleFilterV4)
      ⟨0, 1, 0⟩ sampleEngine).layerData.localAddressAndPort = [10, 2, 0, 1] := by
  refine ⟨rfl, by decide, by decide, by decide, by decide, rfl, rfl, by decide, by decide,
    by decide⟩



/-! ## The checksum -/

theorem foldChecksum_eq (s : Nat) (hs : s < 2 ^ 32) :
    foldChecksum s = 65535 - foldCarries s := by
  have h1 : s &&& 0xFFFF = s % 65536 := by
    have := Nat.and_pow_two_sub_one_eq_mod s 16
    simpa using this
  simp only [foldChecksum, foldCarries, h1, Nat.shiftRight_eq_div_pow]
  have hlo : s % 65536 < 65536 := Nat.mod_lt _ (by norm_num)
  have hhi : s / 65536 < 65536 := by omega
  generalize s % 65536 = lo at *
  generalize s / 65536 = hi at *
  omega

theorem fold_once (x : Nat) (hx : x ≤ 131070) :
    ((x + x / 65536) % 65536) % 65535 = x % 65535 ∧ (x + x / 65536) % 65536 ≤ 65535 ∧
    (0 < x → 0 < (x + x / 65536) % 65536) := by
  rcases Nat.lt_or_ge x 65536 with h | h
  · have h0 : x / 65536 = 0 := by omega
    rw [h0]; omega
  · have h1 : x / 65536 = 1 := by omega
    rw [h1]; omega

theorem split_mod_65535 (lo hi : Nat) : (lo + 65536 * hi) % 65535 = (lo + hi) % 65535 := by
  have h : lo + 65536 * hi = (lo + hi) + 65535 * hi := by ring
  rw [h, Nat.add_mul_mod_self_left]

theorem foldCarries_spec (s : Nat) (hs : s < 2 ^ 32) :
    foldCarries s % 65535 = s % 65535 ∧ foldCarries s ≤ 65535 ∧ (0 < s → 0 < foldCarries s) := by
  have hlo : s % 65536 < 65536 := Nat.mod_lt _ (by norm_num)
  have hhi : s / 65536 < 65536 := by omega
  have hs2 : s % 65536 + 65536 * (s / 65536) = s := by omega
  have key := split_mod_65535 (s % 65536) (s / 65536)
  rw [hs2] at key
  obtain ⟨f1, f2, f3⟩ := fold_once (s % 65536 + s / 65536) (by omega)
  simp only [foldCarries]
  refine ⟨by rw [f1, key], f2, fun h => f3 (by omega)⟩

theorem foldChecksum_verify (s : Nat) (hs : s < 2 ^ 32 - 65536) :
    foldChecksum s < 65536 ∧ foldCarries (s + foldChecksum s) = 65535 ∧
    foldChecksum (s + foldChecksum s) = 0 := by
  have e1 := foldChecksum_eq s (by omega)
  obtain ⟨a1, a2, a3⟩ := foldCarries_spec s (by omega)
  have hc : foldChecksum s < 65536 := by omega
  have e2 := foldChecksum_eq (s + foldChecksum s) (by omega)
  obtain ⟨b1, b2, b3⟩ := foldCarries_spec (s + foldChecksum s) (by omega)
  have hf2 : foldCarries (s + foldChecksum s) = 65535 := by
    have hpos : 0 < foldCarries (s + foldChecksum s) := by
      apply b3
      rcases Nat.eq_zero_or_pos s with h0 | h0
      · subst h0
        have hz : foldCarries 0 = 0 := by decide
        rw [hz] at e1
        omega
      · omega
    have hmod : (s + foldChecksum s) % 65535 = 0 := by
      rw [e1]
      generalize foldCarries s = f1 at *
      omega
    rw [hmod] at b1
    generalize foldCarries (s + foldChecksum s) = f2 at *
    omega
  exact ⟨hc, hf2, by omega⟩

/-! ## The DNS blocker -/

theorem ntohs_lt (v : Nat) : ntohs v < 65536 := by
  simp only [ntohs, RtlUshortByteSwap]; omega

theorem IPHDR_Version_replicate (n : Nat) : IPHDR_Version (List.replicate n 0) = 0 := by
  simp [IPHDR_Version, readByte, List.getD_eq_getElem?_getD, List.getElem?_replicate]
  split <;> simp

/-- What an injection by `BlockDnsPacket` tells about the buffer. -/
theorem BlockDnsPacket_inject (h : CalloutH) (buffer : NET_BUFFER) (ii si : Nat) (env : PacketEnv)
    (pkt : List Nat) (a b : Nat)
    (hinj : Event.inject pkt a b ∈ (BlockDnsPacket h buffer ii si env).2) :
    ¬ malformedPacket h buffer.data ∧ buffer.data.length < 65536 ∧
    pkt = readBytes (buildDnsReply h buffer.data (IPHDR_HdrLength buffer.data * 4)
        (buffer.data.length - IPHDR_HdrLength buffer.data * 4 - 8)
        (28 + (buffer.data.length - IPHDR_HdrLength buffer.data * 4 - 8))) 0
        (28 + (buffer.data.length - IPHDR_HdrLength buffer.data * 4 - 8)) ∧
    a = ii ∧ b = si := by
  unfold BlockDnsPacket at hinj
  simp only [sizeof_IPHDR, sizeof_UDPHDR, sizeof_UINT32, IPPROTO_UDP] at hinj
  by_cases h1 : buffer.data.length < 20 ∨ buffer.data.length > h.MAX_PACKET_SIZE
  · simp [h1] at hinj
  rw [if_neg h1] at hinj
  by_cases h2 : (!env.scratchAllocated) = true
  · simp [h2] at hinj
  rw [if_neg h2] at hinj
  cases hnd : env.ndisGetDataBuffer with
  | null => simp [hnd, NdisGetDataBuffer] at hinj
  | inPlace =>
    simp only [hnd, NdisGetDataBuffer, IPHDR_Version_replicate] at hinj
    simp at hinj
  | copied =>
    simp only [hnd, NdisGetDataBuffer, readBytes_whole buffer.data _ rfl] at hinj
    by_cases h3 : IPHDR_Version buffer.data ≠ 4 ∨
        ntohs (IPHDR_Length buffer.data) ≠ buffer.data.length ∨
        IPHDR_HdrLength buffer.data * 4 < 20 ∨
        IPHDR_Protocol buffer.data ≠ 17 ∨
        buffer.data.length < IPHDR_HdrLength buffer.data * 4 + 8 + h.sizeof_DNSHEADER
    · simp [h3] at hinj
    rw [if_neg h3] at hinj
    by_cases h4 : ntohs (UDPHDR_DstPort buffer.data (IPHDR_HdrLength buffer.data * 4)) ≠ 53
    · simp [h4] at hinj
    rw [if_neg h4] at hinj
    by_cases h5 : (!env.replyAllocated) = true
    · simp [h5] at hinj
    rw [if_neg h5] at hinj
    by_cases h6 : (!env.mdlAllocated) = true
    · simp [h6] at hinj
    rw [if_neg h6] at hinj
    by_cases h7 : (!env.netBufferListAllocated) = true
    · simp [h7] at hinj
    rw [if_neg h7] at hinj
    by_cases h8 : (!env.injected) = true
    · simp [h8] at hinj
    rw [if_neg h8] at hinj
    have hlen := ntohs_lt (IPHDR_Length buffer.data)
    have hlt : buffer.data.length < 65536 := by omega
    have e1 : (buffer.data.length + 2 ^ 32 - IPHDR_HdrLength buffer.data * 4 - 8) % 2 ^ 32
        = buffer.data.length - IPHDR_HdrLength buffer.data * 4 - 8 := by omega
    have e2 : (20 + 8 + (buffer.data.length - IPHDR_HdrLength buffer.data * 4 - 8)) % 2 ^ 32
        = 28 + (buffer.data.length - IPHDR_HdrLength buffer.data * 4 - 8) := by omega
    simp only [e1, e2, List.mem_cons, List.mem_singleton, Event.inject.injEq, reduceCtorEq,
      false_or, or_false, List.mem_nil_iff] at hinj
    refine ⟨?_, hlt, hinj.1, hinj.2.1, hinj.2.2⟩
    simp only [malformedPacket]
    omega


theorem readByte_lt (data : List Nat) (hb : ∀ b ∈ data, b < 256) (k : Nat) :
    readByte data k < 256 := by
  unfold readByte
  rw [List.getD_eq_getElem?_getD]
  by_cases hk : k < data.length
  · rw [List.getElem?_eq_getElem hk]
    exact hb _ (List.getElem_mem hk)
  · rw [List.getElem?_eq_none (by omega)]
    simp

theorem le16_readU16 (data : List Nat) (hb : ∀ b ∈ data, b < 256) (off : Nat) :
    le16 (readU16 data off) = [readByte data off, readByte data (off + 1)] := by
  have h0 := readByte_lt data hb off
  have h1 := readByte_lt data hb (off + 1)
  simp only [le16, readU16, List.cons.injEq, and_true]
  constructor <;> omega

theorem le32_readU32 (data : List Nat) (hb : ∀ b ∈ data, b < 256) (off : Nat) :
    le32 (readU32 data off) =
      [readByte data off, readByte data (off + 1), readByte data (off + 2),
       readByte data (off + 3)] := by
  have h0 := readByte_lt data hb off
  have h1 := readByte_lt data hb (off + 1)
  have h2 := readByte_lt data hb (off + 2)
  have h3 := readByte_lt data hb (off + 3)
  simp only [le32, readU32, List.cons.injEq, and_true]
  refine ⟨?_, ?_, ?_, ?_⟩ <;> omega

theorem le16_htons (v : Nat) (hv : v < 65536) : le16 (htons v) = [v / 256, v % 256] := by
  have hlo : v % 256 < 256 := Nat.mod_lt _ (by norm_num)
  have hhi : v / 256 < 256 := by omega
  simp only [le16, htons, RtlUshortByteSwap, Nat.mod_eq_of_lt hv, List.cons.injEq, and_true]
  generalize v % 256 = lo at *
  generalize v / 256 = hi at *
  constructor <;> omega

theorem readByte_writeBytes_outside (buf src : List Nat) (off i : Nat)
    (h : i < off ∨ off + src.length ≤ i) :
    readByte (writeBytes buf off src) i = readByte buf i := by
  rw [readByte_writeBytes, if_neg (by omega)]

theorem readByte_writeBytes_inside (buf src : List Nat) (off i : Nat)
    (h : off ≤ i ∧ i < off + src.length ∧ i < buf.length) :
    readByte (writeBytes buf off src) i = readByte src (i - off) := by
  rw [readByte_writeBytes, if_pos h]

theorem readByte_replicate_zero (n i : Nat) : readByte (List.replicate n 0) i = 0 := by
  simp only [readByte, List.getD_eq_getElem?_getD, List.getElem?_replicate]
  split <;> rfl

/-- The bytes of the reply buffer before the checksum is stored. -/
theorem readByte_dnsReplyFields (h : CalloutH) (data : List Nat) (ihl n : Nat)
    (hb : ∀ b ∈ data, b < 256) (hdns : 4 ≤ h.sizeof_DNSHEADER)
    (hn : h.sizeof_DNSHEADER ≤ n) (hlen : ihl + 8 + n ≤ data.length)
    (hmax : 28 + n ≤ h.MAX_PACKET_SIZE) (h16 : 28 + n < 65536) (i : Nat) (hi : i < 28 + n) :
    readByte (dnsReplyFields h data ihl n (28 + n)) i =
      if i < 28 then
        readByte (replyHeader data ihl n 0) i
      else if i = 30 then 0x80
      else if i = 31 then 0x02
      else readByte data (ihl + 8 + (i - 28)) := by
  have hrl : (readBytes data (ihl + 8) n).length = n := by rw [length_readBytes]; omega
  have e1 : le16 (htons ((28 + n) % 2 ^ 16)) = [(28 + n) / 256, (28 + n) % 256] := by
    rw [Nat.mod_eq_of_lt (by omega)]; exact le16_htons _ h16
  have e2 : le16 (htons (n + 8)) = [(n + 8) / 256, (n + 8) % 256] := le16_htons _ (by omega)
  have e3 : le16 (htons 0x8002) = [0x80, 0x02] := by decide
  have e4 : le16 (ntohs (8 + h.sizeof_DNSHEADER)) =
      [(8 + h.sizeof_DNSHEADER) / 256, (8 + h.sizeof_DNSHEADER) % 256] := le16_htons _ (by omega)
  have e5 : le16 (htons (20 + 8 + h.sizeof_DNSHEADER)) =
      [(20 + 8 + h.sizeof_DNSHEADER) / 256, (20 + 8 + h.sizeof_DNSHEADER) % 256] :=
    le16_htons _ (by omega)
  have e6 : le16 0 = [0, 0] := by decide
  simp only [dnsReplyFields, PacketDnsReplyInitv4, IPHDR_setVersion, IPHDR_setHdrLength,
    CalloutH.sizeof_DNSPACKETV4, sizeof_IPHDR, sizeof_UDPHDR, sizeof_UINT32, IPPROTO_UDP,
    writeU16, writeU32, IPHDR_DstAddr, IPHDR_SrcAddr, UDPHDR_DstPort, UDPHDR_SrcPort,
    le32_readU32 data hb, le16_readU16 data hb, e1, e2, e3, e4, e5, e6,
    readByte_writeBytes, length_writeBytes, List.length_replicate, List.length_cons,
    List.length_nil, hrl, readByte_replicate_zero, readByte_readBytes]
  have hM : ∀ k, k < 28 → k < h.MAX_PACKET_SIZE := fun k hk => by omega
  by_cases h28 : i < 28
  · rw [if_pos h28]
    interval_cases i <;> simp [readByte, hM, replyHeader]
  · rw [if_neg h28]
    have hiM : i < h.MAX_PACKET_SIZE := by omega
    have c1 : ¬ (24 ≤ i ∧ i < 24 + 2 ∧ i < h.MAX_PACKET_SIZE) := by omega
    have c2 : ¬ (20 + 2 ≤ i ∧ i < 20 + 2 + 2 ∧ i < h.MAX_PACKET_SIZE) := by omega
    have c3 : ¬ (20 ≤ i ∧ i < 20 + 2 ∧ i < h.MAX_PACKET_SIZE) := by omega
    have c4 : ¬ (2 ≤ i ∧ i < 2 + 2 ∧ i < h.MAX_PACKET_SIZE) := by omega
    have c5 : ¬ (16 ≤ i ∧ i < 16 + 4 ∧ i < h.MAX_PACKET_SIZE) := by omega
    have c6 : ¬ (12 ≤ i ∧ i < 12 + 4 ∧ i < h.MAX_PACKET_SIZE) := by omega
    simp only [c1, c2, c3, c4, c5, c6, if_false]
    by_cases h30 : i = 30
    · subst h30
      rw [if_pos (by omega)]; rfl
    by_cases h31 : i = 31
    · subst h31
      rw [if_pos (by omega)]; rfl
    rw [if_neg (by omega), if_pos (by omega), if_pos (by omega), if_neg h30, if_neg h31]


theorem range_ten : List.range 10 = [0, 1, 2, 3, 4, 5, 6, 7, 8, 9] := by decide

theorem readU16_lt (buf : List Nat) (off : Nat) (h0 : readByte buf off < 256)
    (h1 : readByte buf (off + 1) < 256) : readU16 buf off < 65536 := by
  simp only [readU16]; omega

/-- `CalcChecksum` over a 20-byte header whose bytes are below 256. -/
theorem CalcChecksum_twenty (buf : List Nat) (hb : ∀ i, i < 20 → readByte buf i < 256) :
    CalcChecksum buf 20 = foldChecksum
      (readU16 buf 0 + readU16 buf 2 + readU16 buf 4 + readU16 buf 6 + readU16 buf 8 +
       readU16 buf 10 + readU16 buf 12 + readU16 buf 14 + readU16 buf 16 + readU16 buf 18) ∧
    readU16 buf 0 + readU16 buf 2 + readU16 buf 4 + readU16 buf 6 + readU16 buf 8 +
       readU16 buf 10 + readU16 buf 12 + readU16 buf 14 + readU16 buf 16 + readU16 buf 18
      < 655360 := by
  have h1 : (20 : Nat) >>> 1 = 10 := by decide
  have h2 : ¬ ((20 : Nat) &&& 0x1 ≠ 0) := by decide
  simp only [CalcChecksum, h1, h2, if_false, range_ten, List.foldl, Nat.reduceMul]
  have w0 := readU16_lt buf 0 (hb 0 (by norm_num)) (hb 1 (by norm_num))
  have w1 := readU16_lt buf 2 (hb 2 (by norm_num)) (hb 3 (by norm_num))
  have w2 := readU16_lt buf 4 (hb 4 (by norm_num)) (hb 5 (by norm_num))
  have w3 := readU16_lt buf 6 (hb 6 (by norm_num)) (hb 7 (by norm_num))
  have w4 := readU16_lt buf 8 (hb 8 (by norm_num)) (hb 9 (by norm_num))
  have w5 := readU16_lt buf 10 (hb 10 (by norm_num)) (hb 11 (by norm_num))
  have w6 := readU16_lt buf 12 (hb 12 (by norm_num)) (hb 13 (by norm_num))
  have w7 := readU16_lt buf 14 (hb 14 (by norm_num)) (hb 15 (by norm_num))
  have w8 := readU16_lt buf 16 (hb 16 (by norm_num)) (hb 17 (by norm_num))
  have w9 := readU16_lt buf 18 (hb 18 (by norm_num)) (hb 19 (by norm_num))
  generalize readU16 buf 0 = x0 at *
  generalize readU16 buf 2 = x1 at *
  generalize readU16 buf 4 = x2 at *
  generalize readU16 buf 6 = x3 at *
  generalize readU16 buf 8 = x4 at *
  generalize readU16 buf 10 = x5 at *
  generalize readU16 buf 12 = x6 at *
  generalize readU16 buf 14 = x7 at *
  generalize readU16 buf 16 = x8 at *
  generalize readU16 buf 18 = x9 at *
  rw [Nat.mod_eq_of_lt (by omega : 0 + x0 < 2 ^ 32),
    Nat.mod_eq_of_lt (by omega : 0 + x0 + x1 < 2 ^ 32),
    Nat.mod_eq_of_lt (by omega : 0 + x0 + x1 + x2 < 2 ^ 32),
    Nat.mod_eq_of_lt (by omega : 0 + x0 + x1 + x2 + x3 < 2 ^ 32),
    Nat.mod_eq_of_lt (by omega : 0 + x0 + x1 + x2 + x3 + x4 < 2 ^ 32),
    Nat.mod_eq_of_lt (by omega : 0 + x0 + x1 + x2 + x3 + x4 + x5 < 2 ^ 32),
    Nat.mod_eq_of_lt (by omega : 0 + x0 + x1 + x2 + x3 + x4 + x5 + x6 < 2 ^ 32),
    Nat.mod_eq_of_lt (by omega : 0 + x0 + x1 + x2 + x3 + x4 + x5 + x6 + x7 < 2 ^ 32),
    Nat.mod_eq_of_lt (by omega : 0 + x0 + x1 + x2 + x3 + x4 + x5 + x6 + x7 + x8 < 2 ^ 32),
    Nat.mod_eq_of_lt (by omega : 0 + x0 + x1 + x2 + x3 + x4 + x5 + x6 + x7 + x8 + x9 < 2 ^ 32),
    Nat.zero_add]
  exact ⟨rfl, by omega⟩


theorem length_dnsReplyFields (h : CalloutH) (data : List Nat) (ihl n rs : Nat) :
    (dnsReplyFields h data ihl n rs).length = h.MAX_PACKET_SIZE := by
  simp only [dnsReplyFields, PacketDnsReplyInitv4, IPHDR_setVersion, IPHDR_setHdrLength,
    writeU16, writeU32, length_writeBytes, List.length_replicate]

theorem replyHeader_checksum_bytes (data : List Nat) (ihl n c i : Nat) (h10 : i ≠ 10)
    (h11 : i ≠ 11) : readByte (replyHeader data ihl n c) i = readByte (replyHeader data ihl n 0) i := by
  by_cases hi : i < 28
  · interval_cases i <;> first | rfl | contradiction
  · have e : ∀ c, readByte (replyHeader data ihl n c) i = 0 := by
      intro c
      simp only [readByte, List.getD_eq_getElem?_getD]
      rw [List.getElem?_eq_none (by simp [replyHeader]; omega)]
      rfl
    rw [e, e]

/-- The bytes of the finished reply buffer. -/
theorem readByte_buildDnsReply (h : CalloutH) (data : List Nat) (ihl n : Nat)
    (hb : ∀ b ∈ data, b < 256) (hdns : 4 ≤ h.sizeof_DNSHEADER)
    (hn : h.sizeof_DNSHEADER ≤ n) (hlen : ihl + 8 + n ≤ data.length)
    (hmax : 28 + n ≤ h.MAX_PACKET_SIZE) (h16 : 28 + n < 65536) (i : Nat) (hi : i < 28 + n) :
    readByte (buildDnsReply h data ihl n (28 + n)) i =
      if i < 28 then
        readByte (replyHeader data ihl n
          (CalcChecksum (dnsReplyFields h data ihl n (28 + n)) 20)) i
      else if i = 30 then 0x80
      else if i = 31 then 0x02
      else readByte data (ihl + 8 + (i - 28)) := by
  have hF := readByte_dnsReplyFields h data ihl n hb hdns hn hlen hmax h16
  have h0 : readByte (dnsReplyFields h data ihl n (28 + n)) 0 = 0x45 := by
    rw [hF 0 (by omega)]; rfl
  have hHL : IPHDR_HdrLength (dnsReplyFields h data ihl n (28 + n)) * sizeof_UINT32 = 20 := by
    simp only [IPHDR_HdrLength, h0, sizeof_UINT32]
  simp only [buildDnsReply, hHL, writeU16, DNSHEADER_transaction_id, le16_readU16 data hb,
    sizeof_IPHDR, sizeof_UDPHDR]
  simp only [readByte_writeBytes, length_writeBytes, length_dnsReplyFields,
    List.length_cons, List.length_nil, le16]
  generalize CalcChecksum (dnsReplyFields h data ihl n (28 + n)) 20 = c
  by_cases h28 : i = 28
  · subst h28
    rw [if_pos (by omega), if_neg (by omega), if_neg (by omega), if_neg (by omega)]
    rfl
  by_cases h29 : i = 29
  · subst h29
    rw [if_pos (by omega), if_neg (by omega), if_neg (by omega), if_neg (by omega)]
    rfl
  rw [if_neg (by omega)]
  by_cases h10 : i = 10
  · subst h10
    rw [if_pos (by omega), if_pos (by omega)]; rfl
  by_cases h11 : i = 11
  · subst h11
    rw [if_pos (by omega), if_pos (by omega)]; rfl
  rw [if_neg (by omega), hF i hi, replyHeader_checksum_bytes data ihl n c i h10 h11]


theorem onesAdd_spec (a b : Nat) (ha : a ≤ 65535) (hb : b ≤ 65535) :
    onesAdd a b ≤ 65535 ∧ onesAdd a b % 65535 = (a + b) % 65535 ∧
    (0 < a + b → 0 < onesAdd a b) := by
  simp only [onesAdd]
  have hx : a + b ≤ 131070 := by omega
  generalize a + b = x at *
  rcases Nat.lt_or_ge x 65536 with h | h
  · have h0 : x / 65536 = 0 := by omega
    rw [h0]; omega
  · have h1 : x / 65536 = 1 := by omega
    rw [h1]; omega

/-- The one's-complement sum of ten words is congruent to their plain sum modulo
`0xFFFF`, fits sixteen bits, and is zero only if every word is. -/
theorem onesAdd_ten (w0 w1 w2 w3 w4 w5 w6 w7 w8 w9 : Nat)
    (h0 : w0 ≤ 65535) (h1 : w1 ≤ 65535) (h2 : w2 ≤ 65535) (h3 : w3 ≤ 65535) (h4 : w4 ≤ 65535)
    (h5 : w5 ≤ 65535) (h6 : w6 ≤ 65535) (h7 : w7 ≤ 65535) (h8 : w8 ≤ 65535) (h9 : w9 ≤ 65535) :
    onesAdd (onesAdd (onesAdd (onesAdd (onesAdd (onesAdd (onesAdd (onesAdd (onesAdd
      (onesAdd 0 w0) w1) w2) w3) w4) w5) w6) w7) w8) w9 ≤ 65535 ∧
    onesAdd (onesAdd (onesAdd (onesAdd (onesAdd (onesAdd (onesAdd (onesAdd (onesAdd
      (onesAdd 0 w0) w1) w2) w3) w4) w5) w6) w7) w8) w9 % 65535
      = (w0 + w1 + w2 + w3 + w4 + w5 + w6 + w7 + w8 + w9) % 65535 ∧
    (0 < w0 → 0 < onesAdd (onesAdd (onesAdd (onesAdd (onesAdd (onesAdd (onesAdd (onesAdd (onesAdd
      (onesAdd 0 w0) w1) w2) w3) w4) w5) w6) w7) w8) w9) := by
  obtain ⟨a0, b0, c0⟩ := onesAdd_spec 0 w0 (by omega) h0
  generalize onesAdd 0 w0 = r0 at *
  obtain ⟨a1, b1, c1⟩ := onesAdd_spec r0 w1 a0 h1
  generalize onesAdd r0 w1 = r1 at *
  obtain ⟨a2, b2, c2⟩ := onesAdd_spec r1 w2 a1 h2
  generalize onesAdd r1 w2 = r2 at *
  obtain ⟨a3, b3, c3⟩ := onesAdd_spec r2 w3 a2 h3
  generalize onesAdd r2 w3 = r3 at *
  obtain ⟨a4, b4, c4⟩ := onesAdd_spec r3 w4 a3 h4
  generalize onesAdd r3 w4 = r4 at *
  obtain ⟨a5, b5, c5⟩ := onesAdd_spec r4 w5 a4 h5
  generalize onesAdd r4 w5 = r5 at *
  obtain ⟨a6, b6, c6⟩ := onesAdd_spec r5 w6 a5 h6
  generalize onesAdd r5 w6 = r6 at *
  obtain ⟨a7, b7, c7⟩ := onesAdd_spec r6 w7 a6 h7
  generalize onesAdd r6 w7 = r7 at *
  obtain ⟨a8, b8, c8⟩ := onesAdd_spec r7 w8 a7 h8
  generalize onesAdd r7 w8 = r8 at *
  obtain ⟨a9, b9, c9⟩ := onesAdd_spec r8 w9 a8 h9
  generalize onesAdd r8 w9 = r9 at *
  refine ⟨a9, ?_, ?_⟩
  · omega
  · intro hw
    omega


theorem replyHeader_byte_lt (data : List Nat) (ihl n c : Nat) (hb : ∀ b ∈ data, b < 256)
    (h16 : 28 + n < 65536) (i : Nat) : readByte (replyHeader data ihl n c) i < 256 := by
  apply readByte_lt
  intro x hx
  have r := readByte_lt data hb
  simp only [replyHeader, List.mem_cons, List.mem_nil_iff, or_false] at hx
  rcases hx with rfl | rfl | rfl | rfl | rfl | rfl | rfl | rfl | rfl | rfl | rfl | rfl | rfl |
    rfl | rfl | rfl | rfl | rfl | rfl | rfl | rfl | rfl | rfl | rfl | rfl | rfl | rfl | rfl
  all_goals first | exact r _ | omega

/-- A header that agrees with `replyHeader` for the checksum `CalcChecksum`
computes over the header with a zero checksum field verifies. -/
theorem checksum_of_replyHeader (data : List Nat) (ihl n : Nat) (hb : ∀ b ∈ data, b < 256)
    (h16 : 28 + n < 65536) (F P : List Nat)
    (hF : ∀ i, i < 20 → readByte F i = readByte (replyHeader data ihl n 0) i)
    (hP : ∀ i, i < 20 →
      readByte P i = readByte (replyHeader data ihl n (CalcChecksum F 20)) i) :
    CalcChecksum P 20 = 0 ∧ onesComplementSum P 10 = 0xFFFF := by
  have bF : ∀ i, i < 20 → readByte F i < 256 := fun i hi => by
    rw [hF i hi]; exact replyHeader_byte_lt data ihl n 0 hb h16 i
  have bP : ∀ i, i < 20 → readByte P i < 256 := fun i hi => by
    rw [hP i hi]; exact replyHeader_byte_lt data ihl n _ hb h16 i
  obtain ⟨cF, sF⟩ := CalcChecksum_twenty F bF
  obtain ⟨cP, sP⟩ := CalcChecksum_twenty P bP
  have r := readByte_lt data hb
  have r12 := r 12
  have r13 := r 13
  have r14 := r 14
  have r15 := r 15
  have r16 := r 16
  have r17 := r 17
  have r18 := r 18
  have r19 := r 19
  -- the words of the header before the checksum is stored
  have eF : readU16 F 0 + readU16 F 2 + readU16 F 4 + readU16 F 6 + readU16 F 8 +
      readU16 F 10 + readU16 F 12 + readU16 F 14 + readU16 F 16 + readU16 F 18 =
      69 + ((28 + n) / 256 + 256 * ((28 + n) % 256)) + 4416 +
      (readByte data 16 + 256 * readByte data 17) + (readByte data 18 + 256 * readByte data 19) +
      (readByte data 12 + 256 * readByte data 13) +
      (readByte data 14 + 256 * readByte data 15) := by
    simp only [readU16, Nat.reduceAdd, hF _ (by norm_num : (0 : Nat) < 20),
      hF 1 (by norm_num), hF 2 (by norm_num), hF 3 (by norm_num), hF 4 (by norm_num),
      hF 5 (by norm_num), hF 6 (by norm_num), hF 7 (by norm_num), hF 8 (by norm_num),
      hF 9 (by norm_num), hF 10 (by norm_num), hF 11 (by norm_num), hF 12 (by norm_num),
      hF 13 (by norm_num), hF 14 (by norm_num), hF 15 (by norm_num), hF 16 (by norm_num),
      hF 17 (by norm_num), hF 18 (by norm_num), hF 19 (by norm_num)]
    simp [replyHeader, readByte]
  have hS : 69 + ((28 + n) / 256 + 256 * ((28 + n) % 256)) + 4416 +
      (readByte data 16 + 256 * readByte data 17) + (readByte data 18 + 256 * readByte data 19) +
      (readByte data 12 + 256 * readByte data 13) +
      (readByte data 14 + 256 * readByte data 15) < 2 ^ 32 - 65536 := by omega
  rw [eF] at cF
  obtain ⟨v1, v2, v3⟩ := foldChecksum_verify _ hS
  rw [← cF] at v1 v2 v3
  have hc0 : CalcChecksum F 20 % 256 + 256 * (CalcChecksum F 20 / 256 % 256)
      = CalcChecksum F 20 := by omega
  -- the words of the finished header
  have eP : readU16 P 0 + readU16 P 2 + readU16 P 4 + readU16 P 6 + readU16 P 8 +
      readU16 P 10 + readU16 P 12 + readU16 P 14 + readU16 P 16 + readU16 P 18 =
      69 + ((28 + n) / 256 + 256 * ((28 + n) % 256)) + 4416 +
      (readByte data 16 + 256 * readByte data 17) + (readByte data 18 + 256 * readByte data 19) +
      (readByte data 12 + 256 * readByte data 13) +
      (readByte data 14 + 256 * readByte data 15) + CalcChecksum F 20 := by
    simp only [readU16, Nat.reduceAdd, hP _ (by norm_num : (0 : Nat) < 20),
      hP 1 (by norm_num), hP 2 (by norm_num), hP 3 (by norm_num), hP 4 (by norm_num),
      hP 5 (by norm_num), hP 6 (by norm_num), hP 7 (by norm_num), hP 8 (by norm_num),
      hP 9 (by norm_num), hP 10 (by norm_num), hP 11 (by norm_num), hP 12 (by norm_num),
      hP 13 (by norm_num), hP 14 (by norm_num), hP 15 (by norm_num), hP 16 (by norm_num),
      hP 17 (by norm_num), hP 18 (by norm_num), hP 19 (by norm_num)]
    simp only [replyHeader, readByte, List.getD_cons_zero, List.getD_cons_succ]
    omega
  refine ⟨by rw [cP, eP]; exact v3, ?_⟩
  have hmod : (readU16 P 0 + readU16 P 2 + readU16 P 4 + readU16 P 6 + readU16 P 8 +
      readU16 P 10 + readU16 P 12 + readU16 P 14 + readU16 P 16 + readU16 P 18) % 65535 = 0 := by
    obtain ⟨f1, _, _⟩ := foldCarries_spec _ (by omega : 69 + ((28 + n) / 256 +
      256 * ((28 + n) % 256)) + 4416 +
      (readByte data 16 + 256 * readByte data 17) + (readByte data 18 + 256 * readByte data 19) +
      (readByte data 12 + 256 * readByte data 13) +
      (readByte data 14 + 256 * readByte data 15) + CalcChecksum F 20 < 2 ^ 32)
    rw [eP, ← f1, v2]
  have p0 : readByte P 0 = 69 := by rw [hP 0 (by norm_num)]; rfl
  have q0 := bP 0 (by norm_num)
  have q1 := bP 1 (by norm_num)
  have q2 := bP 2 (by norm_num)
  have q3 := bP 3 (by norm_num)
  have q4 := bP 4 (by norm_num)
  have q5 := bP 5 (by norm_num)
  have q6 := bP 6 (by norm_num)
  have q7 := bP 7 (by norm_num)
  have q8 := bP 8 (by norm_num)
  have q9 := bP 9 (by norm_num)
  have q10 := bP 10 (by norm_num)
  have q11 := bP 11 (by norm_num)
  have q12 := bP 12 (by norm_num)
  have q13 := bP 13 (by norm_num)
  have q14 := bP 14 (by norm_num)
  have q15 := bP 15 (by norm_num)
  have q16 := bP 16 (by norm_num)
  have q17 := bP 17 (by norm_num)
  have q18 := bP 18 (by norm_num)
  have q19 := bP 19 (by norm_num)
  simp only [readU16, Nat.reduceAdd] at hmod
  simp only [onesComplementSum, range_ten, List.foldl, Nat.reduceMul, Nat.reduceAdd,
    Nat.zero_add]
  obtain ⟨k1, k2, k3⟩ := onesAdd_ten
    (256 * readByte P 0 + readByte P 1) (256 * readByte P 2 + readByte P 3)
    (256 * readByte P 4 + readByte P 5) (256 * readByte P 6 + readByte P 7)
    (256 * readByte P 8 + readByte P 9) (256 * readByte P 10 + readByte P 11)
    (256 * readByte P 12 + readByte P 13) (256 * readByte P 14 + readByte P 15)
    (256 * readByte P 16 + readByte P 17) (256 * readByte P 18 + readByte P 19)
    (by omega) (by omega) (by omega) (by omega) (by omega) (by omega) (by omega) (by omega)
    (by omega) (by omega)
  have k4 := k3 (by omega)
  have hW : (256 * readByte P 0 + readByte P 1 + (256 * readByte P 2 + readByte P 3) +
      (256 * readByte P 4 + readByte P 5) + (256 * readByte P 6 + readByte P 7) +
      (256 * readByte P 8 + readByte P 9) + (256 * readByte P 10 + readByte P 11) +
      (256 * readByte P 12 + readByte P 13) + (256 * readByte P 14 + readByte P 15) +
      (256 * readByte P 16 + readByte P 17) + (256 * readByte P 18 + readByte P 19)) % 65535
      = 0 := by
    omega
  rw [hW] at k2
  omega


theorem length_buildDnsReply (h : CalloutH) (data : List Nat) (ihl n rs : Nat) :
    (buildDnsReply h data ihl n rs).length = h.MAX_PACKET_SIZE := by
  simp only [buildDnsReply, writeU16, length_writeBytes, length_dnsReplyFields]

/-- The packet `BlockDnsPacket` injects, byte by byte. -/
theorem injected_reply_bytes (h : CalloutH) (buffer : NET_BUFFER) (ii si : Nat) (env : PacketEnv)
    (pkt : List Nat) (a b : Nat) (hdns : 4 ≤ h.sizeof_DNSHEADER)
    (hb : ∀ x ∈ buffer.data, x < 256)
    (hinj : Event.inject pkt a b ∈ (BlockDnsPacket h buffer ii si env).2) :
    ∃ n F, 20 ≤ IPHDR_HdrLength buffer.data * 4 ∧
      IPHDR_HdrLength buffer.data * 4 + 8 + n = buffer.data.length ∧
      h.sizeof_DNSHEADER ≤ n ∧ 28 + n < 65536 ∧ pkt.length = 28 + n ∧
      ntohs (UDPHDR_DstPort buffer.data (IPHDR_HdrLength buffer.data * 4)) = 53 ∧
      (∀ i, i < 20 → readByte F i =
        readByte (replyHeader buffer.data (IPHDR_HdrLength buffer.data * 4) n 0) i) ∧
      ∀ i, i < 28 + n → readByte pkt i =
        if i < 28 then
          readByte (replyHeader buffer.data (IPHDR_HdrLength buffer.data * 4) n
            (CalcChecksum F 20)) i
        else if i = 30 then 0x80
        else if i = 31 then 0x02
        else readByte buffer.data (IPHDR_HdrLength buffer.data * 4 + 8 + (i - 28)) := by
  obtain ⟨hm, hlt, hpkt, _, _⟩ := BlockDnsPacket_inject h buffer ii si env pkt a b hinj
  simp only [malformedPacket, not_or, not_lt, ne_eq, not_not, gt_iff_lt] at hm
  obtain ⟨m1, m2, m3, m4, m5, m6, m7, m8⟩ := hm
  have hn : h.sizeof_DNSHEADER ≤ buffer.data.length - IPHDR_HdrLength buffer.data * 4 - 8 := by
    omega
  have hlen : IPHDR_HdrLength buffer.data * 4 + 8 +
      (buffer.data.length - IPHDR_HdrLength buffer.data * 4 - 8) ≤ buffer.data.length := by omega
  have hmax : 28 + (buffer.data.length - IPHDR_HdrLength buffer.data * 4 - 8)
      ≤ h.MAX_PACKET_SIZE := by omega
  have h16 : 28 + (buffer.data.length - IPHDR_HdrLength buffer.data * 4 - 8) < 65536 := by omega
  refine ⟨buffer.data.length - IPHDR_HdrLength buffer.data * 4 - 8,
    dnsReplyFields h buffer.data (IPHDR_HdrLength buffer.data * 4)
      (buffer.data.length - IPHDR_HdrLength buffer.data * 4 - 8)
      (28 + (buffer.data.length - IPHDR_HdrLength buffer.data * 4 - 8)),
    m5, by omega, hn, h16, ?_, m8, ?_, ?_⟩
  · rw [hpkt, length_readBytes, length_buildDnsReply]; omega
  · intro i hi
    rw [readByte_dnsReplyFields h buffer.data _ _ hb hdns hn hlen hmax h16 i (by omega),
      if_pos (by omega)]
  · intro i hi
    rw [hpkt, readByte_readBytes, if_pos hi, Nat.zero_add,
      readByte_buildDnsReply h buffer.data _ _ hb hdns hn hlen hmax h16 i hi]

theorem getElem?_eq_readByte (l : List Nat) (i : Nat) (hi : i < l.length) :
    l[i]? = some (readByte l i) := by
  simp [readByte, List.getD_eq_getElem?_getD, List.getElem?_eq_getElem hi]

theorem readByte_drop (l : List Nat) (k i : Nat) : readByte (l.drop k) i = readByte l (k + i) := by
  simp [readByte, List.getD_eq_getElem?_getD, List.getElem?_drop]

/-- C3: the UDP payload of the reply has the length of the payload of the query
and is byte-identical to it except at the DNS flags, bytes 2 and 3, which hold
0x80 0x02 (0x8002 in network order); the transaction id is that of the query. -/
theorem C3_reply_payload (h : CalloutH) (buffer : NET_BUFFER) (ii si : Nat) (env : PacketEnv)
    (pkt : List Nat) (a b : Nat) (hdns : 4 ≤ h.sizeof_DNSHEADER)
    (hb : ∀ x ∈ buffer.data, x < 256)
    (hinj : Event.inject pkt a b ∈ (BlockDnsPacket h buffer ii si env).2) :
    (udpPayload pkt).length = (udpPayload buffer.data).length ∧
    h.sizeof_DNSHEADER ≤ (udpPayload buffer.data).length ∧
    (∀ i, i < (udpPayload buffer.data).length → i ≠ 2 → i ≠ 3 →
      (udpPayload pkt)[i]? = (udpPayload buffer.data)[i]?) ∧
    (udpPayload pkt)[2]? = some 0x80 ∧ (udpPayload pkt)[3]? = some 0x02 ∧
    DNSHEADER_flags (udpPayload pkt) 0 = htons 0x8002 ∧
    DNSHEADER_transaction_id (udpPayload pkt) 0 =
      DNSHEADER_transaction_id (udpPayload buffer.data) 0 := by
  obtain ⟨n, F, g1, g2, g3, g4, g5, g6, gF, g7⟩ :=
    injected_reply_bytes h buffer ii si env pkt a b hdns hb hinj
  have p0 : readByte pkt 0 = 0x45 := by rw [g7 0 (by omega), if_pos (by omega)]; rfl
  have hu : udpPayload pkt = pkt.drop 28 := by
    simp only [udpPayload, IPHDR_HdrLength, p0]
  have hlp : (udpPayload pkt).length = n := by rw [hu, List.length_drop]; omega
  have hlq : (udpPayload buffer.data).length = n := by
    simp only [udpPayload, List.length_drop]; omega
  have hbyte : ∀ i, i < n → i ≠ 2 → i ≠ 3 →
      readByte (udpPayload pkt) i = readByte (udpPayload buffer.data) i := by
    intro i hi h2 h3
    rw [hu, readByte_drop, g7 (28 + i) (by omega), if_neg (by omega), if_neg (by omega),
      if_neg (by omega)]
    simp only [udpPayload, readByte_drop]
    congr 1; omega
  have hf2 : readByte (udpPayload pkt) 2 = 0x80 := by
    rw [hu, readByte_drop, g7 30 (by omega), if_neg (by omega), if_pos rfl]
  have hf3 : readByte (udpPayload pkt) 3 = 0x02 := by
    rw [hu, readByte_drop, g7 31 (by omega), if_neg (by omega), if_neg (by omega), if_pos rfl]
  refine ⟨by rw [hlp, hlq], by omega, ?_, ?_, ?_, ?_, ?_⟩
  · intro i hi h2 h3
    rw [hlq] at hi
    rw [getElem?_eq_readByte _ _ (by omega), getElem?_eq_readByte _ _ (by omega),
      hbyte i hi h2 h3]
  · rw [getElem?_eq_readByte _ _ (by omega), hf2]
  · rw [getElem?_eq_readByte _ _ (by omega), hf3]
  · simp only [DNSHEADER_flags, readU16, hf2, hf3]; decide
  · simp only [DNSHEADER_transaction_id, readU16]
    rw [hbyte 0 (by omega) (by omega) (by omega), hbyte (0 + 1) (by omega) (by omega) (by omega)]


theorem ntohs_bytes (x y : Nat) (hx : x < 256) (hy : y < 256) : ntohs (x + 256 * y) = 256 * x + y := by
  simp only [ntohs, RtlUshortByteSwap]; omega

/-- C4: the reply carries the addresses and the ports of the query exchanged,
total length 28 + len(P) and UDP length 8 + len(P) in network order without
truncation, under a 20-byte IPv4 header without options (version 4, IHL 5,
protocol UDP, TTL 64, id 0), whatever the header length of the query. -/
theorem C4_reply_headers (h : CalloutH) (buffer : NET_BUFFER) (ii si : Nat) (env : PacketEnv)
    (pkt : List Nat) (a b : Nat) (hdns : 4 ≤ h.sizeof_DNSHEADER)
    (hb : ∀ x ∈ buffer.data, x < 256)
    (hinj : Event.inject pkt a b ∈ (BlockDnsPacket h buffer ii si env).2) :
    IPHDR_SrcAddr pkt = IPHDR_DstAddr buffer.data ∧
    IPHDR_DstAddr pkt = IPHDR_SrcAddr buffer.data ∧
    UDPHDR_SrcPort pkt 20 = UDPHDR_DstPort buffer.data (IPHDR_HdrLength buffer.data * 4) ∧
    ntohs (UDPHDR_SrcPort pkt 20) = 53 ∧
    UDPHDR_DstPort pkt 20 = UDPHDR_SrcPort buffer.data (IPHDR_HdrLength buffer.data * 4) ∧
    ntohs (IPHDR_Length pkt) = 28 + (udpPayload buffer.data).length ∧
    ntohs (UDPHDR_Length pkt 20) = 8 + (udpPayload buffer.data).length ∧
    pkt.length = 20 + 8 + (udpPayload buffer.data).length ∧
    IPHDR_Version pkt = 4 ∧ IPHDR_HdrLength pkt = 5 ∧ IPHDR_Protocol pkt = IPPROTO_UDP ∧
    IPHDR_TTL pkt = 64 ∧ IPHDR_Id pkt = 0 := by
  obtain ⟨n, F, g1, g2, g3, g4, g5, g6, gF, g7⟩ :=
    injected_reply_bytes h buffer ii si env pkt a b hdns hb hinj
  have hlq : (udpPayload buffer.data).length = n := by
    simp only [udpPayload, List.length_drop]; omega
  have hd : ∀ i, i < 28 → readByte pkt i =
      readByte (replyHeader buffer.data (IPHDR_HdrLength buffer.data * 4) n
        (CalcChecksum F 20)) i := by
    intro i hi
    rw [g7 i (by omega), if_pos hi]
  have q1 : (28 + n) / 256 < 256 := by omega
  have q2 : (28 + n) % 256 < 256 := by omega
  have q3 : (n + 8) / 256 < 256 := by omega
  have q4 : (n + 8) % 256 < 256 := by omega
  simp only [UDPHDR_DstPort, readU16] at g6
  refine ⟨?_, ?_, ?_, ?_, ?_, ?_, ?_, ?_, ?_, ?_, ?_, ?_, ?_⟩
  all_goals try simp only [IPHDR_SrcAddr, IPHDR_DstAddr, UDPHDR_SrcPort, UDPHDR_DstPort,
    IPHDR_Length, UDPHDR_Length, IPHDR_Version, IPHDR_HdrLength, IPHDR_Protocol, IPHDR_TTL,
    IPHDR_Id, readU32, readU16, Nat.reduceAdd, hlq, IPPROTO_UDP,
    hd 0 (by norm_num), hd 1 (by norm_num), hd 2 (by norm_num), hd 3 (by norm_num),
    hd 4 (by norm_num), hd 5 (by norm_num), hd 8 (by norm_num), hd 9 (by norm_num),
    hd 12 (by norm_num), hd 13 (by norm_num), hd 14 (by norm_num), hd 15 (by norm_num),
    hd 16 (by norm_num), hd 17 (by norm_num), hd 18 (by norm_num), hd 19 (by norm_num),
    hd 20 (by norm_num), hd 21 (by norm_num), hd 22 (by norm_num), hd 23 (by norm_num),
    hd 24 (by norm_num), hd 25 (by norm_num)]
  · rfl
  · rfl
  · rfl
  · exact g6
  · rfl
  · show ntohs ((28 + n) / 256 + 256 * ((28 + n) % 256)) = 28 + n
    rw [ntohs_bytes _ _ q1 q2]; omega
  · show ntohs ((n + 8) / 256 + 256 * ((n + 8) % 256)) = 8 + n
    rw [ntohs_bytes _ _ q3 q4]; omega
  · omega
  · simp [replyHeader, readByte]
  · simp [replyHeader, readByte]
  · rfl
  · rfl
  · rfl

/-- C5: the IPv4 header of the reply verifies: `CalcChecksum` over the finished
header returns 0, and the one's-complement sum of its ten 16-bit words, checksum
field included, is 0xFFFF. -/
theorem C5_reply_checksum_valid (h : CalloutH) (buffer : NET_BUFFER) (ii si : Nat)
    (env : PacketEnv) (pkt : List Nat) (a b : Nat) (hdns : 4 ≤ h.sizeof_DNSHEADER)
    (hb : ∀ x ∈ buffer.data, x < 256)
    (hinj : Event.inject pkt a b ∈ (BlockDnsPacket h buffer ii si env).2) :
    CalcChecksum pkt (IPHDR_HdrLength pkt * sizeof_UINT32) = 0 ∧
    onesComplementSum pkt 10 = 0xFFFF := by
  obtain ⟨n, F, g1, g2, g3, g4, g5, g6, gF, g7⟩ :=
    injected_reply_bytes h buffer ii si env pkt a b hdns hb hinj
  have p0 : readByte pkt 0 = 0x45 := by rw [g7 0 (by omega), if_pos (by omega)]; rfl
  have hl : IPHDR_HdrLength pkt * sizeof_UINT32 = 20 := by
    simp only [IPHDR_HdrLength, p0, sizeof_UINT32]
  rw [hl]
  exact checksum_of_replyHeader buffer.data (IPHDR_HdrLength buffer.data * 4) n hb g4 F pkt gF
    (fun i hi => by rw [g7 i (by omega), if_pos (by omega)])


/-- A malformed buffer is refused before a reply buffer is allocated. -/
theorem BlockDnsPacket_malformed (h : CalloutH) (buffer : NET_BUFFER) (ii si : Nat)
    (env : PacketEnv) (hmal : malformedPacket h buffer.data) :
    (BlockDnsPacket h buffer ii si env).1 = false ∧
    ∀ ev ∈ (BlockDnsPacket h buffer ii si env).2,
      ev = .acquire .scratchBuffer ∨ ev = .release .scratchBuffer := by
  unfold BlockDnsPacket
  simp only [sizeof_IPHDR, sizeof_UDPHDR, sizeof_UINT32, IPPROTO_UDP]
  by_cases h1 : buffer.data.length < 20 ∨ buffer.data.length > h.MAX_PACKET_SIZE
  · simp [h1]
  rw [if_neg h1]
  by_cases h2 : (!env.scratchAllocated) = true
  · simp [h2]
  rw [if_neg h2]
  cases hnd : env.ndisGetDataBuffer with
  | null => simp [NdisGetDataBuffer]
  | inPlace =>
    simp only [NdisGetDataBuffer, IPHDR_Version_replicate]
    simp
  | copied =>
    simp only [NdisGetDataBuffer, readBytes_whole buffer.data _ rfl]
    by_cases h3 : IPHDR_Version buffer.data ≠ 4 ∨
        ntohs (IPHDR_Length buffer.data) ≠ buffer.data.length ∨
        IPHDR_HdrLength buffer.data * 4 < 20 ∨
        IPHDR_Protocol buffer.data ≠ 17 ∨
        buffer.data.length < IPHDR_HdrLength buffer.data * 4 + 8 + h.sizeof_DNSHEADER
    · rw [if_pos h3]; simp
    rw [if_neg h3]
    have h4 : ntohs (UDPHDR_DstPort buffer.data (IPHDR_HdrLength buffer.data * 4)) ≠ 53 := by
      simp only [malformedPacket] at hmal
      rcases hmal with m | m | m | m | m | m | m | m
      · exact absurd (Or.inl m) h1
      · exact absurd (Or.inr m) h1
      · exact absurd (Or.inl m) h3
      · exact absurd (Or.inr (Or.inl m)) h3
      · exact absurd (Or.inr (Or.inr (Or.inl m))) h3
      · exact absurd (Or.inr (Or.inr (Or.inr (Or.inl m)))) h3
      · exact absurd (Or.inr (Or.inr (Or.inr (Or.inr m)))) h3
      · exact m
    rw [if_pos h4]; simp

theorem blockDnsLoop_malformed (h : CalloutH) (ii si : Nat) (env : Nat → PacketEnv) :
    ∀ (buffers : List NET_BUFFER) (i : Nat) (blocked : Bool) (events : List Event),
      (∀ b ∈ buffers, malformedPacket h b.data) → blocked = false →
      (∀ ev ∈ events, ev = .acquire .scratchBuffer ∨ ev = .release .scratchBuffer) →
      (blockDnsLoop h ii si env buffers i blocked events).1 = false ∧
      ∀ ev ∈ (blockDnsLoop h ii si env buffers i blocked events).2,
        ev = .acquire .scratchBuffer ∨ ev = .release .scratchBuffer := by
  intro buffers
  induction buffers with
  | nil => intro i blocked events _ hb he; exact ⟨hb, he⟩
  | cons b rest ih =>
    intro i blocked events hm _ he
    obtain ⟨r1, r2⟩ := BlockDnsPacket_malformed h b ii si (env i) (hm b (List.mem_cons_self _ _))
    simp only [blockDnsLoop]
    apply ih
    · intro b' hb'; exact hm b' (List.mem_cons_of_mem _ hb')
    · exact r1
    · intro ev hev
      rcases List.mem_append.mp hev with h1 | h1
      · exact he ev h1
      · exact r2 ev h1

/-- C6 (amended): a malformed buffer makes `BlockDnsPacket` return false with no
reply built or injected (its only events concern the scratch buffer), and a
classification that has the write right and whose chain consists only of such
buffers ends with action PERMIT, flags and rights as on entry. -/
theorem C6_malformed_buffers_permit (h : CalloutH) (inFixedValues : FWPS_INCOMING_VALUES)
    (buffers : List NET_BUFFER) (next : List (List NET_BUFFER)) (result : FWPS_CLASSIFY_OUT)
    (env : Nat → PacketEnv)
    (hmal : ∀ b ∈ buffers, malformedPacket h b.data)
    (hwrite : result.rights &&& FWPS_RIGHT_ACTION_WRITE ≠ 0) :
    (∀ b ∈ buffers, ∀ (ii si : Nat) (e : PacketEnv),
      (BlockDnsPacket h b ii si e).1 = false ∧
      ∀ ev ∈ (BlockDnsPacket h b ii si e).2,
        ev = .acquire .scratchBuffer ∨ ev = .release .scratchBuffer) ∧
    (BlockDnsBySendingServerFailPacket h inFixedValues (buffers :: next) result env).1
      = { result with actionType := FWP_ACTION_PERMIT } ∧
    ∀ ev ∈ (BlockDnsBySendingServerFailPacket h inFixedValues (buffers :: next) result env).2,
      ev = .acquire .scratchBuffer ∨ ev = .release .scratchBuffer := by
  refine ⟨fun b hb ii si e => BlockDnsPacket_malformed h b ii si e (hmal b hb), ?_⟩
  simp only [BlockDnsBySendingServerFailPacket, if_neg hwrite]
  by_cases hn : next ≠ []
  · rw [if_pos hn]; simp
  · rw [if_neg hn]
    obtain ⟨l1, l2⟩ := blockDnsLoop_malformed h
      (inFixedValues.incomingValue FWPS_FIELD_OUTBOUND_IPPACKET_V4_INTERFACE_INDEX).uint32
      (inFixedValues.incomingValue FWPS_FIELD_OUTBOUND_IPPACKET_V4_SUB_INTERFACE_INDEX).uint32
      env buffers 0 false [] hmal rfl (by simp)
    simp only [l1, Bool.false_eq_true, if_false]
    exact ⟨trivial, l2⟩


/-- Witness for C3: `sampleQuery`, whose reply is `sampleReply`. -/
theorem C3_reply_payload_witness :
    4 ≤ sampleCalloutH.sizeof_DNSHEADER ∧ (∀ x ∈ sampleQuery.data, x < 256) ∧
    Event.inject sampleReply 3 4 ∈ (BlockDnsPacket sampleCalloutH sampleQuery 3 4 kernelOk).2 ∧
    ((udpPayload sampleReply).length = (udpPayload sampleQuery.data).length ∧
     sampleCalloutH.sizeof_DNSHEADER ≤ (udpPayload sampleQuery.data).length ∧
     (∀ i, i < (udpPayload sampleQuery.data).length → i ≠ 2 → i ≠ 3 →
       (udpPayload sampleReply)[i]? = (udpPayload sampleQuery.data)[i]?) ∧
     (udpPayload sampleReply)[2]? = some 0x80 ∧ (udpPayload sampleReply)[3]? = some 0x02 ∧
     DNSHEADER_flags (udpPayload sampleReply) 0 = htons 0x8002 ∧
     DNSHEADER_transaction_id (udpPayload sampleReply) 0 =
       DNSHEADER_transaction_id (udpPayload sampleQuery.data) 0) :=
  ⟨by decide, by decide, by decide,
    C3_reply_payload sampleCalloutH sampleQuery 3 4 kernelOk sampleReply 3 4
      (by decide) (by decide) (by decide)⟩

/-- Witness for C4: `sampleQuery`, whose reply is `sampleReply`. -/
theorem C4_reply_headers_witness :
    4 ≤ sampleCalloutH.sizeof_DNSHEADER ∧ (∀ x ∈ sampleQuery.data, x < 256) ∧
    Event.inject sampleReply 3 4 ∈ (BlockDnsPacket sampleCalloutH sampleQuery 3 4 kernelOk).2 ∧
    (IPHDR_SrcAddr sampleReply = IPHDR_DstAddr sampleQuery.data ∧
     IPHDR_DstAddr sampleReply = IPHDR_SrcAddr sampleQuery.data ∧
     UDPHDR_SrcPort sampleReply 20 =
       UDPHDR_DstPort sampleQuery.data (IPHDR_HdrLength sampleQuery.data * 4) ∧
     ntohs (UDPHDR_SrcPort sampleReply 20) = 53 ∧
     UDPHDR_DstPort sampleReply 20 =
       UDPHDR_SrcPort sampleQuery.data (IPHDR_HdrLength sampleQuery.data * 4) ∧
     ntohs (IPHDR_Length sampleReply) = 28 + (udpPayload sampleQuery.data).length ∧
     ntohs (UDPHDR_Length sampleReply 20) = 8 + (udpPayload sampleQuery.data).length ∧
     sampleReply.length = 20 + 8 + (udpPayload sampleQuery.data).length ∧
     IPHDR_Version sampleReply = 4 ∧ IPHDR_HdrLength sampleReply = 5 ∧
     IPHDR_Protocol sampleReply = IPPROTO_UDP ∧
     IPHDR_TTL sampleReply = 64 ∧ IPHDR_Id sampleReply = 0) :=
  ⟨by decide, by decide, by decide,
    C4_reply_headers sampleCalloutH sampleQuery 3 4 kernelOk sampleReply 3 4
      (by decide) (by decide) (by decide)⟩

/-- Witness for C5: `sampleQuery`, whose reply is `sampleReply`. -/
theorem C5_reply_checksum_valid_witness :
    4 ≤ sampleCalloutH.sizeof_DNSHEADER ∧ (∀ x ∈ sampleQuery.data, x < 256) ∧
    Event.inject sampleReply 3 4 ∈ (BlockDnsPacket sampleCalloutH sampleQuery 3 4 kernelOk).2 ∧
    (CalcChecksum sampleReply (IPHDR_HdrLength sampleReply * sizeof_UINT32) = 0 ∧
     onesComplementSum sampleReply 10 = 0xFFFF) :=
  ⟨by decide, by decide, by decide,
    C5_reply_checksum_valid sampleCalloutH sampleQuery 3 4 kernelOk sampleReply 3 4
      (by decide) (by decide) (by decide)⟩

/-- Witness for C6 (amended): a chain of the single ten-byte `shortPacket`. -/
theorem C6_malformed_buffers_permit_witness :
    (∀ b ∈ [shortPacket], malformedPacket sampleCalloutH b.data) ∧
    (⟨FWP_ACTION_BLOCK, 1, 0⟩ : FWPS_CLASSIFY_OUT).rights &&& FWPS_RIGHT_ACTION_WRITE ≠ 0 ∧
    ((∀ b ∈ [shortPacket], ∀ (ii si : Nat) (e : PacketEnv),
      (BlockDnsPacket sampleCalloutH b ii si e).1 = false ∧
      ∀ ev ∈ (BlockDnsPacket sampleCalloutH b ii si e).2,
        ev = .acquire .scratchBuffer ∨ ev = .release .scratchBuffer) ∧
     (BlockDnsBySendingServerFailPacket sampleCalloutH (outboundValues 3 4) ([shortPacket] :: [])
        ⟨FWP_ACTION_BLOCK, 1, 0⟩ (fun _ => kernelOk)).1
       = { (⟨FWP_ACTION_BLOCK, 1, 0⟩ : FWPS_CLASSIFY_OUT) with actionType := FWP_ACTION_PERMIT } ∧
     ∀ ev ∈ (BlockDnsBySendingServerFailPacket sampleCalloutH (outboundValues 3 4)
        ([shortPacket] :: []) ⟨FWP_ACTION_BLOCK, 1, 0⟩ (fun _ => kernelOk)).2,
       ev = .acquire .scratchBuffer ∨ ev = .release .scratchBuffer) :=
  ⟨by simp [shortPacket, malformedPacket], by decide,
    C6_malformed_buffers_permit sampleCalloutH (outboundValues 3 4) [shortPacket] []
      ⟨FWP_ACTION_BLOCK, 1, 0⟩ (fun _ => kernelOk) (by simp [shortPacket, malformedPacket])
      (by decide)⟩

/-- Counterexample to C6 as stated: a classification whose chain is the single
malformed `shortPacket`, entered without the write right and with action BLOCK
in the output, returns at the guard of line 555 and still holds BLOCK. -/
theorem C6_no_write_right_keeps_action :
    malformedPacket sampleCalloutH shortPacket.data ∧
    (BlockDnsBySendingServerFailPacket sampleCalloutH (outboundValues 3 4) [[shortPacket]]
      ⟨FWP_ACTION_BLOCK, 0, 0⟩ (fun _ => kernelOk)).1.actionType = FWP_ACTION_BLOCK ∧
    (BlockDnsBySendingServerFailPacket sampleCalloutH (outboundValues 3 4) [[shortPacket]]
      ⟨FWP_ACTION_BLOCK, 0, 0⟩ (fun _ => kernelOk)).1.actionType ≠ FWP_ACTION_PERMIT :=
  ⟨by simp [shortPacket, malformedPacket], by decide, by decide⟩

/-- C2, evaluated on the chain `[sampleQuery, shortPacket]` with the write right
and a single buffer list: `BlockDnsPacket` blocks the first buffer and injects
`sampleReply` for it, the second buffer is refused, and the classification
returns PERMIT with flags and rights unchanged, because `blocked` holds only the
result of the last buffer. -/
theorem C2_blocked_buffer_before_last_is_permitted :
    (BlockDnsPacket sampleCalloutH sampleQuery 3 4 kernelOk).1 = true ∧
    (BlockDnsPacket sampleCalloutH shortPacket 3 4 kernelOk).1 = false ∧
    BlockDnsBySendingServerFailPacket sampleCalloutH (outboundValues 3 4)
        [[sampleQuery, shortPacket]] ⟨0, 1, 0⟩ (fun _ => kernelOk) =
      (⟨FWP_ACTION_PERMIT, 1, 0⟩,
       [.acquire .scratchBuffer, .acquire .replyBuffer, .acquire .mdl, .acquire .netBufferList,
        .inject sampleReply 3 4, .release .scratchBuffer]) ∧
    (BlockDnsBySendingServerFailPacket sampleCalloutH (outboundValues 3 4)
        [[shortPacket, sampleQuery]] ⟨0, 1, 0⟩ (fun _ => kernelOk)).1 =
      ⟨FWP_ACTION_BLOCK, 0, 1⟩ := by
  refine ⟨by decide, by decide, by decide, by decide⟩

/-- C7, evaluated on `sampleQuery` when every allocation succeeds and the
injection fails: `BlockDnsPacket` returns false having released the MDL, the
scratch buffer and the reply buffer once each, but the net-buffer-list it
allocated is never released. -/
theorem C7_failed_injection_leaks_net_buffer_list :
    (BlockDnsPacket sampleCalloutH sampleQuery 3 4 kernelInjectFails).1 = false ∧
    (BlockDnsPacket sampleCalloutH sampleQuery 3 4 kernelInjectFails).2 =
      [.acquire .scratchBuffer, .acquire .replyBuffer, .acquire .mdl, .acquire .netBufferList,
       .release .mdl, .release .scratchBuffer, .release .replyBuffer] ∧
    acquired .netBufferList (BlockDnsPacket sampleCalloutH sampleQuery 3 4 kernelInjectFails).2
      = 1 ∧
    released .netBufferList (BlockDnsPacket sampleCalloutH sampleQuery 3 4 kernelInjectFails).2
      = 0 := by
  refine ⟨by decide, by decide, by decide, by decide⟩


/-- The seven outcomes of a `BlockDnsPacket` attempt. -/
theorem BlockDnsPacket_outcomes (h : CalloutH) (buffer : NET_BUFFER) (ii si : Nat)
    (env : PacketEnv) :
    BlockDnsPacket h buffer ii si env = (false, []) ∨
    BlockDnsPacket h buffer ii si env =
      (false, [.acquire .scratchBuffer, .release .scratchBuffer]) ∨
    BlockDnsPacket h buffer ii si env =
      (false, [.acquire .scratchBuffer, .acquire .replyBuffer,
               .release .scratchBuffer, .release .replyBuffer]) ∨
    BlockDnsPacket h buffer ii si env =
      (false, [.acquire .scratchBuffer, .acquire .replyBuffer, .acquire .mdl,
               .release .mdl, .release .scratchBuffer, .release .replyBuffer]) ∨
    (env.netBufferListAllocated = true ∧ env.injected = false ∧
      BlockDnsPacket h buffer ii si env =
        (false, [.acquire .scratchBuffer, .acquire .replyBuffer, .acquire .mdl,
                 .acquire .netBufferList,
                 .release .mdl, .release .scratchBuffer, .release .replyBuffer])) ∨
    ∃ pkt, BlockDnsPacket h buffer ii si env =
      (true, [.acquire .scratchBuffer, .acquire .replyBuffer, .acquire .mdl,
              .acquire .netBufferList, .inject pkt ii si, .release .scratchBuffer]) := by
  unfold BlockDnsPacket
  simp only [sizeof_IPHDR, sizeof_UDPHDR, sizeof_UINT32, IPPROTO_UDP]
  by_cases h1 : buffer.data.length < 20 ∨ buffer.data.length > h.MAX_PACKET_SIZE
  · rw [if_pos h1]; exact Or.inl rfl
  rw [if_neg h1]
  by_cases h2 : (!env.scratchAllocated) = true
  · rw [if_pos h2]; exact Or.inl rfl
  rw [if_neg h2]
  cases NdisGetDataBuffer buffer buffer.data.length env.ndisGetDataBuffer with
  | none => exact Or.inr (Or.inl rfl)
  | some buffer_data =>
    simp only []
    by_cases h3 : IPHDR_Version buffer_data ≠ 4 ∨
        ntohs (IPHDR_Length buffer_data) ≠ buffer.data.length ∨
        IPHDR_HdrLength buffer_data * 4 < 20 ∨
        IPHDR_Protocol buffer_data ≠ 17 ∨
        buffer.data.length < IPHDR_HdrLength buffer_data * 4 + 8 + h.sizeof_DNSHEADER
    · rw [if_pos h3]; exact Or.inr (Or.inl rfl)
    rw [if_neg h3]
    by_cases h4 : ntohs (UDPHDR_DstPort buffer_data (IPHDR_HdrLength buffer_data * 4)) ≠ 53
    · rw [if_pos h4]; exact Or.inr (Or.inl rfl)
    rw [if_neg h4]
    by_cases h5 : (!env.replyAllocated) = true
    · rw [if_pos h5]; exact Or.inr (Or.inl rfl)
    rw [if_neg h5]
    by_cases h6 : (!env.mdlAllocated) = true
    · rw [if_pos h6]; exact Or.inr (Or.inr (Or.inl rfl))
    rw [if_neg h6]
    by_cases h7 : (!env.netBufferListAllocated) = true
    · rw [if_pos h7]; exact Or.inr (Or.inr (Or.inr (Or.inl rfl)))
    rw [if_neg h7]
    by_cases h8 : (!env.injected) = true
    · rw [if_pos h8]
      refine Or.inr (Or.inr (Or.inr (Or.inr (Or.inl ⟨?_, ?_, rfl⟩))))
      · simpa using h7
      · simpa using h8
    rw [if_neg h8]
    exact Or.inr (Or.inr (Or.inr (Or.inr (Or.inr ⟨_, rfl⟩))))

/-- Apart from a failed injection after a successful net-buffer-list allocation,
every attempt of `BlockDnsPacket` releases each resource exactly as often as it
acquires it, and at most once; the completion callback accounts for an injected
reply. -/
theorem BlockDnsPacket_resources (h : CalloutH) (buffer : NET_BUFFER) (ii si : Nat)
    (env : PacketEnv) (r : Resource)
    (hok : ¬ (env.netBufferListAllocated = true ∧ env.injected = false)) :
    acquired r (if (BlockDnsPacket h buffer ii si env).1
        then (BlockDnsPacket h buffer ii si env).2 ++ CompleteBasicPacketInjection
        else (BlockDnsPacket h buffer ii si env).2) =
      released r (if (BlockDnsPacket h buffer ii si env).1
        then (BlockDnsPacket h buffer ii si env).2 ++ CompleteBasicPacketInjection
        else (BlockDnsPacket h buffer ii si env).2) ∧
    acquired r (BlockDnsPacket h buffer ii si env).2 ≤ 1 := by
  rcases BlockDnsPacket_outcomes h buffer ii si env with e | e | e | e | ⟨e1, e2, _⟩ | ⟨pkt, e⟩
  · rw [e]; cases r <;> decide
  · rw [e]; cases r <;> decide
  · rw [e]; cases r <;> decide
  · rw [e]; cases r <;> decide
  · exact absurd ⟨e1, e2⟩ hok
  · rw [e]
    cases r <;> simp [acquired, released, CompleteBasicPacketInjection, List.count_cons]

/-! ## The gates of the redirect callouts -/

theorem RedirectUDPFlow_action (inFixedValues : Option FWPS_INCOMING_VALUES)
    (filter : Option FWPS_FILTER) (classifyOut : FWPS_CLASSIFY_OUT)
    (env : EngineEnv FWPS_BIND_REQUEST) :
    (RedirectUDPFlow inFixedValues filter classifyOut env).classifyOut
      = { classifyOut with actionType := FWP_ACTION_PERMIT } := by
  unfold RedirectUDPFlow
  split
  · simp only []
    split_ifs <;> rfl
  · rfl

theorem RedirectConnection_classifyOut (inFixedValues : Option FWPS_INCOMING_VALUES)
    (filter : Option FWPS_FILTER) (classifyOut : FWPS_CLASSIFY_OUT)
    (env : EngineEnv FWPS_CONNECT_REQUEST) :
    (RedirectConnection inFixedValues filter classifyOut env).classifyOut
      = { classifyOut with actionType := FWP_ACTION_PERMIT } := by
  unfold RedirectConnection
  split
  · simp only []
    split_ifs <;> rfl
  · rfl

/-- The four ways a call of `RedirectConnection` can end. -/
theorem RedirectConnection_outcomes (inFixedValues : Option FWPS_INCOMING_VALUES)
    (filter : Option FWPS_FILTER) (classifyOut : FWPS_CLASSIFY_OUT)
    (env : EngineEnv FWPS_CONNECT_REQUEST) :
    ((RedirectConnection inFixedValues filter classifyOut env).calls = [] ∧
      (RedirectConnection inFixedValues filter classifyOut env).layerData = env.layerData) ∨
    (env.acquireHandleSucceeds = false ∧
      (RedirectConnection inFixedValues filter classifyOut env).calls =
        EngineCall.FwpsAcquireClassifyHandle :: redirectFinally 0 false ∧
      (RedirectConnection inFixedValues filter classifyOut env).layerData = env.layerData) ∨
    (env.acquireHandleSucceeds = true ∧ env.acquireWritableSucceeds = false ∧
      (RedirectConnection inFixedValues filter classifyOut env).calls =
        [EngineCall.FwpsAcquireClassifyHandle,
         EngineCall.FwpsAcquireWritableLayerDataPointer env.classifyHandle] ++
        redirectFinally env.classifyHandle false ∧
      (RedirectConnection inFixedValues filter classifyOut env).layerData = env.layerData) ∨
    (env.acquireHandleSucceeds = true ∧ env.acquireWritableSucceeds = true ∧
      (RedirectConnection inFixedValues filter classifyOut env).calls =
        [EngineCall.FwpsAcquireClassifyHandle,
         EngineCall.FwpsAcquireWritableLayerDataPointer env.classifyHandle] ++
        redirectFinally env.classifyHandle true ∧
      ∃ filter', filter = some filter' ∧
        (RedirectConnection inFixedValues filter classifyOut env).layerData =
          { env.layerData with
            localAddressAndPort := (ApplyRedirectAddress env.layerData.localAddressAndPort
              (TryGetRedirectAddressFromContext filter'.providerContext {}).2).2 }) := by
  unfold RedirectConnection
  split
  · rename_i ifv flt
    simp only []
    split_ifs with h1 h2 h3 h4 h5 h6 h7 h8
    all_goals first
      | exact Or.inl ⟨rfl, rfl⟩
      | exact Or.inr (Or.inl ⟨by simpa using h7, rfl, rfl⟩)
      | exact Or.inr (Or.inr (Or.inl ⟨by simpa using h7, by simpa using h8, rfl, rfl⟩))
      | exact Or.inr (Or.inr (Or.inr ⟨by simpa using h7, by simpa using h8, rfl, flt, rfl, rfl⟩))
  · exact Or.inl ⟨rfl, rfl⟩


/-- The four ways a call of `RedirectUDPFlow` can end. -/
theorem RedirectUDPFlow_outcomes (inFixedValues : Option FWPS_INCOMING_VALUES)
    (filter : Option FWPS_FILTER) (classifyOut : FWPS_CLASSIFY_OUT)
    (env : EngineEnv FWPS_BIND_REQUEST) :
    ((RedirectUDPFlow inFixedValues filter classifyOut env).calls = [] ∧
      (RedirectUDPFlow inFixedValues filter classifyOut env).layerData = env.layerData) ∨
    (env.acquireHandleSucceeds = false ∧
      (RedirectUDPFlow inFixedValues filter classifyOut env).calls =
        EngineCall.FwpsAcquireClassifyHandle :: redirectFinally 0 false ∧
      (RedirectUDPFlow inFixedValues filter classifyOut env).layerData = env.layerData) ∨
    (env.acquireHandleSucceeds = true ∧ env.acquireWritableSucceeds = false ∧
      (RedirectUDPFlow inFixedValues filter classifyOut env).calls =
        [EngineCall.FwpsAcquireClassifyHandle,
         EngineCall.FwpsAcquireWritableLayerDataPointer env.classifyHandle] ++
        redirectFinally env.classifyHandle false ∧
      (RedirectUDPFlow inFixedValues filter classifyOut env).layerData = env.layerData) ∨
    (env.acquireHandleSucceeds = true ∧ env.acquireWritableSucceeds = true ∧
      (RedirectUDPFlow inFixedValues filter classifyOut env).calls =
        [EngineCall.FwpsAcquireClassifyHandle,
         EngineCall.FwpsAcquireWritableLayerDataPointer env.classifyHandle] ++
        redirectFinally env.classifyHandle true ∧
      ∃ filter', filter = some filter' ∧
        (RedirectUDPFlow inFixedValues filter classifyOut env).layerData =
          { env.layerData with
            localAddressAndPort := (ApplyRedirectAddress env.layerData.localAddressAndPort
              (TryGetRedirectAddressFromContext filter'.providerContext {}).2).2 }) := by
  unfold RedirectUDPFlow
  split
  · rename_i ifv flt
    simp only []
    split_ifs with h1 h2 h3 h4 h5 h6 h7 h8
    all_goals first
      | exact Or.inl ⟨rfl, rfl⟩
      | exact Or.inr (Or.inl ⟨by simpa using h7, rfl, rfl⟩)
      | exact Or.inr (Or.inr (Or.inl ⟨by simpa using h7, by simpa using h8, rfl, rfl⟩))
      | exact Or.inr (Or.inr (Or.inr ⟨by simpa using h7, by simpa using h8, rfl, flt, rfl, rfl⟩))
  · exact Or.inl ⟨rfl, rfl⟩

/-- C17: in every call of `RedirectConnection` and of `RedirectUDPFlow`, whatever
the two acquisitions answer, each acquired classify handle is released exactly
once and each acquired writable layer pointer is applied back exactly once, and
nothing else is released: the engine calls are one of the four sequences of
`releasedOnce`.  A successfully acquired classify handle is non-zero. -/
theorem C17_acquisitions_released_once (inFixedValues : Option FWPS_INCOMING_VALUES)
    (filter : Option FWPS_FILTER) (classifyOut : FWPS_CLASSIFY_OUT)
    (envC : EngineEnv FWPS_CONNECT_REQUEST) (envB : EngineEnv FWPS_BIND_REQUEST)
    (hC : envC.classifyHandle ≠ 0) (hB : envB.classifyHandle ≠ 0) :
    releasedOnce envC (RedirectConnection inFixedValues filter classifyOut envC).calls ∧
    releasedOnce envB (RedirectUDPFlow inFixedValues filter classifyOut envB).calls := by
  constructor
  · rcases RedirectConnection_outcomes inFixedValues filter classifyOut envC with
      ⟨c, _⟩ | ⟨a, c, _⟩ | ⟨a, b, c, _⟩ | ⟨a, b, c, _⟩
    · exact Or.inl c
    · exact Or.inr (Or.inl ⟨a, by rw [c]; simp [redirectFinally]⟩)
    · exact Or.inr (Or.inr (Or.inl ⟨a, b, by rw [c]; simp [redirectFinally, hC]⟩))
    · exact Or.inr (Or.inr (Or.inr ⟨a, b, by rw [c]; simp [redirectFinally, hC]⟩))
  · rcases RedirectUDPFlow_outcomes inFixedValues filter classifyOut envB with
      ⟨c, _⟩ | ⟨a, c, _⟩ | ⟨a, b, c, _⟩ | ⟨a, b, c, _⟩
    · exact Or.inl c
    · exact Or.inr (Or.inl ⟨a, by rw [c]; simp [redirectFinally]⟩)
    · exact Or.inr (Or.inr (Or.inl ⟨a, b, by rw [c]; simp [redirectFinally, hB]⟩))
    · exact Or.inr (Or.inr (Or.inr ⟨a, b, by rw [c]; simp [redirectFinally, hB]⟩))

/-- Witness for C17: a connect to 8.8.8.8 and a UDP bind, both redirected with
handle 5. -/
theorem C17_acquisitions_released_once_witness :
    sampleEngine.classifyHandle ≠ 0 ∧ sampleBindEngine.classifyHandle ≠ 0 ∧
    (releasedOnce sampleEngine (RedirectConnection (some (connectValuesV4 0 0x08080808))
        (some sampleFilterV4) ⟨0, 1, 0⟩ sampleEngine).calls ∧
     releasedOnce sampleBindEngine (RedirectUDPFlow (some (connectValuesV4 0 0x08080808))
        (some sampleFilterV4) ⟨0, 1, 0⟩ sampleBindEngine).calls) ∧
    (RedirectUDPFlow (some (bindValuesV4 0 17))
        (some sampleFilterV4) ⟨0, 1, 0⟩ sampleBindEngine).calls =
      [EngineCall.FwpsAcquireClassifyHandle, EngineCall.FwpsAcquireWritableLayerDataPointer 5,
       EngineCall.FwpsApplyModifiedLayerData 5, EngineCall.FwpsReleaseClassifyHandle 5] ∧
    (RedirectConnection (some (connectValuesV4 0 0x08080808))
        (some sampleFilterV4) ⟨0, 1, 0⟩ sampleEngine).calls =
      [EngineCall.FwpsAcquireClassifyHandle, EngineCall.FwpsAcquireWritableLayerDataPointer 5,
       EngineCall.FwpsApplyModifiedLayerData 5, EngineCall.FwpsReleaseClassifyHandle 5] :=
  ⟨by decide, by decide,
    C17_acquisitions_released_once (some (connectValuesV4 0 0x08080808)) (some sampleFilterV4)
      ⟨0, 1, 0⟩ sampleEngine sampleBindEngine (by decide) (by decide),
    by decide, by decide⟩

/-! ## The gates, one by one -/

/-- C14: when the flags word of the classification has the reauthorize bit set,
`RedirectConnection` and `RedirectUDPFlow` make no engine call, leave the
connect or bind request as it was and return with action PERMIT, whatever filter
(with or without a policy) is attached. -/
theorem C14_reauthorize_is_passed_through
    (connectValues bindValues : FWPS_INCOMING_VALUES) (filter : Option FWPS_FILTER)
    (classifyOut : FWPS_CLASSIFY_OUT)
    (envC : EngineEnv FWPS_CONNECT_REQUEST) (envB : EngineEnv FWPS_BIND_REQUEST)
    (hC : GetConnectRedirectFlags connectValues
      (decide (connectValues.layerId = FWPS_LAYER_ALE_CONNECT_REDIRECT_V4)) &&&
        FWP_CONDITION_FLAG_IS_REAUTHORIZE ≠ 0)
    (hB : GetBindRedirectFlags bindValues
      (decide (bindValues.layerId = FWPS_LAYER_ALE_BIND_REDIRECT_V4)) &&&
        FWP_CONDITION_FLAG_IS_REAUTHORIZE ≠ 0) :
    passedThrough (RedirectConnection (some connectValues) filter classifyOut envC) envC ∧
    passedThrough (RedirectUDPFlow (some bindValues) filter classifyOut envB) envB := by
  constructor
  · refine ⟨?_, ?_, RedirectConnection_action _ _ _ _⟩ <;>
    · cases filter with
      | none => rfl
      | some flt =>
        simp only [RedirectConnection]
        rw [if_pos hC]
        split_ifs <;> rfl
  · refine ⟨?_, ?_, by rw [RedirectUDPFlow_action]⟩ <;>
    · cases filter with
      | none => rfl
      | some flt =>
        simp only [RedirectUDPFlow]
        rw [if_pos hB]
        split_ifs <;> rfl

/-- Witness for C14: a reauthorized connect and a reauthorized UDP bind, each
with the IPv4 policy attached. -/
theorem C14_reauthorize_is_passed_through_witness :
    GetConnectRedirectFlags (connectValuesV4 4 0x08080808)
      (decide ((connectValuesV4 4 0x08080808).layerId = FWPS_LAYER_ALE_CONNECT_REDIRECT_V4)) &&&
        FWP_CONDITION_FLAG_IS_REAUTHORIZE ≠ 0 ∧
    GetBindRedirectFlags (bindValuesV4 4 17)
      (decide ((bindValuesV4 4 17).layerId = FWPS_LAYER_ALE_BIND_REDIRECT_V4)) &&&
        FWP_CONDITION_FLAG_IS_REAUTHORIZE ≠ 0 ∧
    passedThrough (RedirectConnection (some (connectValuesV4 4 0x08080808))
      (some sampleFilterV4) ⟨0, 1, 0⟩ sampleEngine) sampleEngine ∧
    passedThrough (RedirectUDPFlow (some (bindValuesV4 4 17))
      (some sampleFilterV4) ⟨0, 1, 0⟩ sampleBindEngine) sampleBindEngine :=
  ⟨by decide, by decide,
    C14_reauthorize_is_passed_through (connectValuesV4 4 0x08080808) (bindValuesV4 4 17)
      (some sampleFilterV4) ⟨0, 1, 0⟩ sampleEngine sampleBindEngine (by decide) (by decide)⟩

/-- C16: when the policy lookup yields none, or a policy of the other family
than the layer, `RedirectConnection` and `RedirectUDPFlow` make no engine call,
leave the request as it was and return with action PERMIT. -/
theorem C16_no_matching_policy_is_passed_through
    (connectValues bindValues : FWPS_INCOMING_VALUES) (filter : FWPS_FILTER)
    (classifyOut : FWPS_CLASSIFY_OUT)
    (envC : EngineEnv FWPS_CONNECT_REQUEST) (envB : EngineEnv FWPS_BIND_REQUEST)
    (hC : (TryGetRedirectAddressFromContext filter.providerContext {}).1 = false ∨
      (connectValues.layerId = FWPS_LAYER_ALE_CONNECT_REDIRECT_V4 ∧
        (TryGetRedirectAddressFromContext filter.providerContext {}).2.family ≠ AF_INET) ∨
      (connectValues.layerId = FWPS_LAYER_ALE_CONNECT_REDIRECT_V6 ∧
        (TryGetRedirectAddressFromContext filter.providerContext {}).2.family ≠ AF_INET6))
    (hB : (TryGetRedirectAddressFromContext filter.providerContext {}).1 = false ∨
      (bindValues.layerId = FWPS_LAYER_ALE_BIND_REDIRECT_V4 ∧
        (TryGetRedirectAddressFromContext filter.providerContext {}).2.family ≠ AF_INET) ∨
      (bindValues.layerId = FWPS_LAYER_ALE_BIND_REDIRECT_V6 ∧
        (TryGetRedirectAddressFromContext filter.providerContext {}).2.family ≠ AF_INET6)) :
    passedThrough (RedirectConnection (some connectValues) (some filter) classifyOut envC) envC ∧
    passedThrough (RedirectUDPFlow (some bindValues) (some filter) classifyOut envB) envB := by
  constructor
  · refine ⟨?_, ?_, RedirectConnection_action _ _ _ _⟩ <;>
    · cases hT : TryGetRedirectAddressFromContext filter.providerContext {} with
      | mk found ra =>
        rw [hT] at hC
        simp only [RedirectConnection, hT]
        rcases hC with h | ⟨hl, hf⟩ | ⟨hl, hf⟩
        · simp only at h
          subst h
          simp only [Bool.not_false, if_true]
          split_ifs <;> rfl
        · simp only at hf
          simp only [hl, hf, ne_eq, not_false_eq_true, decide_True, Bool.and_self,
            Bool.true_or, if_true]
          split_ifs <;> rfl
        · simp only at hf
          simp only [hl, hf, ne_eq, not_false_eq_true, decide_True, Bool.and_self,
            Bool.or_true, if_true]
          split_ifs <;> rfl
  · refine ⟨?_, ?_, by rw [RedirectUDPFlow_action]⟩ <;>
    · cases hT : TryGetRedirectAddressFromContext filter.providerContext {} with
      | mk found ra =>
        rw [hT] at hB
        simp only [RedirectUDPFlow, hT]
        rcases hB with h | ⟨hl, hf⟩ | ⟨hl, hf⟩
        · simp only at h
          subst h
          simp only [Bool.not_false, if_true]
          split_ifs <;> rfl
        · simp only at hf
          simp only [hl, hf, ne_eq, not_false_eq_true, decide_True, Bool.and_self,
            Bool.true_or, if_true]
          split_ifs <;> rfl
        · simp only at hf
          simp only [hl, hf, ne_eq, not_false_eq_true, decide_True, Bool.and_self,
            Bool.or_true, if_true]
          split_ifs <;> rfl

/-- Witness for C16: the IPv6 policy met on the IPv4 connect and bind layers. -/
theorem C16_no_matching_policy_is_passed_through_witness :
    (TryGetRedirectAddressFromContext sampleFilterV6.providerContext {}).1 = true ∧
    (TryGetRedirectAddressFromContext sampleFilterV6.providerContext {}).2.family ≠ AF_INET ∧
    passedThrough (RedirectConnection (some (connectValuesV4 0 0x08080808))
      (some sampleFilterV6) ⟨0, 1, 0⟩ sampleEngine) sampleEngine ∧
    passedThrough (RedirectUDPFlow (some (bindValuesV4 0 17))
      (some sampleFilterV6) ⟨0, 1, 0⟩ sampleBindEngine) sampleBindEngine :=
  ⟨by decide, by decide,
    C16_no_matching_policy_is_passed_through (connectValuesV4 0 0x08080808) (bindValuesV4 0 17)
      sampleFilterV6 ⟨0, 1, 0⟩ sampleEngine sampleBindEngine
      (Or.inr (Or.inl ⟨rfl, by decide⟩)) (Or.inr (Or.inl ⟨rfl, by decide⟩))⟩

/-! ## The bind redirector and the protocol gate -/

theorem RedirectUDPFlow_commit
    (inFixedValues : FWPS_INCOMING_VALUES) (filter : FWPS_FILTER)
    (classifyOut : FWPS_CLASSIFY_OUT) (env : EngineEnv FWPS_BIND_REQUEST)
    (blobSize : Nat) (policy : CONNECT_REDIRECT_DATA)
    (hrights : classifyOut.rights &&& FWPS_RIGHT_ACTION_WRITE ≠ 0)
    (hlayer :
      (inFixedValues.layerId = FWPS_LAYER_ALE_BIND_REDIRECT_V4 ∧
        policy.addressFamily = AF_INET) ∨
      (inFixedValues.layerId = FWPS_LAYER_ALE_BIND_REDIRECT_V6 ∧
        policy.addressFamily = AF_INET6))
    (hflags : GetBindRedirectFlags inFixedValues
      (decide (inFixedValues.layerId = FWPS_LAYER_ALE_BIND_REDIRECT_V4)) &&&
        FWP_CONDITION_FLAG_IS_REAUTHORIZE = 0)
    (hproto : GetBindRedirectProtocol inFixedValues
      (decide (inFixedValues.layerId = FWPS_LAYER_ALE_BIND_REDIRECT_V4)) ≠ TCP_PROTOCOL_ID)
    (hcontext : filter.providerContext =
      some ⟨FWPM_GENERAL_CONTEXT, some ⟨blobSize, some policy⟩⟩)
    (hpolicy : policy.address.length = 16)
    (hhandle : env.acquireHandleSucceeds = true)
    (hwritable : env.acquireWritableSucceeds = true) :
    (RedirectUDPFlow (some inFixedValues) (some filter) classifyOut env).layerData =
      { env.layerData with
        localAddressAndPort := (ApplyRedirectAddress env.layerData.localAddressAndPort
          (if policy.addressFamily = AF_INET then
            ⟨AF_INET, policy.v4 ++ List.replicate 12 0⟩ else ⟨AF_INET6, policy.v6⟩)).2 } := by
  have h64 : ¬ (AF_INET6 = AF_INET) := by decide
  rcases hlayer with ⟨hl, hf⟩ | ⟨hl, hf⟩
  · rw [hl] at hflags hproto
    simp only [decide_True] at hflags hproto
    simp only [RedirectUDPFlow, hrights, hl, hflags, hproto, hcontext,
      TryGetRedirectAddressFromContext_policy blobSize policy hpolicy, hf, hhandle, hwritable,
      if_true, if_false, decide_True, Bool.not_true, Bool.false_and, Bool.not_false,
      ne_eq, not_true_eq_false, not_false_eq_true, Bool.false_eq_true, decide_False,
      Bool.and_false, Bool.or_false, Bool.and_true, Bool.or_self, reduceCtorEq]
  · rw [hl] at hflags hproto
    simp only [decide_False, reduceCtorEq] at hflags hproto
    simp only [RedirectUDPFlow, hrights, hl, hflags, hproto, hcontext,
      TryGetRedirectAddressFromContext_policy blobSize policy hpolicy, hf, hhandle, hwritable,
      if_true, if_false, decide_True, Bool.not_true, Bool.false_and, Bool.not_false,
      ne_eq, not_true_eq_false, not_false_eq_true, Bool.false_eq_true, decide_False,
      Bool.and_false, Bool.or_false, Bool.and_true, Bool.or_self, Bool.true_and,
      Bool.false_or, h64, reduceCtorEq]

/-- C15: a bind classification whose IP protocol field (of the layer it is on)
is 6 is passed through by `RedirectUDPFlow`, with any filter and any engine: no
engine call, the bind request as it was, action PERMIT.  A bind classification
with another protocol value, the write right, the reauthorize flag clear, a
policy of the family of the layer and both acquisitions successful has the local
address of the bind request overwritten with the policy's address and family. -/
theorem C15_bind_redirect_skips_tcp
    (tcpValues : FWPS_INCOMING_VALUES) (tcpFilter : Option FWPS_FILTER)
    (tcpOut : FWPS_CLASSIFY_OUT) (tcpEnv : EngineEnv FWPS_BIND_REQUEST)
    (inFixedValues : FWPS_INCOMING_VALUES) (filter : FWPS_FILTER)
    (classifyOut : FWPS_CLASSIFY_OUT) (env : EngineEnv FWPS_BIND_REQUEST)
    (blobSize : Nat) (policy : CONNECT_REDIRECT_DATA)
    (htcp : GetBindRedirectProtocol tcpValues
      (decide (tcpValues.layerId = FWPS_LAYER_ALE_BIND_REDIRECT_V4)) = TCP_PROTOCOL_ID)
    (hrights : classifyOut.rights &&& FWPS_RIGHT_ACTION_WRITE ≠ 0)
    (hlayer :
      (inFixedValues.layerId = FWPS_LAYER_ALE_BIND_REDIRECT_V4 ∧
        policy.addressFamily = AF_INET) ∨
      (inFixedValues.layerId = FWPS_LAYER_ALE_BIND_REDIRECT_V6 ∧
        policy.addressFamily = AF_INET6))
    (hflags : GetBindRedirectFlags inFixedValues
      (decide (inFixedValues.layerId = FWPS_LAYER_ALE_BIND_REDIRECT_V4)) &&&
        FWP_CONDITION_FLAG_IS_REAUTHORIZE = 0)
    (hproto : GetBindRedirectProtocol inFixedValues
      (decide (inFixedValues.layerId = FWPS_LAYER_ALE_BIND_REDIRECT_V4)) ≠ TCP_PROTOCOL_ID)
    (hcontext : filter.providerContext =
      some ⟨FWPM_GENERAL_CONTEXT, some ⟨blobSize, some policy⟩⟩)
    (hpolicy : policy.address.length = 16)
    (hhandle : env.acquireHandleSucceeds = true)
    (hwritable : env.acquireWritableSucceeds = true)
    (hsock : env.layerData.localAddressAndPort.length = sizeof_SOCKADDR_STORAGE) :
    passedThrough (RedirectUDPFlow (some tcpValues) tcpFilter tcpOut tcpEnv) tcpEnv ∧
    ss_family (RedirectUDPFlow (some inFixedValues) (some filter) classifyOut
      env).layerData.localAddressAndPort = policy.addressFamily ∧
    (policy.addressFamily = AF_INET →
      sin_addr (RedirectUDPFlow (some inFixedValues) (some filter) classifyOut
        env).layerData.localAddressAndPort = policy.v4) ∧
    (policy.addressFamily = AF_INET6 →
      sin6_addr (RedirectUDPFlow (some inFixedValues) (some filter) classifyOut
        env).layerData.localAddressAndPort = policy.v6) := by
  constructor
  · refine ⟨?_, ?_, by rw [RedirectUDPFlow_action]⟩ <;>
    · cases tcpFilter with
      | none => rfl
      | some flt =>
        simp only [RedirectUDPFlow]
        rw [if_pos htcp]
        split_ifs <;> rfl
  rw [RedirectUDPFlow_commit inFixedValues filter classifyOut env blobSize policy hrights
    hlayer hflags hproto hcontext hpolicy hhandle hwritable]
  have hv4len : (policy.v4 ++ List.replicate 12 0).length = 16 := by
    simp [CONNECT_REDIRECT_DATA.v4, length_readBytes, hpolicy]
  have hv6len : policy.v6.length = 16 := by
    simp [CONNECT_REDIRECT_DATA.v6, length_readBytes, hpolicy]
  have hv4 : readBytes (policy.v4 ++ List.replicate 12 0) 0 4 = policy.v4 := by
    simp [readBytes, CONNECT_REDIRECT_DATA.v4, hpolicy]
  have hv6 : readBytes policy.v6 0 16 = policy.v6 := readBytes_whole _ _ hv6len
  have h64 : ¬ (AF_INET6 = AF_INET) := by decide
  have hf : policy.addressFamily = AF_INET ∨ policy.addressFamily = AF_INET6 := by
    rcases hlayer with ⟨_, hf⟩ | ⟨_, hf⟩
    · exact Or.inl hf
    · exact Or.inr hf
  rcases hf with hf | hf
  · obtain ⟨a1, a2⟩ := ApplyRedirectAddress_v4 env.layerData.localAddressAndPort
      (policy.v4 ++ List.replicate 12 0) hsock hv4len
    simp only [hf, if_true, a1, a2, hv4, true_implies, true_and, and_true]
    intro h; exact absurd h.symm h64
  · obtain ⟨a1, a2⟩ := ApplyRedirectAddress_v6 env.layerData.localAddressAndPort
      policy.v6 hsock hv6len
    simp only [hf, h64, if_false, a1, a2, hv6, true_implies, true_and, and_true]
    intro h; exact h.elim

/-- Witness for C15: a TCP bind and a UDP bind on the IPv4 layer, each with the
policy 10.2.0.1 attached. -/
theorem C15_bind_redirect_skips_tcp_witness :
    GetBindRedirectProtocol (bindValuesV4 0 6)
      (decide ((bindValuesV4 0 6).layerId = FWPS_LAYER_ALE_BIND_REDIRECT_V4)) = TCP_PROTOCOL_ID ∧
    GetBindRedirectProtocol (bindValuesV4 0 17)
      (decide ((bindValuesV4 0 17).layerId = FWPS_LAYER_ALE_BIND_REDIRECT_V4)) ≠
        TCP_PROTOCOL_ID ∧
    (passedThrough (RedirectUDPFlow (some (bindValuesV4 0 6)) (some sampleFilterV4) ⟨0, 1, 0⟩
      sampleBindEngine) sampleBindEngine ∧
    ss_family (RedirectUDPFlow (some (bindValuesV4 0 17)) (some sampleFilterV4) ⟨0, 1, 0⟩
      sampleBindEngine).layerData.localAddressAndPort = samplePolicyV4.addressFamily ∧
    (samplePolicyV4.addressFamily = AF_INET →
      sin_addr (RedirectUDPFlow (some (bindValuesV4 0 17)) (some sampleFilterV4) ⟨0, 1, 0⟩
        sampleBindEngine).layerData.localAddressAndPort = samplePolicyV4.v4) ∧
    (samplePolicyV4.addressFamily = AF_INET6 →
      sin6_addr (RedirectUDPFlow (some (bindValuesV4 0 17)) (some sampleFilterV4) ⟨0, 1, 0⟩
        sampleBindEngine).layerData.localAddressAndPort = samplePolicyV4.v6)) :=
  ⟨by decide, by decide,
    C15_bind_redirect_skips_tcp (bindValuesV4 0 6) (some sampleFilterV4) ⟨0, 1, 0⟩
      sampleBindEngine (bindValuesV4 0 17) sampleFilterV4 ⟨0, 1, 0⟩ sampleBindEngine 20
      samplePolicyV4 (by decide) (by decide) (Or.inl ⟨rfl, rfl⟩) (by decide) (by decide) rfl
      (by decide) rfl rfl (by decide)⟩

/-! ## The policy lookup -/

/-- C12: `TryGetRedirectAddressFromContext` returns true exactly when the context
is present, of type `FWPM_GENERAL_CONTEXT`, with a data buffer and data in it,
and the data's `addressFamily` is `AF_INET` or `AF_INET6`; then the output
family is the policy's and the output address holds the policy's address of that
family (4 bytes for IPv4, 16 for IPv6); when it returns false the output family
is `AF_UNSPEC`.  The address unions are 16 bytes long. -/
theorem C12_TryGetRedirectAddressFromContext_contract
    (context : Option FWPM_PROVIDER_CONTEXT) (redirectAddress : REDIRECT_ADDRESS)
    (hout : redirectAddress.address.length = 16)
    (hpolicy : ∀ c b d, context = some c → c.dataBuffer = some b → b.data = some d →
      d.address.length = 16) :
    ((TryGetRedirectAddressFromContext context redirectAddress).1 = true ↔
      ∃ c b d, context = some c ∧ c.type = FWPM_GENERAL_CONTEXT ∧ c.dataBuffer = some b ∧
        b.data = some d ∧ (d.addressFamily = AF_INET ∨ d.addressFamily = AF_INET6)) ∧
    (∀ c b d, context = some c → c.dataBuffer = some b → b.data = some d →
      (TryGetRedirectAddressFromContext context redirectAddress).1 = true →
        (TryGetRedirectAddressFromContext context redirectAddress).2.family = d.addressFamily ∧
        (d.addressFamily = AF_INET →
          readBytes (TryGetRedirectAddressFromContext context redirectAddress).2.address 0 4
            = d.v4) ∧
        (d.addressFamily = AF_INET6 →
          readBytes (TryGetRedirectAddressFromContext context redirectAddress).2.address 0 16
            = d.v6)) ∧
    ((TryGetRedirectAddressFromContext context redirectAddress).1 = false →
      (TryGetRedirectAddressFromContext context redirectAddress).2.family = AF_UNSPEC) := by
  have h64 : ¬ (AF_INET6 = AF_INET) := by decide
  cases context with
  | none => simp [TryGetRedirectAddressFromContext]
  | some c =>
    obtain ⟨type, dataBuffer⟩ := c
    by_cases ht : type = FWPM_GENERAL_CONTEXT
    swap
    · simp [TryGetRedirectAddressFromContext, ht]
    subst ht
    cases dataBuffer with
    | none => simp [TryGetRedirectAddressFromContext]
    | some b =>
      obtain ⟨size, data⟩ := b
      cases data with
      | none => simp [TryGetRedirectAddressFromContext]
      | some d =>
        have hd : d.address.length = 16 := hpolicy _ _ d rfl rfl rfl
        have hv4 : d.v4.length = 4 := by
          simp [CONNECT_REDIRECT_DATA.v4, length_readBytes, hd]
        have hv6 : d.v6.length = 16 := by
          simp [CONNECT_REDIRECT_DATA.v6, length_readBytes, hd]
        have r4 : readBytes (writeBytes redirectAddress.address 0 d.v4) 0 4 = d.v4 := by
          have := readBytes_writeBytes_same redirectAddress.address d.v4 0 (by omega)
          rwa [hv4] at this
        have r6 : readBytes (writeBytes redirectAddress.address 0 d.v6) 0 16 = d.v6 := by
          have := readBytes_writeBytes_same redirectAddress.address d.v6 0 (by omega)
          rwa [hv6] at this
        by_cases h4 : d.addressFamily = AF_INET
        · have h6 : d.addressFamily ≠ AF_INET6 := by
            rw [h4]; exact fun h => h64 h.symm
          refine ⟨by simp [TryGetRedirectAddressFromContext, h4], ?_,
            by simp [TryGetRedirectAddressFromContext, h4]⟩
          intro c b d1 hc hb hd1 _
          simp only [Option.some.injEq] at hc
          subst hc
          simp only [Option.some.injEq] at hb
          subst hb
          simp only [Option.some.injEq] at hd1
          subst hd1
          simp only [TryGetRedirectAddressFromContext, h4, if_true, ne_eq, not_true_eq_false,
            if_false, r4, true_implies, true_and]
          intro h; exact absurd h.symm h64
        · by_cases h6 : d.addressFamily = AF_INET6
          · refine ⟨by simp [TryGetRedirectAddressFromContext, h6, h64], ?_,
              by simp [TryGetRedirectAddressFromContext, h6, h64]⟩
            intro c b d1 hc hb hd1 _
            simp only [Option.some.injEq] at hc
            subst hc
            simp only [Option.some.injEq] at hb
            subst hb
            simp only [Option.some.injEq] at hd1
            subst hd1
            simp only [TryGetRedirectAddressFromContext, h6, h64, if_true, ne_eq,
              not_true_eq_false, if_false, r6, true_implies, true_and, and_true]
            intro h; exact h.elim
          · simp [TryGetRedirectAddressFromContext, h4, h6]

/-- Witness for C12: the context of `sampleFilterV4`, decoded into a fresh
`REDIRECT_ADDRESS`. -/
theorem C12_TryGetRedirectAddressFromContext_contract_witness :
    TryGetRedirectAddressFromContext sampleFilterV4.providerContext {} =
      (true, ⟨AF_INET, [10, 2, 0, 1, 0, 0, 0, 0, 0, 0, 0, 0, 0, 0, 0, 0]⟩) ∧
    (∀ c b d, sampleFilterV4.providerContext = some c → c.dataBuffer = some b →
      b.data = some d →
      (TryGetRedirectAddressFromContext sampleFilterV4.providerContext {}).1 = true →
        (TryGetRedirectAddressFromContext sampleFilterV4.providerContext {}).2.family
          = d.addressFamily ∧
        (d.addressFamily = AF_INET →
          readBytes (TryGetRedirectAddressFromContext sampleFilterV4.providerContext {}).2.address
            0 4 = d.v4) ∧
        (d.addressFamily = AF_INET6 →
          readBytes (TryGetRedirectAddressFromContext sampleFilterV4.providerContext {}).2.address
            0 16 = d.v6)) :=
  ⟨by decide,
    (C12_TryGetRedirectAddressFromContext_contract sampleFilterV4.providerContext {} (by decide)
      (by
        intro c b d hc hb hd
        simp only [sampleFilterV4, Option.some.injEq] at hc
        subst hc
        simp only [Option.some.injEq] at hb
        subst hb
        simp only [Option.some.injEq] at hd
        subst hd
        decide)).2.1⟩

/-! ## The action on return -/

/-- C13 (amended): `RedirectConnection` and `RedirectUDPFlow` return with action
PERMIT on every input.  `BlockDnsBySendingServerFailPacket` returns with action
PERMIT or BLOCK whenever the output has the write right and the packet pointer is
not null; without the write right, or with a null packet, it returns at the guard
of line 555 with the output exactly as it was on entry and no resource touched. -/
theorem C13_action_on_return
    (inFixedValues : Option FWPS_INCOMING_VALUES) (filter : Option FWPS_FILTER)
    (classifyOut : FWPS_CLASSIFY_OUT)
    (envC : EngineEnv FWPS_CONNECT_REQUEST) (envB : EngineEnv FWPS_BIND_REQUEST)
    (h : CalloutH) (packetValues : FWPS_INCOMING_VALUES) (packet : List (List NET_BUFFER))
    (result : FWPS_CLASSIFY_OUT) (env : Nat → PacketEnv) :
    (RedirectConnection inFixedValues filter classifyOut envC).classifyOut.actionType
      = FWP_ACTION_PERMIT ∧
    (RedirectUDPFlow inFixedValues filter classifyOut envB).classifyOut.actionType
      = FWP_ACTION_PERMIT ∧
    (result.rights &&& FWPS_RIGHT_ACTION_WRITE ≠ 0 → packet ≠ [] →
      (BlockDnsBySendingServerFailPacket h packetValues packet result env).1.actionType
          = FWP_ACTION_PERMIT ∨
        (BlockDnsBySendingServerFailPacket h packetValues packet result env).1.actionType
          = FWP_ACTION_BLOCK) ∧
    (result.rights &&& FWPS_RIGHT_ACTION_WRITE = 0 ∨ packet = [] →
      BlockDnsBySendingServerFailPacket h packetValues packet result env = (result, [])) := by
  refine ⟨RedirectConnection_action _ _ _ _, by rw [RedirectUDPFlow_action], ?_, ?_⟩
  · intro hr hp
    cases packet with
    | nil => exact absurd rfl hp
    | cons buffers next =>
      simp only [BlockDnsBySendingServerFailPacket]
      rw [if_neg hr]
      split_ifs
      · exact Or.inl rfl
      · exact Or.inr rfl
      · exact Or.inl rfl
  · intro hg
    cases packet with
    | nil => rfl
    | cons buffers next =>
      rcases hg with hr | hp
      · simp only [BlockDnsBySendingServerFailPacket]
        rw [if_pos hr]
      · exact absurd hp (List.cons_ne_nil _ _)

/-- Witness for C13 (amended): the sample connect and bind, and the sample query
classified with the write right (blocked) and without it (output untouched). -/
theorem C13_action_on_return_witness :
    (BlockDnsBySendingServerFailPacket sampleCalloutH (outboundValues 3 4) [[sampleQuery]]
      ⟨0, 1, 0⟩ (fun _ => kernelOk)).1.actionType = FWP_ACTION_BLOCK ∧
    (⟨0, 1, 0⟩ : FWPS_CLASSIFY_OUT).rights &&& FWPS_RIGHT_ACTION_WRITE ≠ 0 ∧
    ((RedirectConnection (some (connectValuesV4 0 0x08080808)) (some sampleFilterV4) ⟨0, 1, 0⟩
        sampleEngine).classifyOut.actionType = FWP_ACTION_PERMIT ∧
    (RedirectUDPFlow (some (connectValuesV4 0 0x08080808)) (some sampleFilterV4) ⟨0, 1, 0⟩
        sampleBindEngine).classifyOut.actionType = FWP_ACTION_PERMIT ∧
    ((⟨0, 1, 0⟩ : FWPS_CLASSIFY_OUT).rights &&& FWPS_RIGHT_ACTION_WRITE ≠ 0 →
      [[sampleQuery]] ≠ [] →
      (BlockDnsBySendingServerFailPacket sampleCalloutH (outboundValues 3 4) [[sampleQuery]]
          ⟨0, 1, 0⟩ (fun _ => kernelOk)).1.actionType = FWP_ACTION_PERMIT ∨
        (BlockDnsBySendingServerFailPacket sampleCalloutH (outboundValues 3 4) [[sampleQuery]]
          ⟨0, 1, 0⟩ (fun _ => kernelOk)).1.actionType = FWP_ACTION_BLOCK) ∧
    ((⟨0, 1, 0⟩ : FWPS_CLASSIFY_OUT).rights &&& FWPS_RIGHT_ACTION_WRITE = 0 ∨
        [[sampleQuery]] = [] →
      BlockDnsBySendingServerFailPacket sampleCalloutH (outboundValues 3 4) [[sampleQuery]]
        ⟨0, 1, 0⟩ (fun _ => kernelOk) = (⟨0, 1, 0⟩, []))) :=
  ⟨by decide, by decide,
    C13_action_on_return (some (connectValuesV4 0 0x08080808)) (some sampleFilterV4) ⟨0, 1, 0⟩
      sampleEngine sampleBindEngine sampleCalloutH (outboundValues 3 4) [[sampleQuery]]
      ⟨0, 1, 0⟩ (fun _ => kernelOk)⟩

/-- Counterexample to C13 as stated: `BlockDnsBySendingServerFailPacket` entered
with action 0 in the output returns with action 0, neither PERMIT nor BLOCK,
both when the output lacks the write right (on the query it would otherwise
block) and when the packet pointer is null. -/
theorem C13_entry_action_returned :
    (BlockDnsBySendingServerFailPacket sampleCalloutH (outboundValues 3 4) [[sampleQuery]]
      ⟨0, 0, 0⟩ (fun _ => kernelOk)).1.actionType = 0 ∧
    (BlockDnsBySendingServerFailPacket sampleCalloutH (outboundValues 3 4) []
      ⟨0, 1, 0⟩ (fun _ => kernelOk)).1.actionType = 0 ∧
    (BlockDnsBySendingServerFailPacket sampleCalloutH (outboundValues 3 4) [[sampleQuery]]
      ⟨0, 0, 0⟩ (fun _ => kernelOk)).1.actionType ≠ FWP_ACTION_PERMIT ∧
    (BlockDnsBySendingServerFailPacket sampleCalloutH (outboundValues 3 4) [[sampleQuery]]
      ⟨0, 0, 0⟩ (fun _ => kernelOk)).1.actionType ≠ FWP_ACTION_BLOCK ∧
    (BlockDnsBySendingServerFailPacket sampleCalloutH (outboundValues 3 4) []
      ⟨0, 1, 0⟩ (fun _ => kernelOk)).1.actionType ≠ FWP_ACTION_PERMIT ∧
    (BlockDnsBySendingServerFailPacket sampleCalloutH (outboundValues 3 4) []
      ⟨0, 1, 0⟩ (fun _ => kernelOk)).1.actionType ≠ FWP_ACTION_BLOCK :=
  ⟨by decide, by decide, by decide, by decide, by decide, by decide⟩

/-! ## What a redirect leaves alone -/

theorem length_ApplyRedirectAddress (s : List Nat) (ra : REDIRECT_ADDRESS) :
    (ApplyRedirectAddress s ra).2.length = s.length := by
  unfold ApplyRedirectAddress
  split_ifs <;> simp only [writeU16, length_writeBytes]

theorem sin_port_ApplyRedirectAddress (s : List Nat) (ra : REDIRECT_ADDRESS) :
    sin_port (ApplyRedirectAddress s ra).2 = sin_port s := by
  unfold ApplyRedirectAddress
  split_ifs
  · simp only [sin_port, writeU16]
    rw [readBytes_writeBytes_disjoint _ _ _ _ _ (Or.inl (by norm_num)),
      readBytes_writeBytes_disjoint _ _ _ _ _ (Or.inr (by simp [le16]))]
  · simp only [sin_port, writeU16]
    rw [readBytes_writeBytes_disjoint _ _ _ _ _ (Or.inl (by norm_num)),
      readBytes_writeBytes_disjoint _ _ _ _ _ (Or.inr (by simp [le16]))]
  · rfl

theorem readByte_ApplyRedirectAddress_v4 (s addr : List Nat) (i : Nat) (h2 : 2 ≤ i)
    (h : i < 4 ∨ 8 ≤ i) :
    readByte (ApplyRedirectAddress s ⟨AF_INET, addr⟩).2 i = readByte s i := by
  have hl : (readBytes addr 0 4).length ≤ 4 := by
    rw [length_readBytes]; exact Nat.min_le_left _ _
  rw [ApplyRedirectAddress_AF_INET]
  simp only [writeU16]
  rw [readByte_writeBytes, if_neg (by omega), readByte_writeBytes,
    if_neg (by simp only [le16, List.length_cons, List.length_nil]; omega)]

theorem readByte_ApplyRedirectAddress_v6 (s addr : List Nat) (i : Nat) (h2 : 2 ≤ i)
    (h : i < 8 ∨ 24 ≤ i) :
    readByte (ApplyRedirectAddress s ⟨AF_INET6, addr⟩).2 i = readByte s i := by
  have hl : (readBytes addr 0 16).length ≤ 16 := by
    rw [length_readBytes]; exact Nat.min_le_left _ _
  rw [ApplyRedirectAddress_AF_INET6]
  simp only [writeU16]
  rw [readByte_writeBytes, if_neg (by omega), readByte_writeBytes,
    if_neg (by simp only [le16, List.length_cons, List.length_nil]; omega)]

theorem sin6_fields_ApplyRedirectAddress (s addr : List Nat) :
    sin6_flowinfo (ApplyRedirectAddress s ⟨AF_INET6, addr⟩).2 = sin6_flowinfo s ∧
    sin6_scope_id (ApplyRedirectAddress s ⟨AF_INET6, addr⟩).2 = sin6_scope_id s := by
  have hl : (readBytes addr 0 16).length ≤ 16 := by
    rw [length_readBytes]; exact Nat.min_le_left _ _
  rw [ApplyRedirectAddress_AF_INET6]
  simp only [sin6_flowinfo, sin6_scope_id, writeU16]
  constructor
  · rw [readBytes_writeBytes_disjoint _ _ _ _ _ (Or.inl (by norm_num)),
      readBytes_writeBytes_disjoint _ _ _ _ _ (Or.inr (by simp [le16]))]
  · rw [readBytes_writeBytes_disjoint _ _ _ _ _ (Or.inr (by omega)),
      readBytes_writeBytes_disjoint _ _ _ _ _ (Or.inr (by simp [le16]))]

/-- C19: `ApplyRedirectAddress` with an IPv4 redirect address returns true and
changes nothing of the socket address but the family (bytes 0-1) and the address
(bytes 4-7): the length, the port and every other byte stay; with an IPv6
redirect address it returns true and changes nothing but the family and bytes
8-23: the port, the flow info, the scope id and every other byte stay; with any
other family it returns false and the socket address is unchanged.  So
`RedirectConnection` and `RedirectUDPFlow`, on every input, keep the port of
`localAddressAndPort` and every other field of the request. -/
theorem C19_redirect_changes_family_and_address_only
    (s : List Nat) (ra : REDIRECT_ADDRESS)
    (connectValues bindValues : Option FWPS_INCOMING_VALUES) (filter : Option FWPS_FILTER)
    (classifyOut : FWPS_CLASSIFY_OUT)
    (envC : EngineEnv FWPS_CONNECT_REQUEST) (envB : EngineEnv FWPS_BIND_REQUEST) :
    (ra.family = AF_INET →
      (ApplyRedirectAddress s ra).1 = true ∧
      (ApplyRedirectAddress s ra).2.length = s.length ∧
      sin_port (ApplyRedirectAddress s ra).2 = sin_port s ∧
      ∀ i, 2 ≤ i → i < 4 ∨ 8 ≤ i →
        readByte (ApplyRedirectAddress s ra).2 i = readByte s i) ∧
    (ra.family = AF_INET6 →
      (ApplyRedirectAddress s ra).1 = true ∧
      (ApplyRedirectAddress s ra).2.length = s.length ∧
      sin_port (ApplyRedirectAddress s ra).2 = sin_port s ∧
      sin6_flowinfo (ApplyRedirectAddress s ra).2 = sin6_flowinfo s ∧
      sin6_scope_id (ApplyRedirectAddress s ra).2 = sin6_scope_id s ∧
      ∀ i, 2 ≤ i → i < 8 ∨ 24 ≤ i →
        readByte (ApplyRedirectAddress s ra).2 i = readByte s i) ∧
    (ra.family ≠ AF_INET → ra.family ≠ AF_INET6 → ApplyRedirectAddress s ra = (false, s)) ∧
    (sin_port (RedirectConnection connectValues filter classifyOut envC).layerData.localAddressAndPort
        = sin_port envC.layerData.localAddressAndPort ∧
      (RedirectConnection connectValues filter classifyOut envC).layerData.remoteAddressAndPort
        = envC.layerData.remoteAddressAndPort ∧
      (RedirectConnection connectValues filter classifyOut envC).layerData.portReservationToken
        = envC.layerData.portReservationToken ∧
      (RedirectConnection connectValues filter classifyOut envC).layerData.localRedirectTargetPID
        = envC.layerData.localRedirectTargetPID) ∧
    (sin_port (RedirectUDPFlow bindValues filter classifyOut envB).layerData.localAddressAndPort
        = sin_port envB.layerData.localAddressAndPort ∧
      (RedirectUDPFlow bindValues filter classifyOut envB).layerData.portReservationToken
        = envB.layerData.portReservationToken) := by
  refine ⟨?_, ?_, ?_, ?_, ?_⟩
  · intro hf
    obtain ⟨family, address⟩ := ra
    simp only at hf
    subst hf
    refine ⟨by rw [ApplyRedirectAddress_AF_INET], length_ApplyRedirectAddress _ _,
      sin_port_ApplyRedirectAddress _ _, ?_⟩
    intro i h2 h
    exact readByte_ApplyRedirectAddress_v4 s address i h2 h
  · intro hf
    obtain ⟨family, address⟩ := ra
    simp only at hf
    subst hf
    refine ⟨by rw [ApplyRedirectAddress_AF_INET6], length_ApplyRedirectAddress _ _,
      sin_port_ApplyRedirectAddress _ _, (sin6_fields_ApplyRedirectAddress s address).1,
      (sin6_fields_ApplyRedirectAddress s address).2, ?_⟩
    intro i h2 h
    exact readByte_ApplyRedirectAddress_v6 s address i h2 h
  · intro h4 h6
    unfold ApplyRedirectAddress
    rw [if_neg h4, if_neg h6]
  · rcases RedirectConnection_outcomes connectValues filter classifyOut envC with
      ⟨_, h⟩ | ⟨_, _, h⟩ | ⟨_, _, _, h⟩ | ⟨_, _, _, flt, _, h⟩
    · rw [h]; exact ⟨rfl, rfl, rfl, rfl⟩
    · rw [h]; exact ⟨rfl, rfl, rfl, rfl⟩
    · rw [h]; exact ⟨rfl, rfl, rfl, rfl⟩
    · rw [h]; exact ⟨sin_port_ApplyRedirectAddress _ _, rfl, rfl, rfl⟩
  · rcases RedirectUDPFlow_outcomes bindValues filter classifyOut envB with
      ⟨_, h⟩ | ⟨_, _, h⟩ | ⟨_, _, _, h⟩ | ⟨_, _, _, flt, _, h⟩
    · rw [h]; exact ⟨rfl, rfl⟩
    · rw [h]; exact ⟨rfl, rfl⟩
    · rw [h]; exact ⟨rfl, rfl⟩
    · rw [h]; exact ⟨sin_port_ApplyRedirectAddress _ _, rfl⟩

/-- Witness for C19: the IPv4 policy applied to the local address of the sample
connect request, 192.168.1.10:50000, and the sample connect and bind redirected:
the result is 10.2.0.1:50000. -/
theorem C19_redirect_changes_family_and_address_only_witness :
    ApplyRedirectAddress (sockaddrIn 50000 [192, 168, 1, 10])
        ⟨AF_INET, samplePolicyV4.address⟩ = (true, sockaddrIn 50000 [10, 2, 0, 1]) ∧
    (RedirectConnection (some (connectValuesV4 0 0x08080808)) (some sampleFilterV4) ⟨0, 1, 0⟩
        sampleEngine).layerData.localAddressAndPort = sockaddrIn 50000 [10, 2, 0, 1] ∧
    (sin_port (RedirectConnection (some (connectValuesV4 0 0x08080808)) (some sampleFilterV4)
        ⟨0, 1, 0⟩ sampleEngine).layerData.localAddressAndPort
        = sin_port sampleEngine.layerData.localAddressAndPort ∧
      (RedirectConnection (some (connectValuesV4 0 0x08080808)) (some sampleFilterV4)
        ⟨0, 1, 0⟩ sampleEngine).layerData.remoteAddressAndPort
        = sampleEngine.layerData.remoteAddressAndPort ∧
      (RedirectConnection (some (connectValuesV4 0 0x08080808)) (some sampleFilterV4)
        ⟨0, 1, 0⟩ sampleEngine).layerData.portReservationToken
        = sampleEngine.layerData.portReservationToken ∧
      (RedirectConnection (some (connectValuesV4 0 0x08080808)) (some sampleFilterV4)
        ⟨0, 1, 0⟩ sampleEngine).layerData.localRedirectTargetPID
        = sampleEngine.layerData.localRedirectTargetPID) ∧
    (sin_port (RedirectUDPFlow (some (bindValuesV4 0 17)) (some sampleFilterV4)
        ⟨0, 1, 0⟩ sampleBindEngine).layerData.localAddressAndPort
        = sin_port sampleBindEngine.layerData.localAddressAndPort ∧
      (RedirectUDPFlow (some (bindValuesV4 0 17)) (some sampleFilterV4)
        ⟨0, 1, 0⟩ sampleBindEngine).layerData.portReservationToken
        = sampleBindEngine.layerData.portReservationToken) :=
  ⟨by decide, by decide,
    (C19_redirect_changes_family_and_address_only (sockaddrIn 50000 [192, 168, 1, 10])
      ⟨AF_INET, samplePolicyV4.address⟩ (some (connectValuesV4 0 0x08080808))
      (some (bindValuesV4 0 17)) (some sampleFilterV4) ⟨0, 1, 0⟩ sampleEngine
      sampleBindEngine).2.2.2⟩

/-! ## The flags of the synthetic reply -/

/-- C18 (amended): the DNS flags word of every reply `BlockDnsPacket` injects is
0x8002 in host order, and 0x8002 has the response (QR) bit 15 set, the
recursion-available (RA) bit 7 clear, and response code (bits 3..0) equal to 2,
server failure. -/
theorem C18_reply_flags (h : CalloutH) (buffer : NET_BUFFER) (ii si : Nat) (env : PacketEnv)
    (pkt : List Nat) (a b : Nat) (hdns : 4 ≤ h.sizeof_DNSHEADER)
    (hb : ∀ x ∈ buffer.data, x < 256)
    (hinj : Event.inject pkt a b ∈ (BlockDnsPacket h buffer ii si env).2) :
    ntohs (DNSHEADER_flags (udpPayload pkt) 0) = 0x8002 ∧
    specDnsQR (ntohs (DNSHEADER_flags (udpPayload pkt) 0)) = true ∧
    specDnsRA (ntohs (DNSHEADER_flags (udpPayload pkt) 0)) = false ∧
    specDnsRcode (ntohs (DNSHEADER_flags (udpPayload pkt) 0)) = 2 := by
  obtain ⟨n, F, g1, g2, g3, g4, g5, g6, gF, g7⟩ :=
    injected_reply_bytes h buffer ii si env pkt a b hdns hb hinj
  have p0 : readByte pkt 0 = 0x45 := by rw [g7 0 (by omega), if_pos (by omega)]; rfl
  have hu : udpPayload pkt = pkt.drop 28 := by
    simp only [udpPayload, IPHDR_HdrLength, p0]
  have hf2 : readByte (udpPayload pkt) 2 = 0x80 := by
    rw [hu, readByte_drop, g7 30 (by omega), if_neg (by omega), if_pos rfl]
  have hf3 : readByte (udpPayload pkt) 3 = 0x02 := by
    rw [hu, readByte_drop, g7 31 (by omega), if_neg (by omega), if_neg (by omega), if_pos rfl]
  have hflags : ntohs (DNSHEADER_flags (udpPayload pkt) 0) = 0x8002 := by
    simp only [DNSHEADER_flags, readU16, hf2, hf3]; decide
  rw [hflags]
  exact ⟨rfl, by decide, by decide, by decide⟩

/-- Witness for C18 (amended): `sampleQuery`, whose reply is `sampleReply`. -/
theorem C18_reply_flags_witness :
    4 ≤ sampleCalloutH.sizeof_DNSHEADER ∧ (∀ x ∈ sampleQuery.data, x < 256) ∧
    Event.inject sampleReply 3 4 ∈ (BlockDnsPacket sampleCalloutH sampleQuery 3 4 kernelOk).2 ∧
    (ntohs (DNSHEADER_flags (udpPayload sampleReply) 0) = 0x8002 ∧
     specDnsQR (ntohs (DNSHEADER_flags (udpPayload sampleReply) 0)) = true ∧
     specDnsRA (ntohs (DNSHEADER_flags (udpPayload sampleReply) 0)) = false ∧
     specDnsRcode (ntohs (DNSHEADER_flags (udpPayload sampleReply) 0)) = 2) :=
  ⟨by decide, by decide, by decide,
    C18_reply_flags sampleCalloutH sampleQuery 3 4 kernelOk sampleReply 3 4
      (by decide) (by decide) (by decide)⟩

/-- Counterexample to C18 as stated: in 0x8002, and in the flags word of the
reply injected for `sampleQuery`, the recursion-available bit (bit 7) is clear;
the only bits set are bit 15 and bit 1. -/
theorem C18_recursion_available_bit_is_clear :
    specDnsRA 0x8002 = false ∧
    Event.inject sampleReply 3 4 ∈ (BlockDnsPacket sampleCalloutH sampleQuery 3 4 kernelOk).2 ∧
    specDnsRA (ntohs (DNSHEADER_flags (udpPayload sampleReply) 0)) = false ∧
    specDnsRA (ntohs (DNSHEADER_flags (udpPayload sampleReply) 0)) ≠ true ∧
    (0x8002 : Nat) = 2 ^ 15 + 2 ^ 1 :=
  ⟨by decide, by decide, by decide, by decide, by decide⟩

/-! ## The length arithmetic of `BlockDnsPacket` -/

/-- C20: for a buffer that passes the validation of `BlockDnsPacket`, the `UINT`
difference `udp_payload_size` does not underflow, the UDP and the DNS header lie
within the `total_len` bytes of the scratch copy, and so does the payload the
reply copies; `reply_size` is 28 plus the payload, at most `total_len`, which is
at most `MAX_PACKET_SIZE` and at most 65535, so the copy stays inside the reply
buffer of `MAX_PACKET_SIZE` bytes; the 16-bit casts of `reply_size` and of
`udp_payload_size + 8` lose nothing; and a packet `BlockDnsPacket` injects has
`reply_size` bytes. -/
theorem C20_length_arithmetic_is_safe (h : CalloutH) (buffer : NET_BUFFER)
    (hmin : sizeof_IPHDR ≤ buffer.data.length)
    (hmax : buffer.data.length ≤ h.MAX_PACKET_SIZE)
    (htotal : ntohs (IPHDR_Length buffer.data) = buffer.data.length)
    (hihl : sizeof_IPHDR ≤ IPHDR_HdrLength buffer.data * sizeof_UINT32)
    (hdns : IPHDR_HdrLength buffer.data * sizeof_UINT32 + sizeof_UDPHDR + h.sizeof_DNSHEADER
      ≤ buffer.data.length) :
    IPHDR_HdrLength buffer.data * sizeof_UINT32 + sizeof_UDPHDR ≤ buffer.data.length ∧
    udp_payload_size buffer.data.length (IPHDR_HdrLength buffer.data * sizeof_UINT32) =
      buffer.data.length - IPHDR_HdrLength buffer.data * sizeof_UINT32 - sizeof_UDPHDR ∧
    (∀ r scratch, NdisGetDataBuffer buffer buffer.data.length r = some scratch →
      scratch.length = buffer.data.length) ∧
    IPHDR_HdrLength buffer.data * sizeof_UINT32 + sizeof_UDPHDR + h.sizeof_DNSHEADER
      ≤ buffer.data.length ∧
    IPHDR_HdrLength buffer.data * sizeof_UINT32 + sizeof_UDPHDR +
      udp_payload_size buffer.data.length (IPHDR_HdrLength buffer.data * sizeof_UINT32)
      = buffer.data.length ∧
    reply_size (udp_payload_size buffer.data.length
        (IPHDR_HdrLength buffer.data * sizeof_UINT32)) =
      28 + udp_payload_size buffer.data.length (IPHDR_HdrLength buffer.data * sizeof_UINT32) ∧
    reply_size (udp_payload_size buffer.data.length
        (IPHDR_HdrLength buffer.data * sizeof_UINT32)) ≤ buffer.data.length ∧
    buffer.data.length ≤ min h.MAX_PACKET_SIZE 65535 ∧
    sizeof_IPHDR + sizeof_UDPHDR +
      udp_payload_size buffer.data.length (IPHDR_HdrLength buffer.data * sizeof_UINT32)
      ≤ (List.replicate h.MAX_PACKET_SIZE 0).length ∧
    reply_size (udp_payload_size buffer.data.length
        (IPHDR_HdrLength buffer.data * sizeof_UINT32)) % 2 ^ 16 =
      reply_size (udp_payload_size buffer.data.length
        (IPHDR_HdrLength buffer.data * sizeof_UINT32)) ∧
    (udp_payload_size buffer.data.length (IPHDR_HdrLength buffer.data * sizeof_UINT32)
        + sizeof_UDPHDR) % 2 ^ 16 =
      udp_payload_size buffer.data.length (IPHDR_HdrLength buffer.data * sizeof_UINT32)
        + sizeof_UDPHDR ∧
    (∀ ii si env pkt a b, Event.inject pkt a b ∈ (BlockDnsPacket h buffer ii si env).2 →
      pkt.length = reply_size (udp_payload_size buffer.data.length
        (IPHDR_HdrLength buffer.data * sizeof_UINT32))) := by
  have h16 := ntohs_lt (IPHDR_Length buffer.data)
  rw [htotal] at h16
  simp only [sizeof_IPHDR, sizeof_UDPHDR, sizeof_UINT32] at hmin hihl hdns
  have hu : udp_payload_size buffer.data.length (IPHDR_HdrLength buffer.data * 4) =
      buffer.data.length - IPHDR_HdrLength buffer.data * 4 - 8 := by
    simp only [udp_payload_size, sizeof_UDPHDR]
    generalize IPHDR_HdrLength buffer.data * 4 = ihl at *
    generalize buffer.data.length = t at *
    omega
  have hr : reply_size (buffer.data.length - IPHDR_HdrLength buffer.data * 4 - 8) =
      28 + (buffer.data.length - IPHDR_HdrLength buffer.data * 4 - 8) := by
    simp only [reply_size, sizeof_IPHDR, sizeof_UDPHDR]
    generalize IPHDR_HdrLength buffer.data * 4 = ihl at *
    generalize buffer.data.length = t at *
    omega
  simp only [sizeof_IPHDR, sizeof_UDPHDR, sizeof_UINT32, hu, hr, List.length_replicate]
  refine ⟨by omega, trivial, ?_, by omega, by omega, trivial, by omega, ?_, by omega,
    by omega, by omega, ?_⟩
  · intro r scratch hs
    cases r with
    | null => simp [NdisGetDataBuffer] at hs
    | copied =>
      simp only [NdisGetDataBuffer, Option.some.injEq] at hs
      rw [← hs, length_readBytes]; omega
    | inPlace =>
      simp only [NdisGetDataBuffer, Option.some.injEq] at hs
      rw [← hs, List.length_replicate]
  · exact Nat.le_min.mpr ⟨hmax, by omega⟩
  · intro ii si env pkt a b hinj
    obtain ⟨_, _, hpkt, _, _⟩ := BlockDnsPacket_inject h buffer ii si env pkt a b hinj
    rw [hpkt, length_readBytes, length_buildDnsReply]
    omega

/-- Witness for C20: `sampleQuery`, 45 bytes with a 20-byte header and a 17-byte
payload. -/
theorem C20_length_arithmetic_is_safe_witness :
    udp_payload_size sampleQuery.data.length (IPHDR_HdrLength sampleQuery.data * sizeof_UINT32)
      = 17 ∧
    reply_size 17 = 45 ∧
    (∀ ii si env pkt a b,
      Event.inject pkt a b ∈ (BlockDnsPacket sampleCalloutH sampleQuery ii si env).2 →
      pkt.length = reply_size (udp_payload_size sampleQuery.data.length
        (IPHDR_HdrLength sampleQuery.data * sizeof_UINT32))) :=
  ⟨by decide, by decide,
    (C20_length_arithmetic_is_safe sampleCalloutH sampleQuery (by decide) (by decide)
      (by decide) (by decide) (by decide)).2.2.2.2.2.2.2.2.2.2.2⟩

/-! ## The checksum round trip -/

theorem wordSum_succ (data : List Nat) (n : Nat) :
    wordSum data (n + 1) = wordSum data n + readU16 data (2 * n) := by
  simp [wordSum, List.range_succ]

/-- While the accumulator cannot overflow, the loop of `CalcChecksum` computes
the plain sum of the words. -/
theorem CalcChecksum_loop (data : List Nat) :
    ∀ n, n ≤ 65536 → (∀ i, i < n → readU16 data (2 * i) ≤ 65535) →
      (List.range n).foldl (fun sum i => (sum + readU16 data (2 * i)) % 2 ^ 32) 0
        = wordSum data n ∧ wordSum data n ≤ 65535 * n := by
  intro n
  induction n with
  | zero => intro _ _; exact ⟨rfl, by simp [wordSum]⟩
  | succ k ih =>
    intro hk hw
    obtain ⟨e, b⟩ := ih (by omega) (fun i hi => hw i (by omega))
    have hwk := hw k (by omega)
    rw [List.range_succ, List.foldl_append, e, wordSum_succ]
    simp only [List.foldl_cons, List.foldl_nil]
    have hb2 : 65535 * k ≤ 65535 * 65535 := Nat.mul_le_mul_left _ (by omega)
    constructor
    · apply Nat.mod_eq_of_lt
      generalize wordSum data k = s at *
      generalize readU16 data (2 * k) = w at *
      omega
    · generalize wordSum data k = s at *
      generalize readU16 data (2 * k) = w at *
      omega

/-- `CalcChecksum` over an even number of bytes, below `2^17`. -/
theorem CalcChecksum_even (data : List Nat) (len : Nat) (heven : len % 2 = 0)
    (hlen : len < 2 ^ 17) (hw : ∀ i, i < len / 2 → readU16 data (2 * i) ≤ 65535) :
    CalcChecksum data len = foldChecksum (wordSum data (len / 2)) ∧
    wordSum data (len / 2) ≤ 65535 * 65535 := by
  obtain ⟨e, b⟩ := CalcChecksum_loop data (len / 2) (by omega) hw
  have h1 : len &&& 1 = 0 := by rw [Nat.and_one_is_mod]; exact heven
  have h2 : len >>> 1 = len / 2 := by rw [Nat.shiftRight_eq_div_pow]
  have hb2 : 65535 * (len / 2) ≤ 65535 * 65535 := Nat.mul_le_mul_left _ (by omega)
  refine ⟨?_, by omega⟩
  simp only [CalcChecksum, h1, h2, ne_eq, not_true_eq_false, if_false, e]

theorem readU16_writeU16_same (buf : List Nat) (off v : Nat) (h : off + 2 ≤ buf.length) :
    readU16 (writeU16 buf off v) off = v % 65536 := by
  simp only [readU16, writeU16, readByte_writeBytes, le16, List.length_cons, List.length_nil]
  rw [if_pos (by omega), if_pos (by omega)]
  simp only [Nat.sub_self, Nat.add_sub_cancel_left, readByte, List.getD_cons_zero,
    List.getD_cons_succ]
  omega

theorem readU16_writeU16_other (buf : List Nat) (j i v : Nat) (h : i ≠ j) :
    readU16 (writeU16 buf (2 * j) v) (2 * i) = readU16 buf (2 * i) := by
  simp only [readU16, writeU16, readByte_writeBytes, le16, List.length_cons, List.length_nil]
  rw [if_neg (by omega), if_neg (by omega)]

theorem wordSum_writeU16 (buf : List Nat) (j c : Nat) (hc : c < 65536)
    (hj : 2 * j + 2 ≤ buf.length) (hz : readU16 buf (2 * j) = 0) :
    ∀ n, wordSum (writeU16 buf (2 * j) c) n = wordSum buf n + if j < n then c else 0 := by
  intro n
  induction n with
  | zero => simp [wordSum]
  | succ k ih =>
    rw [wordSum_succ, wordSum_succ, ih]
    by_cases hk : k = j
    · subst hk
      rw [readU16_writeU16_same _ _ _ hj, hz, Nat.mod_eq_of_lt hc, if_neg (by omega),
        if_pos (by omega)]
    · rw [readU16_writeU16_other _ _ _ _ hk]
      by_cases hjk : j < k
      · rw [if_pos hjk, if_pos (by omega)]; omega
      · rw [if_neg hjk, if_neg (by omega)]; omega

/-- C11: for an even-length byte sequence `H` of fewer than `2^17` bytes whose
16-bit checksum field, at an even offset `2 * j`, is zero, `CalcChecksum` over
`H` with `CalcChecksum H` stored in the field is 0, and the sum of the words of
that sequence with its carries folded is 0xFFFF. -/
theorem C11_CalcChecksum_self_verifying (H : List Nat) (j : Nat)
    (hb : ∀ x ∈ H, x < 256) (heven : H.length % 2 = 0) (hlen : H.length < 2 ^ 17)
    (hj : 2 * j + 2 ≤ H.length) (hz : readU16 H (2 * j) = 0) :
    CalcChecksum (writeU16 H (2 * j) (CalcChecksum H H.length)) H.length = 0 ∧
    foldCarries (wordSum (writeU16 H (2 * j) (CalcChecksum H H.length)) (H.length / 2))
      = 0xFFFF := by
  have hwH : ∀ i, readU16 H (2 * i) ≤ 65535 := fun i =>
    Nat.le_of_lt_succ (readU16_lt H (2 * i) (readByte_lt H hb _) (readByte_lt H hb _))
  obtain ⟨e1, b1⟩ := CalcChecksum_even H H.length heven hlen (fun i _ => hwH i)
  obtain ⟨c1, c2, c3⟩ := foldChecksum_verify (wordSum H (H.length / 2)) (by omega)
  rw [e1]
  have hsum := wordSum_writeU16 H j (foldChecksum (wordSum H (H.length / 2))) c1 hj hz
    (H.length / 2)
  rw [if_pos (by omega)] at hsum
  have hw2 : ∀ i, i < H.length / 2 →
      readU16 (writeU16 H (2 * j) (foldChecksum (wordSum H (H.length / 2)))) (2 * i)
        ≤ 65535 := by
    intro i _
    by_cases hi : i = j
    · subst hi
      rw [readU16_writeU16_same _ _ _ hj]
      omega
    · rw [readU16_writeU16_other _ _ _ _ hi]
      exact hwH i
  obtain ⟨e2, _⟩ := CalcChecksum_even
    (writeU16 H (2 * j) (foldChecksum (wordSum H (H.length / 2)))) H.length heven hlen hw2
  rw [e2, hsum]
  exact ⟨c3, c2⟩

/-- Witness for C11: the IP header of `sampleReply`, whose checksum is the word
with bytes 168 and 254. -/
theorem C11_CalcChecksum_self_verifying_witness :
    CalcChecksum sampleHeader sampleHeader.length = 168 + 256 * 254 ∧
    writeU16 sampleHeader (2 * 5) (CalcChecksum sampleHeader sampleHeader.length)
      = readBytes sampleReply 0 20 ∧
    (CalcChecksum (writeU16 sampleHeader (2 * 5)
        (CalcChecksum sampleHeader sampleHeader.length)) sampleHeader.length = 0 ∧
      foldCarries (wordSum (writeU16 sampleHeader (2 * 5)
        (CalcChecksum sampleHeader sampleHeader.length)) (sampleHeader.length / 2)) = 0xFFFF) :=
  ⟨by decide, by decide,
    C11_CalcChecksum_self_verifying sampleHeader 5 (by decide) (by decide) (by decide)
      (by decide) (by decide)⟩

end Callout
